import Mathlib

/-!
# micro-warehouse-api: stock-consistency protocol

A shallow embedding of the Go services' order-creation, payment-callback and
stock-ledger code, and theorems about it.

Conventions of the embedding

* Go `uint` identifiers are `Nat`.
* Go `int` / `int64` values are `Int`; the services are built for 64-bit
  targets, so `int` and `int64` coincide and conversions between them are the
  identity.  Arithmetic wraps modulo `2^64` (`wrapInt64`).
* Go `error` results are `Except String _`; the string is the error text.
* A relational table is the list of its rows.  Timestamps (`created_at`,
  `updated_at`) are not part of the embedding.
* A statement sent to the database can fail for reasons outside the program
  (connection loss, cancelled context).  Each repository function therefore
  takes a record of booleans naming, per statement, whether the store refuses
  it.
-/

namespace MicroWarehouse

/-! ## Machine integers -/

/-- Two's-complement wrap of an integer into the `int64` range. -/
def wrapInt64 (x : Int) : Int := (x + 2 ^ 63) % 2 ^ 64 - 2 ^ 63

/-- The value fits a Go `int64` (and a 64-bit Go `int`). -/
def isInt64 (x : Int) : Prop := -(2 ^ 63) ≤ x ∧ x < 2 ^ 63

instance (x : Int) : Decidable (isInt64 x) := by unfold isInt64; infer_instance

/-! ## IEEE-754 binary64 arithmetic of the tax computation

`taxtotal := int64(float64(subtotal) * 0.11)` converts an `int64` to a double,
multiplies by the double nearest to `0.11`, and truncates.  Every value that
occurs is zero or has magnitude between `0.11` and `2^63`, hence is a normal
double, so rounding a magnitude means rounding it to 53 significant bits,
ties to even. -/

/-- Number of binary digits of `n`, by halving at most `fuel` times. -/
def bitLengthAux : Nat → Nat → Nat
  | 0, _ => 0
  | fuel + 1, n => if n = 0 then 0 else bitLengthAux fuel (n / 2) + 1

/-- Number of binary digits of `n` (`n` halvings always suffice). -/
def bitLength (n : Nat) : Nat := bitLengthAux n n

/-- Round a magnitude to 53 significant bits, ties to even. -/
def roundSig53 (n : Nat) : Nat :=
  let len := bitLength n
  if len ≤ 53 then n
  else
    let shift := len - 53
    let q := n / 2 ^ shift
    let r := n % 2 ^ shift
    let half := 2 ^ (shift - 1)
    if half < r ∨ (r = half ∧ q % 2 = 1) then (q + 1) * 2 ^ shift else q * 2 ^ shift

/-- Go `float64(x)` for an `int64` `x`.  The result is an integer-valued
double; the function returns that integer. -/
def float64OfInt64 (x : Int) : Int := x.sign * (roundSig53 x.natAbs : Nat)

/-- The double nearest to the constant `0.11` is `taxRateNum / 2^56`. -/
def taxRateNum : Nat := 7926335344172073

/-- Go `f * 0.11` for an integer-valued double `f`: the exact product
`f * taxRateNum / 2^56` rounded to a double.  The result is returned as its
numerator over `2^56`. -/
def float64MulTaxRate (f : Int) : Int := f.sign * (roundSig53 (f.natAbs * taxRateNum) : Nat)

/-- Go `int64(g)` for the double `g = num / 2^56`: truncation toward zero. -/
def int64OfFloat64 (num : Int) : Int := Int.tdiv num (2 ^ 56)

/-! ## transaction-service/model -/

def PaymentStatusPending : String := "pending"
def PaymentStatusSuccess : String := "success"
def PaymentStatusFailed : String := "failed"
def PaymentStatusExpired : String := "expired"
def PaymentStatusCancel : String := "cancel"

def PaymentMethodQRIS : String := "qris"

/-- The `statusMap` literal of `ConvertMidtransStatusToInternal`. -/
def statusMap : List (String × String) :=
  [ ("capture", PaymentStatusSuccess),
    ("settlement", PaymentStatusSuccess),
    ("pending", PaymentStatusPending),
    ("deny", PaymentStatusFailed),
    ("cancel", PaymentStatusCancel),
    ("expire", PaymentStatusExpired) ]

/-- `model.ConvertMidtransStatusToInternal`: look the provider status up in
`statusMap`, falling back to `failed`. -/
def ConvertMidtransStatusToInternal (midtransStatus : String) : String :=
  match statusMap.lookup midtransStatus with
  | some internalStatus => internalStatus
  | none => PaymentStatusFailed

/-- `model.TransactionProduct` (columns only; the `gorm:"-"` display fields
are not stored). -/
structure TransactionProduct where
  ID : Nat := 0
  ProductID : Nat
  Quantity : Int
  Price : Int
  SubTotal : Int
  TransactionID : Nat := 0
deriving DecidableEq, Repr

/-- `model.Transaction`. -/
structure Transaction where
  ID : Nat := 0
  Name : String := ""
  Phone : String := ""
  Email : String := ""
  Address : String := ""
  SubTotal : Int := 0
  TaxTotal : Int := 0
  GrandTotal : Int := 0
  MerchantID : Nat := 0
  PaymentStatus : String := ""
  PaymentMethod : String := ""
  PaymentCode : String := ""
  OrderID : String := ""
  TransactionCode : String := ""
  PaymentToken : String := ""
  CallbackURL : String := ""
  Notes : String := ""
  Currency : String := ""
  FraudStatus : String := ""
  TransactionProducts : List TransactionProduct := []
deriving DecidableEq, Repr

/-! ## transaction-service/controller/request -/

/-- `request.CreateTransactionProductRequest`. -/
structure CreateTransactionProductRequest where
  ProductID : Nat
  Quantity : Int
  Price : Int
deriving DecidableEq, Repr

/-- `request.CreateTransactionWithProductsRequest` (with the embedded
`CreateTransactionRequest` flattened). -/
structure CreateTransactionWithProductsRequest where
  Name : String := ""
  Phone : String := ""
  Email : String := ""
  Address : String := ""
  MerchantID : Nat := 0
  Notes : String := ""
  Currency : String := ""
  Products : List CreateTransactionProductRequest := []
deriving DecidableEq, Repr

/-- `request.MidtransCallbackRequest`. -/
structure MidtransCallbackRequest where
  OrderID : String := ""
  TransactionStatus : String := ""
  PaymentType : String := ""
  FraudStatus : String := ""
  TransactionID : String := ""
  StatusCode : String := ""
  SignatureKey : String := ""
deriving DecidableEq, Repr

/-! ## transaction-service/controller: building the order -/

namespace TransactionService.Controller

/-- The first loop of `CreateTransaction`:
`subtotal += int64(product.Price) * product.Quantity`, in `int64`. -/
def subtotalOf (products : List CreateTransactionProductRequest) : Int :=
  products.foldl (fun subtotal product =>
    wrapInt64 (subtotal + wrapInt64 (product.Price * product.Quantity))) 0

/-- The controller's `taxtotal := int64(float64(subtotal) * 0.11)`. -/
def taxtotalOf (subtotal : Int) : Int :=
  int64OfFloat64 (float64MulTaxRate (float64OfInt64 subtotal))

/-- The controller's `orderID := fmt.Sprintf("ORDER_%d_%d", time.Now().Unix(), req.MerchantID)`;
`now` is the Unix time read from the clock. -/
def orderIDOf (now : Int) (merchantID : Nat) : String :=
  "ORDER_" ++ toString now ++ "_" ++ toString merchantID

/-- Lines 43-86 of `transactionController.CreateTransaction`: the
`model.Transaction` handed to the use case. -/
def buildTransaction (now : Int) (req : CreateTransactionWithProductsRequest) : Transaction :=
  let subtotal := subtotalOf req.Products
  let taxtotal := taxtotalOf subtotal
  let grandtotal := wrapInt64 (subtotal + taxtotal)
  { Name := req.Name
    Phone := req.Phone
    Email := req.Email
    Address := req.Address
    SubTotal := subtotal
    TaxTotal := taxtotal
    GrandTotal := grandtotal
    MerchantID := req.MerchantID
    Notes := req.Notes
    Currency := "IDR"
    OrderID := orderIDOf now req.MerchantID
    PaymentStatus := PaymentStatusPending
    PaymentMethod := PaymentMethodQRIS
    TransactionProducts := req.Products.map (fun product =>
      { ProductID := product.ProductID
        Quantity := product.Quantity
        Price := product.Price
        SubTotal := wrapInt64 (product.Price * product.Quantity) }) }

end TransactionService.Controller

/-! ## Go errors and a query helper -/

deriving instance DecidableEq for Except

/-- A Go call returned a non-nil `error`. -/
def isErr {α : Type} (r : Except String α) : Bool :=
  match r with
  | .error _ => true
  | .ok _ => false

/-- Gorm `First`: among the rows satisfying the condition, the one with the
smallest primary key (`ORDER BY id LIMIT 1`); `none` is `ErrRecordNotFound`. -/
def firstByKey {α : Type} (key : α → Nat) (cond : α → Bool) (rows : List α) : Option α :=
  (rows.filter cond).foldl (fun best row =>
    match best with
    | none => some row
    | some b => if key row < key b then some row else some b) none

/-! ## transaction-service/repository

The store of the transaction service: the two tables and their `bigserial`
sequences.  A sequence is not transactional: a value drawn inside a
transaction that is rolled back is not given back. -/

structure TransactionDB where
  transactions : List Transaction := []
  transactionProducts : List TransactionProduct := []
  transactionsSeq : Nat := 0
  transactionProductsSeq : Nat := 0
deriving DecidableEq, Repr

/-- Which statements of `CreateTransaction` the store refuses. -/
structure CreateTransactionFaults where
  ctxDone : Bool := false
  beginErr : Bool := false
  createTransactionErr : Bool := false
  createProductErr : Nat → Bool := fun _ => false
  commitErr : Bool := false

/-- Which statements of `UpdatePaymentStatus` the store refuses. -/
structure UpdatePaymentStatusFaults where
  ctxDone : Bool := false
  firstErr : Bool := false
  updatesErr : Bool := false
deriving DecidableEq, Repr

namespace TransactionService.Repository

/-- `tx.Create(&transaction)`: `INSERT INTO transactions`.  A zero `ID` is
drawn from the sequence.  The insert is rejected when the store refuses the
statement, when the primary key or the unique `order_id` is already present,
or when the key does not fit the `bigint` column.  Returns the row as stored
(the struct with its `ID` filled in). -/
def insertTransaction (tx : TransactionDB) (refused : Bool) (transaction : Transaction) :
    Except String Transaction × TransactionDB :=
  if refused then (.error "create transaction: statement failed", tx)
  else
    let id := if transaction.ID = 0 then tx.transactionsSeq + 1 else transaction.ID
    let tx1 := if transaction.ID = 0 then { tx with transactionsSeq := tx.transactionsSeq + 1 } else tx
    if 2 ^ 63 ≤ id then (.error "bigint out of range", tx1)
    else if tx.transactions.any (fun row => row.ID == id) then
      (.error "duplicate key value violates unique constraint transactions_pkey", tx1)
    else if tx.transactions.any (fun row => row.OrderID == transaction.OrderID) then
      (.error "duplicate key value violates unique constraint idx_transactions_order_id", tx1)
    else
      let row := { transaction with ID := id }
      (.ok row, { tx1 with transactions := tx1.transactions ++ [row] })

/-- `tx.Create(&modelTransactionProduct)`: `INSERT INTO transaction_products`. -/
def insertTransactionProduct (tx : TransactionDB) (refused : Bool) (product : TransactionProduct) :
    Except String TransactionProduct × TransactionDB :=
  if refused then (.error "create transaction product: statement failed", tx)
  else
    let id := if product.ID = 0 then tx.transactionProductsSeq + 1 else product.ID
    let tx1 :=
      if product.ID = 0 then { tx with transactionProductsSeq := tx.transactionProductsSeq + 1 } else tx
    if 2 ^ 63 ≤ id then (.error "bigint out of range", tx1)
    else if tx.transactionProducts.any (fun row => row.ID == id) then
      (.error "duplicate key value violates unique constraint transaction_products_pkey", tx1)
    else
      let row := { product with ID := id }
      (.ok row, { tx1 with transactionProducts := tx1.transactionProducts ++ [row] })

/-- `tx.Rollback()`, and equally a `tx.Commit()` that fails: the tables are
those before `Begin`; the sequences keep the values drawn meanwhile. -/
def rollback (db tx : TransactionDB) : TransactionDB :=
  { db with transactionsSeq := tx.transactionsSeq
            transactionProductsSeq := tx.transactionProductsSeq }

/-- The `for _, product := range products` loop of `CreateTransaction`, from
the line at position `i` on; stops at the first insert that fails. -/
def createProducts (faults : CreateTransactionFaults) (transactionID : Nat) :
    Nat → List TransactionProduct → TransactionDB → Except String Unit × TransactionDB
  | _, [], tx => (.ok (), tx)
  | i, product :: rest, tx =>
    let modelTransactionProduct : TransactionProduct :=
      { ProductID := product.ProductID
        Quantity := product.Quantity
        Price := product.Price
        SubTotal := product.SubTotal
        TransactionID := transactionID }
    match insertTransactionProduct tx (faults.createProductErr i) modelTransactionProduct with
    | (.error err, tx1) => (.error err, tx1)
    | (.ok _, tx1) => createProducts faults transactionID (i + 1) rest tx1

/-- `transactionRepository.CreateTransaction`. -/
def CreateTransaction (db : TransactionDB) (faults : CreateTransactionFaults)
    (transaction : Transaction) : Except String Int × TransactionDB :=
  if faults.ctxDone then (.error "context canceled", db)
  else if faults.beginErr then (.error "begin: statement failed", db)
  else
    let products := transaction.TransactionProducts
    let transaction := { transaction with TransactionProducts := [] }
    match insertTransaction db faults.createTransactionErr transaction with
    | (.error err, tx1) => (.error err, rollback db tx1)
    | (.ok transaction, tx1) =>
      match createProducts faults transaction.ID 0 products tx1 with
      | (.error err, tx2) => (.error err, rollback db tx2)
      | (.ok _, tx2) =>
        if faults.commitErr then (.error "commit: statement failed", rollback db tx2)
        else (.ok (wrapInt64 transaction.ID), tx2)

/-- The `updates` map of `UpdatePaymentStatus` applied to one row. -/
def applyUpdates (paymentStatus paymentMethod transactionID fraudStatus : String)
    (row : Transaction) : Transaction :=
  let row := { row with PaymentStatus := paymentStatus }
  let row := if paymentMethod ≠ "" then { row with PaymentMethod := paymentMethod } else row
  let row := if transactionID ≠ "" then { row with TransactionCode := transactionID } else row
  if fraudStatus ≠ "" then { row with FraudStatus := fraudStatus } else row

/-- `transactionRepository.UpdatePaymentStatus`.  No operation of the service
soft-deletes a transaction, so every stored row is visible to the queries. -/
def UpdatePaymentStatus (db : TransactionDB) (faults : UpdatePaymentStatusFaults)
    (orderID paymentStatus paymentMethod transactionID fraudStatus : String) :
    Except String Unit × TransactionDB :=
  if faults.ctxDone then (.error "context canceled", db)
  else if faults.firstErr then (.error "select: statement failed", db)
  else
    match firstByKey Transaction.ID (fun row => row.OrderID == orderID) db.transactions with
    | none => (.error "record not found", db)
    | some _ =>
      if faults.updatesErr then (.error "update: statement failed", db)
      else
        (.ok (), { db with transactions := db.transactions.map (fun row =>
          if row.OrderID == orderID then
            applyUpdates paymentStatus paymentMethod transactionID fraudStatus row
          else row) })

end TransactionService.Repository

/-! ## transaction-service/pkg/httpclient -/

/-- `httpclient.MerchantProduct`: one entry of the merchant service's answer. -/
structure MerchantProductResponse where
  ID : Nat := 0
  MerchantID : Nat := 0
  ProductID : Nat := 0
  ProductName : String := ""
  Stock : Int := 0
  WarehouseID : Nat := 0
deriving DecidableEq, Repr

/-- What `httpClient.Do` and `io.ReadAll` deliver: the status code and the
body; the body is given decoded (`data.merchant_products`), `none` when
`json.Unmarshal` rejects it. -/
structure MerchantProductsReply where
  StatusCode : Nat
  Body : Option (List MerchantProductResponse)
deriving DecidableEq, Repr

/-- `httpclient.Merchant`: the merchant service's answer about one merchant. -/
structure MerchantResponse where
  ID : Nat := 0
  Name : String := ""
  Address : String := ""
  Phone : String := ""
  KeeperID : Nat := 0
deriving DecidableEq, Repr

/-- What `httpClient.Do` and `io.ReadAll` deliver for `/api/v1/merchants/<id>`:
the status code and the body; the body is given decoded (`data`), `none` when
`json.Unmarshal` rejects it. -/
structure MerchantReply where
  StatusCode : Nat
  Body : Option MerchantResponse
deriving DecidableEq, Repr

/-- The environment of `MerchantClient`: the result of
`generateInternalToken`, per (merchant id, product id) the outcome of the
GET request to `/api/v1/merchant-products`, and per merchant id the outcome of
the GET request to `/api/v1/merchants/<id>`. -/
structure MerchantClient where
  token : Except String String
  get : Nat → Nat → Except String MerchantProductsReply
  getMerchant : Nat → Except String MerchantReply := fun _ => .error "connection refused"

namespace TransactionService.Httpclient

/-- `MerchantClient.GetMerchantProductStock`. -/
def GetMerchantProductStock (m : MerchantClient) (merchantID productID : Nat) :
    Except String MerchantProductResponse :=
  match m.token with
  | .error err => .error err
  | .ok _ =>
    match m.get merchantID productID with
    | .error err => .error err
    | .ok resp =>
      if resp.StatusCode ≠ 200 then .error "failed to get merchant product stock"
      else
        match resp.Body with
        | none => .error "invalid character looking for beginning of value"
        | some merchantProducts =>
          match merchantProducts.find? (fun product => product.ProductID == productID) with
          | some product => .ok product
          | none => .error "product not found"

/-- `MerchantClient.GetMerchantByID`. -/
def GetMerchantByID (m : MerchantClient) (merchantID : Nat) : Except String MerchantResponse :=
  match m.token with
  | .error err => .error err
  | .ok _ =>
    match m.getMerchant merchantID with
    | .error err => .error err
    | .ok resp =>
      if resp.StatusCode ≠ 200 then .error "failed to get merchant by id"
      else
        match resp.Body with
        | none => .error "invalid character looking for beginning of value"
        | some merchant => .ok merchant

end TransactionService.Httpclient

/-! ## transaction-service/pkg/rabbitmq -/

/-- `rabbitmq.StockReducedEventProduct`. -/
structure StockReducedEventProduct where
  ProductID : Nat
  Quantity : Int
deriving DecidableEq, Repr

/-- `rabbitmq.StockReducedEvent`; `Timestamp` is Unix time. -/
structure StockReducedEvent where
  MerchantID : Nat := 0
  Products : List StockReducedEventProduct := []
  OrderID : String := ""
  Timestamp : Int := 0
deriving DecidableEq, Repr

/-! ## transaction-service/usecase -/

/-- A call the use case makes on a collaborator that changes the world. -/
inductive Call where
  | repoCreateTransaction (transaction : Transaction)
  | publishStockReducedEvent (event : StockReducedEvent)
deriving DecidableEq, Repr

/-- The collaborators of `transactionUsecase` that `CreateTransaction` uses:
the merchant client's stock lookup (an interface method), the store's
behaviour, the broker's answer to a publish, and the clock. -/
structure UsecaseEnv where
  GetMerchantProductStock : Nat → Nat → Except String MerchantProductResponse
  repoFaults : CreateTransactionFaults := {}
  publishErr : Bool := false
  now : Int := 0

/-- Outcome of the use case: the returned pair, the store afterwards, the
calls made (in order), and the events the broker accepted. -/
structure UsecaseOutcome where
  result : Except String Int
  db : TransactionDB
  calls : List Call
  published : List StockReducedEvent

namespace TransactionService.Usecase

/-- The error text of an insufficient stock. -/
def insufficientStockError (productName : String) (quantity stock : Int) : String :=
  "stock tidak mencukupi untuk product '" ++ productName ++ "'. Dibutuhkan: " ++
    toString quantity ++ ", Tersedia: " ++ toString stock

/-- The loop of `validateProductStocks` over the remaining line items. -/
def validateLines (getStock : Nat → Nat → Except String MerchantProductResponse)
    (merchantID : Nat) : List TransactionProduct → Except String Unit
  | [] => .ok ()
  | product :: rest =>
    match getStock merchantID product.ProductID with
    | .error err => .error err
    | .ok merchantProduct =>
      if merchantProduct.Stock < product.Quantity then
        .error (insufficientStockError merchantProduct.ProductName product.Quantity
          merchantProduct.Stock)
      else validateLines getStock merchantID rest

/-- `transactionUsecase.validateProductStocks`. -/
def validateProductStocks (env : UsecaseEnv) (transaction : Transaction) : Except String Unit :=
  validateLines env.GetMerchantProductStock transaction.MerchantID transaction.TransactionProducts

/-- The event `publishStockReducedEvent` builds. -/
def stockReducedEventOf (now : Int) (transaction : Transaction) : StockReducedEvent :=
  { MerchantID := transaction.MerchantID
    Products := transaction.TransactionProducts.map (fun product =>
      { ProductID := product.ProductID, Quantity := product.Quantity })
    OrderID := transaction.OrderID
    Timestamp := now }

/-- `transactionUsecase.CreateTransaction`.  The publish runs in a goroutine
started before the return; its error is only logged. -/
def CreateTransaction (env : UsecaseEnv) (db : TransactionDB) (transaction : Transaction) :
    UsecaseOutcome :=
  match validateProductStocks env transaction with
  | .error err => { result := .error err, db := db, calls := [], published := [] }
  | .ok _ =>
    match Repository.CreateTransaction db env.repoFaults transaction with
    | (.error err, db1) =>
      { result := .error err, db := db1, calls := [.repoCreateTransaction transaction],
        published := [] }
    | (.ok transactionID, db1) =>
      let event := stockReducedEventOf env.now transaction
      { result := .ok transactionID
        db := db1
        calls := [.repoCreateTransaction transaction, .publishStockReducedEvent event]
        published := if env.publishErr then [] else [event] }

/-- `transactionUsecase.UpdatePaymentStatus`. -/
def UpdatePaymentStatus (db : TransactionDB) (faults : UpdatePaymentStatusFaults)
    (orderID paymentStatus paymentMethod transactionID fraudStatus : String) :
    Except String Unit × TransactionDB :=
  Repository.UpdatePaymentStatus db faults orderID paymentStatus paymentMethod transactionID
    fraudStatus

end TransactionService.Usecase

/-! ## transaction-service/controller: the payment callback -/

namespace TransactionService.Controller

/-- `transactionController.MidtransCallback`: the HTTP status answered and the
store afterwards.  `body` is the outcome of `c.BodyParser(&req)`, `none` when
the body cannot be parsed. -/
def MidtransCallback (db : TransactionDB) (faults : UpdatePaymentStatusFaults)
    (body : Option MidtransCallbackRequest) : Nat × TransactionDB :=
  match body with
  | none => (400, db)
  | some req =>
    let internalStatus := ConvertMidtransStatusToInternal req.TransactionStatus
    match Usecase.UpdatePaymentStatus db faults req.OrderID internalStatus req.PaymentType
        req.TransactionID req.FraudStatus with
    | (.error _, db1) => (500, db1)
    | (.ok _, db1) => (200, db1)

end TransactionService.Controller

/-! ## merchant-service -/

/-- `model.MerchantProduct`: one row of the merchant stock ledger. -/
structure MerchantProduct where
  ID : Nat
  MerchantID : Nat
  ProductID : Nat
  WarehouseID : Nat := 0
  Stock : Int
deriving DecidableEq, Repr

/-- Which statements of `ReduceStock` the store refuses. -/
structure ReduceStockFaults where
  ctxDone : Bool := false
  firstErr : Bool := false
  updateErr : Bool := false
deriving DecidableEq, Repr

/-- An `amqp.Delivery` as the consumers see it: its body. -/
structure Delivery where
  Body : String
deriving DecidableEq, Repr

/-- What handling one delivery did: the returned error, whether `msg.Ack` was
called, and the ledger afterwards. -/
structure Handled (Row : Type) where
  err : Option String
  acked : Bool
  ledger : List Row

namespace MerchantService.Repository

/-- `merchantProductRepository.ReduceStock`. -/
def ReduceStock (ledger : List MerchantProduct) (faults : ReduceStockFaults)
    (merchantID productID : Nat) (quantity : Int) : Except String Unit × List MerchantProduct :=
  if faults.ctxDone then (.error "context canceled", ledger)
  else if faults.firstErr then (.error "select: statement failed", ledger)
  else
    match firstByKey MerchantProduct.ID
        (fun row => row.MerchantID == merchantID && row.ProductID == productID) ledger with
    | none => (.error "record not found", ledger)
    | some merchantProduct =>
      if merchantProduct.Stock < quantity then (.error "stock not enough", ledger)
      else
        let newStock := wrapInt64 (merchantProduct.Stock - quantity)
        if faults.updateErr then (.error "update: statement failed", ledger)
        else
          (.ok (), ledger.map (fun row =>
            if row.ID == merchantProduct.ID then { row with Stock := newStock } else row))

end MerchantService.Repository

namespace MerchantService.Rabbitmq

/-- The `autoAck` argument of `s.ch.Consume` in `ConsumeStockReductionEvents`. -/
def consumeAutoAck : Bool := false

/-- `StockConsumer.reduceStock`: `ReduceStock` under `context.Background()`,
which is never done. -/
def reduceStock (ledger : List MerchantProduct) (faults : ReduceStockFaults)
    (merchantID productID : Nat) (quantity : Int) : Except String Unit × List MerchantProduct :=
  Repository.ReduceStock ledger { faults with ctxDone := false } merchantID productID quantity

/-- The `for _, product := range event.Products` loop of
`handleStockReductionEvent`, from the product at position `i` on: a product
whose decrement fails is logged and skipped. -/
def reduceProducts (faults : Nat → ReduceStockFaults) (merchantID : Nat) :
    Nat → List StockReducedEventProduct → List MerchantProduct → List MerchantProduct
  | _, [], ledger => ledger
  | i, product :: rest, ledger =>
    match reduceStock ledger (faults i) merchantID product.ProductID product.Quantity with
    | (.error _, ledger1) => reduceProducts faults merchantID (i + 1) rest ledger1
    | (.ok _, ledger1) => reduceProducts faults merchantID (i + 1) rest ledger1

/-- `StockConsumer.handleStockReductionEvent`.  `unmarshal` is `json.Unmarshal`
into a `StockReducedEvent`.  The deferred `msg.Ack(false)` runs on every
return. -/
def handleStockReductionEvent (unmarshal : String → Option StockReducedEvent)
    (faults : Nat → ReduceStockFaults) (ledger : List MerchantProduct) (msg : Delivery) :
    Handled MerchantProduct :=
  let deferredAck := true
  match unmarshal msg.Body with
  | none => { err := some "json: cannot unmarshal", acked := deferredAck, ledger := ledger }
  | some event =>
    { err := none
      acked := deferredAck
      ledger := reduceProducts faults event.MerchantID 0 event.Products ledger }

end MerchantService.Rabbitmq

/-! ## warehouse-service -/

/-- `model.WarehouseProduct`: one row of the warehouse stock ledger. -/
structure WarehouseProduct where
  ID : Nat
  WarehouseID : Nat
  ProductID : Nat
  Stock : Int
deriving DecidableEq, Repr

/-- The consumer side `rabbitmq.StockReductionEvent`; `Timestamp` is Unix time. -/
structure StockReductionEvent where
  WarehouseID : Nat := 0
  ProductID : Nat := 0
  Stock : Int := 0
  MerchantID : Nat := 0
  Timestamp : Int := 0
deriving DecidableEq, Repr

/-- Which statements of `processStockReduction` the store refuses: those of
`GetWarehouseProductByWarehouseIDAndProductID` (`getCtxDone`, `getFirstErr`)
and those of `UpdateWarehouseProduct`. -/
structure StockReductionFaults where
  getCtxDone : Bool := false
  getFirstErr : Bool := false
  updateCtxDone : Bool := false
  updateFirstErr : Bool := false
  saveErr : Bool := false
deriving DecidableEq, Repr

namespace WarehouseService.Repository

/-- `warehouseProductRepository.GetWarehouseProductByWarehouseIDAndProductID`. -/
def GetWarehouseProductByWarehouseIDAndProductID (ledger : List WarehouseProduct)
    (faults : StockReductionFaults) (warehouseID productID : Nat) :
    Except String WarehouseProduct :=
  if faults.getCtxDone then .error "context canceled"
  else if faults.getFirstErr then .error "select: statement failed"
  else
    match firstByKey WarehouseProduct.ID
        (fun row => row.WarehouseID == warehouseID && row.ProductID == productID) ledger with
    | none => .error "record not found"
    | some warehouseProduct => .ok warehouseProduct

/-- `warehouseProductRepository.UpdateWarehouseProduct`. -/
def UpdateWarehouseProduct (ledger : List WarehouseProduct) (faults : StockReductionFaults)
    (warehouseProduct : WarehouseProduct) : Except String Unit × List WarehouseProduct :=
  if faults.updateCtxDone then (.error "context canceled", ledger)
  else if faults.updateFirstErr then (.error "select: statement failed", ledger)
  else
    match firstByKey WarehouseProduct.ID (fun row => row.ID == warehouseProduct.ID) ledger with
    | none => (.error "record not found", ledger)
    | some existingWarehouseProduct =>
      let existingWarehouseProduct :=
        { existingWarehouseProduct with
          Stock := warehouseProduct.Stock
          WarehouseID := warehouseProduct.WarehouseID
          ProductID := warehouseProduct.ProductID }
      if faults.saveErr then (.error "save: statement failed", ledger)
      else
        (.ok (), ledger.map (fun row =>
          if row.ID == existingWarehouseProduct.ID then existingWarehouseProduct else row))

end WarehouseService.Repository

namespace WarehouseService.Rabbitmq

/-- The `autoAck` argument of `rc.channel.Consume` in `StartConsuming`. -/
def consumeAutoAck : Bool := true

/-- `RabbitMQConsumer.processStockReduction`.  An error of
`UpdateWarehouseProduct` is logged and the function still returns `nil`. -/
def processStockReduction (ledger : List WarehouseProduct) (faults : StockReductionFaults)
    (event : StockReductionEvent) : Except String Unit × List WarehouseProduct :=
  match Repository.GetWarehouseProductByWarehouseIDAndProductID ledger faults
      event.WarehouseID event.ProductID with
  | .error err => (.error err, ledger)
  | .ok warehouseProduct =>
    let newStock := wrapInt64 (warehouseProduct.Stock - event.Stock)
    if newStock < 0 then (.error "stock not enough", ledger)
    else
      let warehouseProduct := { warehouseProduct with Stock := newStock }
      match Repository.UpdateWarehouseProduct ledger faults warehouseProduct with
      | (.error _, ledger1) => (.ok (), ledger1)
      | (.ok _, ledger1) => (.ok (), ledger1)

/-- `RabbitMQConsumer.handleMessage`.  `unmarshal` is `json.Unmarshal` into a
`StockReductionEvent`. -/
def handleMessage (unmarshal : String → Option StockReductionEvent)
    (faults : StockReductionFaults) (ledger : List WarehouseProduct) (msg : Delivery) :
    Handled WarehouseProduct :=
  match unmarshal msg.Body with
  | none => { err := some "json: cannot unmarshal", acked := false, ledger := ledger }
  | some event =>
    match processStockReduction ledger faults event with
    | (.error err, ledger1) => { err := some err, acked := false, ledger := ledger1 }
    | (.ok _, ledger1) => { err := none, acked := true, ledger := ledger1 }

end WarehouseService.Rabbitmq

/-! ## Go strings

Go strings are byte sequences; the embedding uses character sequences.  The
separators and prefixes that occur are ASCII, for which both agree. -/

/-- The parts of a character sequence between the occurrences of `sep`. -/
def splitChars (sep : Char) : List Char → List (List Char)
  | [] => [[]]
  | c :: cs =>
    if c = sep then [] :: splitChars sep cs
    else
      match splitChars sep cs with
      | [] => [[c]]
      | part :: parts => (c :: part) :: parts

/-- Go `strings.Split(s, sep)` for a one-character separator. -/
def Split (s : String) (sep : Char) : List String :=
  (splitChars sep s.data).map String.mk

/-- Go `strings.HasPrefix(s, pre)`. -/
def HasPrefixStr (s pre : String) : Bool := pre.data.isPrefixOf s.data

/-- Go `strings.TrimPrefix(s, pre)`. -/
def TrimPrefixStr (s pre : String) : String :=
  if HasPrefixStr s pre then String.mk (s.data.drop pre.data.length) else s

/-! ## merchant-service/pkg/jwt -/

namespace MerchantService.Jwt

/-- `jwt.JWTClaims`. -/
structure JWTClaims where
  UserID : Nat := 0
  Email : String := ""
  Roles : String := ""
  ExpiresAt : Int := 0
  IssuedAt : Int := 0
  Issuer : String := ""
  Subject : String := ""
deriving DecidableEq, Repr

/-- Modelled from the spec: the `App` section of merchant-service's
`configs.Config`, whose declaration is not among the sources.  The helper reads
the shared secret, the issuer and the lifetime in hours (a Go `int`), as
product-service/configs/config.go declares them. -/
structure Config where
  JwtSecretKey : String := ""
  JwtIssuer : String := ""
  JwtDuration : Int := 0
deriving DecidableEq, Repr

/-- The Go standard library as the helper uses it: `crypto/hmac` with
`sha256.New` (key, message), `base64.RawURLEncoding` and `encoding/json` on
`JWTClaims`.  `json.Marshal` cannot fail on the two values marshalled. -/
structure Library where
  hmacSHA256 : String → String → String
  base64Encode : String → String
  base64Decode : String → Except String String
  marshalClaims : JWTClaims → String
  unmarshalClaims : String → Except String JWTClaims

/-- `json.Marshal(header)`: a map is marshalled with its keys sorted. -/
def headerJSON : String := "\x7b\"alg\":\"HS256\",\"typ\":\"JWT\"\x7d"

/-- `time.Hour`, in nanoseconds. -/
def Hour : Int := 3600000000000

/-- `Time.Unix()` of an instant given in nanoseconds since the epoch. -/
def Unix (t : Int) : Int := t / 1000000000

/-- The claims `GenerateInternalToken` builds; `now` is `time.Now()` in
nanoseconds since the epoch.  `time.Duration(config.App.JwtDuration) * time.Hour`
is an `int64` product. -/
def internalClaims (config : Config) (now : Int) : JWTClaims :=
  let expiresAt := now + wrapInt64 (config.JwtDuration * Hour)
  { UserID := 0
    Email := "system@warehouse.internal"
    Roles := "system"
    ExpiresAt := Unix expiresAt
    IssuedAt := Unix now
    Issuer := config.JwtIssuer
    Subject := "internal-service-communication" }

/-- `jwt.GenerateInternalToken`. -/
def GenerateInternalToken (lib : Library) (config : Config) (now : Int) : Except String String :=
  let claims := internalClaims config now
  let headerEncoded := lib.base64Encode headerJSON
  let payloadEncoded := lib.base64Encode (lib.marshalClaims claims)
  let signatureInput := headerEncoded ++ "." ++ payloadEncoded
  let signature := lib.base64Encode (lib.hmacSHA256 config.JwtSecretKey signatureInput)
  let token := signatureInput ++ "." ++ signature
  .ok token

/-- `jwt.ValidateToken`; `nowUnix` is `time.Now().Unix()`. -/
def ValidateToken (lib : Library) (token : String) (config : Config) (nowUnix : Int) :
    Except String JWTClaims :=
  match Split token '.' with
  | [headerEncoded, payloadEncoded, signatureEncoded] =>
    let signatureInput := headerEncoded ++ "." ++ payloadEncoded
    let expectedSignature := lib.base64Encode (lib.hmacSHA256 config.JwtSecretKey signatureInput)
    if signatureEncoded ≠ expectedSignature then .error "invalid signature"
    else
      match lib.base64Decode payloadEncoded with
      | .error err => .error ("failed to decode payload: " ++ err)
      | .ok payloadJSON =>
        match lib.unmarshalClaims payloadJSON with
        | .error err => .error ("failed to unmarshal claims: " ++ err)
        | .ok claims =>
          if nowUnix > claims.ExpiresAt then .error "token expired"
          else .ok claims
  | _ => .error "invalid token format"

end MerchantService.Jwt

/-! ## HTTP requests and middleware outcomes -/

/-- An incoming request as the middlewares read it: the path and the headers
(names in canonical form). -/
structure Request where
  Path : String := "/"
  Headers : List (String × String) := []
  IP : String := "127.0.0.1"
deriving DecidableEq, Repr

/-- Fiber `c.Get(name)`: the header's value, the empty string when absent. -/
def Request.Get (req : Request) (name : String) : String :=
  (req.Headers.lookup name).getD ""

/-- The identity context a middleware leaves in `c.Locals`. -/
structure Locals where
  user_id : Option Nat := none
  user_email : Option String := none
  user_roles : Option String := none
deriving DecidableEq, Repr

/-- What a middleware does with a request: it calls the next handler (with the
locals it has set), or it answers itself with a status and a message. -/
inductive Outcome where
  | next (locals : Locals)
  | respond (status : Nat) (message : String)
deriving DecidableEq, Repr

/-- The next handler was called. -/
def Outcome.proceeds : Outcome → Bool
  | .next _ => true
  | .respond _ _ => false

/-! ## merchant-service/middleware -/

namespace MerchantService.Middleware

/-- `middleware.GatewayAuth`. -/
def GatewayAuth (req : Request) : Outcome :=
  let internalRequest := req.Get "X-Internal-Request"
  let gatewayHeader := req.Get "X-Gateway"
  if internalRequest ≠ "true" ∨ gatewayHeader ≠ "warehouse-api-gateway" then
    .respond 403 "Direct access to service is not allowed. Please use API Gateway."
  else .next {}

end MerchantService.Middleware

/-! ## api-gateway/middleware: authentication -/

namespace ApiGateway.Middleware

/-- The gateway's `middleware.JWTClaims`: the three custom claims (the
registered claims are read by the library only). -/
structure JWTClaims where
  UserID : Nat := 0
  Email : String := ""
  Roles : String := ""
deriving DecidableEq, Repr

/-- `middleware.JWTConfig`; `Duration` in nanoseconds. -/
structure JWTConfig where
  SecretKey : String := ""
  Issuer : String := ""
  Duration : Int := 0
deriving DecidableEq, Repr

/-- The result of `jwt.ParseWithClaims` of `github.com/golang-jwt/jwt/v5` for a
token string and the key the key function returns: an error, or the parsed
token, of which `validateJWT` reads the claims and the `Valid` flag. -/
structure ParsedToken where
  Claims : JWTClaims
  Valid : Bool
deriving DecidableEq, Repr

/-- `isPublicRoute`. -/
def isPublicRoute (path : String) : Bool :=
  let publicRoutes := ["/health", "/api/v1/auth/login", "/api/v1/midtrans/callback"]
  publicRoutes.any (fun route => HasPrefixStr path route)

/-- `validateJWT`; `parseWithClaims` is the library call. -/
def validateJWT (parseWithClaims : String → String → Except String ParsedToken)
    (tokenString secretKey : String) : Except String JWTClaims :=
  match parseWithClaims tokenString secretKey with
  | .error err => .error err
  | .ok token =>
    if token.Valid then .ok token.Claims
    else .error "signature is invalid"

/-- `JWTAuthMiddleware`. -/
def JWTAuthMiddleware (parseWithClaims : String → String → Except String ParsedToken)
    (config : JWTConfig) (req : Request) : Outcome :=
  if isPublicRoute req.Path then .next {}
  else
    let internalRequest := req.Get "X-Internal-Request"
    let gatewayHeader := req.Get "X-Gateway"
    if internalRequest = "true" ∧ gatewayHeader = "warehouse-api-gateway" then
      .next { user_id := some 0
              user_email := some "system@warehouse.internal"
              user_roles := some "system" }
    else
      let authHeader := req.Get "Authorization"
      if authHeader = "" then .respond 401 "Authorization header required"
      else if ¬ HasPrefixStr authHeader "Bearer " then
        .respond 401 "Invalid token format. Use 'Bearer <token>'"
      else
        let tokenString := TrimPrefixStr authHeader "Bearer "
        match validateJWT parseWithClaims tokenString config.SecretKey with
        | .error _ => .respond 401 "Invalid or expired token"
        | .ok claims =>
          .next { user_id := some claims.UserID
                  user_email := some claims.Email
                  user_roles := some claims.Roles }

end ApiGateway.Middleware

/-! ## merchant-service/pkg/httpclient: the caching warehouse client -/

/-- `httpclient.WarehouseResponse`. -/
structure WarehouseResponse where
  ID : Nat := 0
  Name : String := ""
  Address : String := ""
  Photo : String := ""
  Phone : String := ""
deriving DecidableEq, Repr

/-- `httpclient.WarehouseProductStockResponse`. -/
structure WarehouseProductStockResponse where
  ID : Nat := 0
  ProductID : Nat := 0
  Stock : Int := 0
  WarehouseID : Nat := 0
deriving DecidableEq, Repr

/-- A value stored by `RedisClient.Set`: the JSON text of the value that was
marshalled, represented by that value; `text` is any other content. -/
inductive CachedJSON where
  | warehouse (value : WarehouseResponse)
  | warehouseProductStock (value : WarehouseProductStockResponse)
  | text (raw : String)
deriving DecidableEq, Repr

/-- The entries alive in Redis at the time of a call, by key.  An entry
written by the caching client stays alive for its `ttl` of one hour. -/
abbrev Cache := String → Option CachedJSON

/-- Whether Redis refuses the `GET` or the `SET` of a call. -/
structure RedisFaults where
  getErr : Bool := false
  setErr : Bool := false
deriving DecidableEq, Repr

/-- The `WarehouseClientInterface` the caching client wraps: what the warehouse
service currently answers. -/
structure WarehouseClient where
  GetWarehouseByID : Nat → Except String WarehouseResponse
  GetWarehouseProductStock : Nat → Nat → Except String WarehouseProductStockResponse

/-- A call the caching client makes on the client it wraps. -/
inductive ClientCall where
  | getWarehouseByID (warehouseID : Nat)
  | getWarehouseProductStock (warehouseID productID : Nat)
deriving DecidableEq, Repr

/-- Outcome of a call on the caching client: the returned pair, the cache
afterwards, and the calls made on the wrapped client. -/
structure CachedOutcome (α : Type) where
  result : Except String α
  cache : Cache
  clientCalls : List ClientCall

namespace MerchantService.Httpclient

/-- `json.Unmarshal` of a stored value into a zeroed `WarehouseResponse`:
members are matched by key, unknown keys are skipped, and of the keys of a
`WarehouseProductStockResponse` only `id` is one of `WarehouseResponse`. -/
def unmarshalWarehouse : CachedJSON → Except String WarehouseResponse
  | .warehouse value => .ok value
  | .warehouseProductStock value => .ok { ID := value.ID }
  | .text _ => .error "invalid character looking for beginning of value"

/-- `json.Unmarshal` of a stored value into a zeroed
`WarehouseProductStockResponse`; of the keys of a `WarehouseResponse` only
`id` is one of `WarehouseProductStockResponse`. -/
def unmarshalWarehouseProductStock : CachedJSON → Except String WarehouseProductStockResponse
  | .warehouseProductStock value => .ok value
  | .warehouse value => .ok { ID := value.ID }
  | .text _ => .error "invalid character looking for beginning of value"

/-- `RedisClient.Get(ctx, key, &value)`: the `GET`, then `json.Unmarshal`; a
missing key is the error `redis.Nil`. -/
def redisGet {α : Type} (faults : RedisFaults) (cache : Cache) (key : String)
    (unmarshal : CachedJSON → Except String α) : Except String α :=
  if faults.getErr then .error "redis: connection refused"
  else
    match cache key with
    | none => .error "redis: nil"
    | some jsonData => unmarshal jsonData

/-- `RedisClient.Set(ctx, key, value, expiration)`, with the value already
marshalled. -/
def redisSet (faults : RedisFaults) (cache : Cache) (key : String) (jsonData : CachedJSON) :
    Except String Unit × Cache :=
  if faults.setErr then (.error "redis: connection refused", cache)
  else (.ok (), fun k => if k = key then some jsonData else cache k)

/-- `CachedWarehouseClient.generateCacheKey`. -/
def generateCacheKey (kind : String) (id : Nat) : String :=
  "warehouse:" ++ kind ++ ":" ++ toString id

/-- The `cacheKey` of `CachedWarehouseClient.GetWarehouseByID`. -/
def warehouseCacheKey (warehouseID : Nat) : String :=
  generateCacheKey "single" warehouseID

/-- The `cacheKey` of `CachedWarehouseClient.GetWarehouseProductStock`; the
product id does not enter. -/
def warehouseProductStockCacheKey (warehouseID _productID : Nat) : String :=
  generateCacheKey "single" warehouseID

/-- `CachedWarehouseClient.GetWarehouseByID`. -/
def GetWarehouseByID (client : WarehouseClient) (faults : RedisFaults) (cache : Cache)
    (warehouseID : Nat) : CachedOutcome WarehouseResponse :=
  let cacheKey := warehouseCacheKey warehouseID
  match redisGet faults cache cacheKey unmarshalWarehouse with
  | .ok cachedWarehouse => { result := .ok cachedWarehouse, cache := cache, clientCalls := [] }
  | .error _ =>
    match client.GetWarehouseByID warehouseID with
    | .error err =>
      { result := .error err, cache := cache, clientCalls := [.getWarehouseByID warehouseID] }
    | .ok warehouse =>
      match redisSet faults cache cacheKey (.warehouse warehouse) with
      | (.error err, cache1) =>
        { result := .error err, cache := cache1, clientCalls := [.getWarehouseByID warehouseID] }
      | (.ok _, cache1) =>
        { result := .ok warehouse, cache := cache1
          clientCalls := [.getWarehouseByID warehouseID] }

/-- `CachedWarehouseClient.GetWarehouseProductStock`. -/
def GetWarehouseProductStock (client : WarehouseClient) (faults : RedisFaults) (cache : Cache)
    (warehouseID productID : Nat) : CachedOutcome WarehouseProductStockResponse :=
  let cacheKey := warehouseProductStockCacheKey warehouseID productID
  match redisGet faults cache cacheKey unmarshalWarehouseProductStock with
  | .ok cachedWarehouseProductStock =>
    { result := .ok cachedWarehouseProductStock, cache := cache, clientCalls := [] }
  | .error _ =>
    match client.GetWarehouseProductStock warehouseID productID with
    | .error err =>
      { result := .error err, cache := cache
        clientCalls := [.getWarehouseProductStock warehouseID productID] }
    | .ok warehouseProductStock =>
      match redisSet faults cache cacheKey (.warehouseProductStock warehouseProductStock) with
      | (.error err, cache1) =>
        { result := .error err, cache := cache1
          clientCalls := [.getWarehouseProductStock warehouseID productID] }
      | (.ok _, cache1) =>
        { result := .ok warehouseProductStock, cache := cache1
          clientCalls := [.getWarehouseProductStock warehouseID productID] }

end MerchantService.Httpclient

/-! ## merchant-service: updating a ledger row against the warehouse stock -/

/-- Which statements of the repository's `UpdateMerchantProduct` the store
refuses. -/
structure UpdateMerchantProductFaults where
  ctxDone : Bool := false
  firstErr : Bool := false
  saveErr : Bool := false
deriving DecidableEq, Repr

namespace MerchantService.Repository

/-- `merchantProductRepository.UpdateMerchantProduct`. -/
def UpdateMerchantProduct (ledger : List MerchantProduct) (faults : UpdateMerchantProductFaults)
    (merchantProduct : MerchantProduct) : Except String Unit × List MerchantProduct :=
  if faults.ctxDone then (.error "context canceled", ledger)
  else if faults.firstErr then (.error "select: statement failed", ledger)
  else
    match firstByKey MerchantProduct.ID (fun row => row.ID == merchantProduct.ID) ledger with
    | none => (.error "record not found", ledger)
    | some existingMerchantProduct =>
      let existingMerchantProduct :=
        { existingMerchantProduct with
          Stock := merchantProduct.Stock
          MerchantID := merchantProduct.MerchantID
          ProductID := merchantProduct.ProductID
          WarehouseID := merchantProduct.WarehouseID }
      if faults.saveErr then (.error "save: statement failed", ledger)
      else
        (.ok (), ledger.map (fun row =>
          if row.ID == existingMerchantProduct.ID then existingMerchantProduct else row))

end MerchantService.Repository

namespace MerchantService.Usecase

/-- `merchantProductUsecase.UpdateMerchantProduct`; `getWarehouseProductStock`
is the `warehouseClient` interface method, which `BuildContainer` binds to
the caching client. -/
def UpdateMerchantProduct
    (getWarehouseProductStock : Nat → Nat → Except String WarehouseProductStockResponse)
    (ledger : List MerchantProduct) (faults : UpdateMerchantProductFaults)
    (merchantProduct : MerchantProduct) : Except String Unit × List MerchantProduct :=
  match getWarehouseProductStock merchantProduct.WarehouseID merchantProduct.ProductID with
  | .error err => (.error err, ledger)
  | .ok warehouseProductStock =>
    if warehouseProductStock.Stock < merchantProduct.Stock then (.error "stock not enough", ledger)
    else Repository.UpdateMerchantProduct ledger faults merchantProduct

end MerchantService.Usecase

/-! ## api-gateway/middleware: the Redis rate limiter -/

/-- A Redis string as the limiter sees it: `number n` is the decimal text of
`n` (what `strconv.Atoi` and `INCR` accept), `text` is anything else. -/
inductive RedisString where
  | number (n : Int)
  | text (raw : String)
deriving DecidableEq, Repr

/-- A Redis key's value and, when it has one, the instant it expires
(nanoseconds since the epoch). -/
structure RedisEntry where
  value : RedisString
  expireAt : Option Int := none
deriving DecidableEq, Repr

/-- The counters in Redis, by key. -/
abbrev RedisStore := String → Option RedisEntry

/-- The entry a command issued at `now` finds under `key`: none when the key
is absent or has expired. -/
def RedisStore.live (store : RedisStore) (now : Int) (key : String) : Option RedisEntry :=
  match store key with
  | none => none
  | some entry =>
    match entry.expireAt with
    | none => some entry
    | some expiry => if expiry ≤ now then none else some entry

/-- The store with `entry` under `key`. -/
def RedisStore.put (store : RedisStore) (key : String) (entry : RedisEntry) : RedisStore :=
  fun k => if k = key then some entry else store k

/-- Which commands of one pass through the limiter Redis refuses. -/
structure RateLimiterFaults where
  getErr : Bool := false
  setErr : Bool := false
  incrErr : Bool := false
  expireErr : Bool := false
deriving DecidableEq, Repr

namespace ApiGateway.Middleware

/-- `middleware.RedisRateLimiterConfig`; `Expiration` in nanoseconds. -/
structure RedisRateLimiterConfig where
  Max : Int := 0
  Expiration : Int := 0
  KeyPrefix : String := ""
deriving DecidableEq, Repr

/-- `time.Minute`, in nanoseconds. -/
def Minute : Int := 60000000000

/-- `DefaultRateLimiterConfig`. -/
def DefaultRateLimiterConfig : RedisRateLimiterConfig :=
  { Max := 100, Expiration := 1 * Minute, KeyPrefix := "api_rate_limit" }

/-- The instant a key written at `now` with the given expiration expires; a
zero expiration means the key does not expire. -/
def expiryOf (now expiration : Int) : Option Int :=
  if 0 < expiration then some (now + expiration) else none

/-- The body shared, word for word, by `RedisRateLimiter` and
`RedisAPIRateLimiter`, from the `Get` on, for the counter `key`.  The
`X-RateLimit-*` response headers are not part of the outcome. -/
def limitByKey (config : RedisRateLimiterConfig) (faults : RateLimiterFaults) (key : String)
    (now : Int) (store : RedisStore) : Outcome × RedisStore :=
  if faults.getErr then (.respond 500 "Failed to get rate limit", store)
  else
    match store.live now key with
    | none =>
      if faults.setErr then (.respond 500 "Failed to set rate limit", store)
      else
        (.next {}, store.put key
          { value := .number 1, expireAt := expiryOf now config.Expiration })
    | some entry =>
      match entry.value with
      | .text _ => (.respond 500 "Failed to parse rate limit count", store)
      | .number count =>
        if count ≥ config.Max then
          (.respond 429 "Rate limit exceeded. Please try again later.", store)
        else if faults.incrErr then (.respond 500 "Failed to increment rate limit", store)
        else
          let store1 := store.put key { entry with value := .number (count + 1) }
          let store2 :=
            if count = 0 ∧ ¬ faults.expireErr then
              store1.put key
                { value := .number (count + 1), expireAt := expiryOf now config.Expiration }
            else store1
          (.next {}, store2)

/-- The counter key of `RedisRateLimiter`: `fmt.Sprintf("%s:%s", config.KeyPrefix, c.IP())`. -/
def rateLimitKey (config : RedisRateLimiterConfig) (req : Request) : String :=
  config.KeyPrefix ++ ":" ++ req.IP

/-- `RedisRateLimiter`. -/
def RedisRateLimiter (config : RedisRateLimiterConfig) (faults : RateLimiterFaults)
    (req : Request) (now : Int) (store : RedisStore) : Outcome × RedisStore :=
  limitByKey config faults (rateLimitKey config req) now store

/-- `RedisGlobalRateLimiter`. -/
def RedisGlobalRateLimiter (config : RedisRateLimiterConfig) (faults : RateLimiterFaults)
    (req : Request) (now : Int) (store : RedisStore) : Outcome × RedisStore :=
  RedisRateLimiter { config with KeyPrefix := "global" } faults req now store

/-- `RedisAuthRateLimiter`. -/
def RedisAuthRateLimiter (config : RedisRateLimiterConfig) (faults : RateLimiterFaults)
    (req : Request) (now : Int) (store : RedisStore) : Outcome × RedisStore :=
  RedisRateLimiter { config with KeyPrefix := "auth" } faults req now store

/-- The counter key of `RedisAPIRateLimiter`; `userID` is `c.Locals("user_id")`. -/
def apiRateLimitKey (req : Request) (userID : Option Nat) : String :=
  match userID with
  | some id => "api:" ++ req.IP ++ ":" ++ toString id
  | none => "api:" ++ req.IP

/-- `RedisAPIRateLimiter`. -/
def RedisAPIRateLimiter (config : RedisRateLimiterConfig) (faults : RateLimiterFaults)
    (req : Request) (locals : Locals) (now : Int) (store : RedisStore) : Outcome × RedisStore :=
  limitByKey config faults (apiRateLimitKey req locals.user_id) now store

end ApiGateway.Middleware

/-! ## api-gateway/main: the limiters installed -/

namespace ApiGateway.Main

/-- `ratelimiter := middleware.DefaultRateLimiterConfig()`. -/
def ratelimiter : Middleware.RedisRateLimiterConfig := Middleware.DefaultRateLimiterConfig

/-- The `redisRateConfig` of `main`, handed to all three limiters. -/
def redisRateConfig : Middleware.RedisRateLimiterConfig :=
  { Max := ratelimiter.Max, Expiration := ratelimiter.Expiration }

/-- `app.Use(middleware.RedisGlobalRateLimiter(redisRateConfig))`: every request. -/
def globalRateLimiter := Middleware.RedisGlobalRateLimiter redisRateConfig

/-- `authGroup.Use(middleware.RedisAuthRateLimiter(rateLimiterConfig))` in
`setUpAuthRoutes`: the auth endpoints. -/
def authRateLimiter := Middleware.RedisAuthRateLimiter redisRateConfig

/-- `protected.Use(middleware.RedisAPIRateLimiter(rateLimiterConfig))` in
`setupProtectedRoutes`: the general API endpoints. -/
def apiRateLimiter := Middleware.RedisAPIRateLimiter redisRateConfig

end ApiGateway.Main

/-! ## transaction-service: the dashboards -/

/-- Modelled from the spec: the User service's answer about one user, as far
as the use case reads it (`user.RoleName`); the user client of the transaction
service is not among the sources. -/
structure UserResponse where
  ID : Nat := 0
  Name : String := ""
  Email : String := ""
  RoleName : String := ""
deriving DecidableEq, Repr

/-- Which statements of the dashboard queries the store refuses. -/
structure DashboardFaults where
  ctxDone : Bool := false
  revenueErr : Bool := false
  productsErr : Bool := false
deriving DecidableEq, Repr

/-- A query the use case sends to the transaction repository. -/
inductive RepoQuery where
  | GetDashboardStats
  | GetDashboardStatsByMerchant (merchantID : Nat)
deriving DecidableEq, Repr

/-- The collaborators of `transactionUsecase` that the dashboards use: the
user client and the merchant client (interface methods) and the store's
behaviour. -/
structure DashboardEnv where
  GetUserByID : Nat → Except String UserResponse
  GetMerchantByID : Nat → Except String MerchantResponse
  repoFaults : DashboardFaults := {}

/-- Outcome of a dashboard use case: the returned statistics (total revenue,
total transactions, products sold) or error, and the queries sent to the
transaction repository, in order. -/
structure DashboardOutcome where
  result : Except String (Int × Int × Int)
  queries : List RepoQuery
deriving DecidableEq

namespace TransactionService.Repository

/-- The two `Scan`s of a dashboard query over the transactions selected by
`cond` together with `payment_status = 'success'`: `COALESCE(SUM(grand_total), 0)`,
`COUNT(*)`, and `COALESCE(SUM(transaction_products.quantity), 0)` over the
line items joined to those transactions.  A sum that does not fit `int64`
cannot be scanned. -/
def scanDashboard (db : TransactionDB) (faults : DashboardFaults) (cond : Transaction → Bool) :
    Except String (Int × Int × Int) :=
  let paid := db.transactions.filter (fun row =>
    cond row && row.PaymentStatus == PaymentStatusSuccess)
  let totalRevenue := (paid.map (fun row => row.GrandTotal)).sum
  let totalTransactions : Int := paid.length
  if faults.revenueErr then .error "select: statement failed"
  else if ¬ isInt64 totalRevenue then .error "sql: Scan error: value out of range"
  else
    let productsSold := (db.transactionProducts.flatMap (fun product =>
      (paid.filter (fun row => row.ID == product.TransactionID)).map
        (fun _ => product.Quantity))).sum
    if faults.productsErr then .error "select: statement failed"
    else if ¬ isInt64 productsSold then .error "sql: Scan error: value out of range"
    else .ok (totalRevenue, totalTransactions, productsSold)

/-- `transactionRepository.GetDashboardStats`. -/
def GetDashboardStats (db : TransactionDB) (faults : DashboardFaults) :
    Except String (Int × Int × Int) :=
  if faults.ctxDone then .error "context canceled"
  else scanDashboard db faults (fun _ => true)

/-- `transactionRepository.GetDashboardStatsByMerchant`. -/
def GetDashboardStatsByMerchant (db : TransactionDB) (faults : DashboardFaults)
    (merchantID : Nat) : Except String (Int × Int × Int) :=
  if faults.ctxDone then .error "context canceled"
  else if merchantID = 0 then .ok (0, 0, 0)
  else scanDashboard db faults (fun row => row.MerchantID == merchantID)

end TransactionService.Repository

namespace TransactionService.Usecase

/-- `transactionUsecase.GetDashboardStats`. -/
def GetDashboardStats (env : DashboardEnv) (db : TransactionDB) (userID : Nat) :
    DashboardOutcome :=
  match env.GetUserByID userID with
  | .error err => { result := .error err, queries := [] }
  | .ok user =>
    let isManager := if user.RoleName = "Manager" then true else false
    if !isManager then
      { result := .error "user tidak memiliki akses ke dashboard", queries := [] }
    else
      match Repository.GetDashboardStats db env.repoFaults with
      | .error err => { result := .error err, queries := [.GetDashboardStats] }
      | .ok (totalRevenue, totalTransactions, productsSold) =>
        { result := .ok (totalRevenue, totalTransactions, productsSold)
          queries := [.GetDashboardStats] }

/-- `transactionUsecase.GetDashboardStatsByMerchant`. -/
def GetDashboardStatsByMerchant (env : DashboardEnv) (db : TransactionDB)
    (userID merchantID : Nat) : DashboardOutcome :=
  match env.GetUserByID userID with
  | .error err => { result := .error err, queries := [] }
  | .ok user =>
    let isManager := if user.RoleName = "Manager" then true else false
    if isManager then
      { result := .error "user tidak memiliki akses ke dashboard", queries := [] }
    else
      match env.GetMerchantByID merchantID with
      | .error err => { result := .error err, queries := [] }
      | .ok merchant =>
        if merchant.KeeperID ≠ userID then
          { result := .error "user tidak memiliki akses ke merchant", queries := [] }
        else
          match Repository.GetDashboardStatsByMerchant db env.repoFaults merchantID with
          | .error err =>
            { result := .error err, queries := [.GetDashboardStatsByMerchant merchantID] }
          | .ok (totalRevenue, totalTransactions, productsSold) =>
            { result := .ok (totalRevenue, totalTransactions, productsSold)
              queries := [.GetDashboardStatsByMerchant merchantID] }

end TransactionService.Usecase

/-! ## transaction-service/pkg/midtrans -/

namespace TransactionService.Midtrans

/-- `midtrans.TransactionItem`. -/
structure TransactionItem where
  ID : String
  Price : Int
  Quantity : Int
  Name : String
deriving DecidableEq, Repr

/-- `midtrans.CreateTransactionRequest`. -/
structure CreateTransactionRequest where
  OrderID : String := ""
  Amount : Int := 0
  Items : List TransactionItem := []
  CustomerName : String := ""
  CustomerEmail : String := ""
  CustomerPhone : String := ""
  Notes : String := ""
deriving DecidableEq, Repr

/-- `midtrans.CreateTransactionResponse`. -/
structure CreateTransactionResponse where
  PaymentToken : String
  OrderID : String
deriving DecidableEq, Repr

/-- `MidtransService.CreateTransaction`.  `snap` is `snap.CreateTransaction`
of midtrans-go applied to the order code, the gross amount, the customer's
name and email; it answers with the Snap token. -/
def CreateTransaction (snap : String → Int → String → String → Except String String)
    (req : CreateTransactionRequest) : Except String CreateTransactionResponse :=
  match snap req.OrderID req.Amount req.CustomerName req.CustomerEmail with
  | .error err => .error err
  | .ok token => .ok { PaymentToken := token, OrderID := req.OrderID }

end TransactionService.Midtrans

/-! ## transaction-service/controller: the create-transaction endpoint -/

/-- The collaborators of `transactionController.CreateTransaction`: those of
the use case, the payment gateway, and the Unix time the controller reads. -/
structure CreateTransactionEnv where
  usecase : UsecaseEnv
  snap : String → Int → String → String → Except String String
  now : Int := 0

/-- What the endpoint answered (status, message and, on success, the
transaction id, payment token and order code) and what it did: the store
afterwards, the calls of the use case and the events published. -/
structure CreateTransactionHandled where
  status : Nat
  message : String
  data : Option (Int × String × String) := none
  db : TransactionDB
  calls : List Call := []
  published : List StockReducedEvent := []

namespace TransactionService.Controller

/-- The `items` the first loop of `CreateTransaction` collects. -/
def itemsOf (products : List CreateTransactionProductRequest) : List Midtrans.TransactionItem :=
  products.map (fun product =>
    { ID := toString product.ProductID
      Price := product.Price
      Quantity := product.Quantity
      Name := "Product " ++ toString product.ProductID })

/-- `transactionController.CreateTransaction`.  `body` is the outcome of
`ctx.BodyParser(&req)`, `none` when the body cannot be parsed; a field the
body leaves out has its zero value. -/
def CreateTransaction (env : CreateTransactionEnv) (db : TransactionDB)
    (body : Option CreateTransactionWithProductsRequest) : CreateTransactionHandled :=
  match body with
  | none => { status := 400, message := "Invalid request body", db := db }
  | some req =>
    let transaction := buildTransaction env.now req
    let created := Usecase.CreateTransaction env.usecase db transaction
    match created.result with
    | .error _ =>
      { status := 500, message := "Failed to create transaction", db := created.db,
        calls := created.calls, published := created.published }
    | .ok idTransaction =>
      let midtransReq : Midtrans.CreateTransactionRequest :=
        { OrderID := transaction.OrderID
          Amount := transaction.GrandTotal
          Items := itemsOf req.Products
          CustomerName := req.Name
          CustomerEmail := req.Email
          CustomerPhone := req.Phone
          Notes := req.Notes }
      match Midtrans.CreateTransaction env.snap midtransReq with
      | .error _ =>
        { status := 500, message := "Failed to create transaction", db := created.db,
          calls := created.calls, published := created.published }
      | .ok midtransRes =>
        { status := 200, message := "Transaction created successfully",
          data := some (idTransaction, midtransRes.PaymentToken, midtransRes.OrderID),
          db := created.db, calls := created.calls, published := created.published }

end TransactionService.Controller

/-! ## The warehouse stock-reduction event on the wire -/

/-- The key under which `encoding/json` compares names without regard to
case: the letters `A`-`Z` lowered. -/
def foldCase (s : String) : String := ⟨s.data.map Char.toLower⟩

/-- A JSON value as the stock-reduction event uses them: a number, a string,
or a timestamp (the RFC 3339 string of an instant, given as Unix time). -/
inductive JSONValue where
  | number (n : Int)
  | text (s : String)
  | time (unix : Int)
deriving DecidableEq, Repr

/-- A JSON object: its keys with their values, in the order written. -/
abbrev JSONObject := List (String × JSONValue)

namespace TransactionService.Rabbitmq

/-- The publisher side `rabbitmq.StockReductionEvent` (rabbitmq_service.go);
`Timestamp` is Unix time. -/
structure StockReductionEvent where
  WarhouseID : Nat := 0
  ProductID : Nat := 0
  Stock : Int := 0
  MerchantID : Nat := 0
  Timestamp : Int := 0
deriving DecidableEq, Repr

/-- `json.Marshal(event)` in `PublishStockReductionEvent`: the fields in the
order declared, each under its `json` tag. -/
def marshalStockReductionEvent (event : StockReductionEvent) : JSONObject :=
  [ ("warhouse_id", .number event.WarhouseID),
    ("product_id", .number event.ProductID),
    ("stock", .number event.Stock),
    ("merchant_id", .number event.MerchantID),
    ("timestamp", .time event.Timestamp) ]

end TransactionService.Rabbitmq

namespace MerchantService.Usecase

/-- Lines 76-82 of `merchantProductUsecase.CreateMerchantProduct`: the event
published once the ledger row is created.  The merchant service's own
`rabbitmq.StockReductionEvent` is declared in a file that is not among the
sources; the use case fills the same fields as the transaction service's copy
of the struct, which stands for it. -/
def stockReductionEventOf (merchantProduct : MerchantProduct) (now : Int) :
    TransactionService.Rabbitmq.StockReductionEvent :=
  { WarhouseID := merchantProduct.WarehouseID
    ProductID := merchantProduct.ProductID
    Stock := merchantProduct.Stock
    MerchantID := merchantProduct.MerchantID
    Timestamp := now }

end MerchantService.Usecase

namespace WarehouseService.Rabbitmq

/-- One key of the object decoded into the consumer's `StockReductionEvent`:
`encoding/json` matches the key against the `json` tags of the struct, exactly
or ignoring the case of letters, and skips a key that matches none.  A value
of the wrong kind, a negative number for a `uint` field or a number outside
`int` is an error (`none`). -/
def setField (event : StockReductionEvent) (key : String) (value : JSONValue) :
    Option StockReductionEvent :=
  let name := foldCase key
  if name = "warehouse_id" then
    match value with
    | .number n => if 0 ≤ n then some { event with WarehouseID := n.toNat } else none
    | _ => none
  else if name = "product_id" then
    match value with
    | .number n => if 0 ≤ n then some { event with ProductID := n.toNat } else none
    | _ => none
  else if name = "stock" then
    match value with
    | .number n => if isInt64 n then some { event with Stock := n } else none
    | _ => none
  else if name = "merchant_id" then
    match value with
    | .number n => if 0 ≤ n then some { event with MerchantID := n.toNat } else none
    | _ => none
  else if name = "timestamp" then
    match value with
    | .time unix => some { event with Timestamp := unix }
    | _ => none
  else some event

/-- `json.Unmarshal(msg.Body, &event)` in `handleMessage`, on a body that is a
JSON object: the keys are decoded one after the other into the zero event. -/
def unmarshalStockReductionEvent (object : JSONObject) : Option StockReductionEvent :=
  object.foldl (fun decoded entry =>
    decoded.bind (fun event => setField event entry.1 entry.2)) (some {})

end WarehouseService.Rabbitmq

/-! ## Handlers, pointers and errors -/

/-- What a fiber handler did with a request: it answered with a status and a
message, or it panicked at run time. -/
inductive HandlerResult where
  | respond (status : Nat) (message : String)
  | panic (reason : String)
deriving DecidableEq, Repr

/-- The text of the panic raised by reading through a nil pointer and by
calling a method of a nil `error`. -/
def nilDereference : String :=
  "runtime error: invalid memory address or nil pointer dereference"

/-- `err.Error()` for a Go `error` (`none` is the nil error): the text of the
error; on the nil error the call panics, given as `none`. -/
def errorText (err : Option String) : Option String := err

/-! ## api-gateway/controller: login -/

namespace ApiGateway.Middleware

/-- `GenerateJWT`.  `signedString` is the library's
`jwt.NewWithClaims(jwt.SigningMethodHS256, claims).SignedString(key)`, given
the custom claims, the expiry and issue instants, the issuer and the key;
`now` is `time.Now()`. -/
def GenerateJWT (signedString : JWTClaims → Int → Int → String → String → Except String String)
    (now : Int) (userID : Nat) (email roles : String) (config : JWTConfig) :
    Except String String :=
  signedString { UserID := userID, Email := email, Roles := roles } (now + config.Duration) now
    config.Issuer config.SecretKey

end ApiGateway.Middleware

namespace ApiGateway.Controller

/-- `controller.LoginRequest`. -/
structure LoginRequest where
  Email : String := ""
  Password : String := ""
deriving DecidableEq, Repr

/-- `controller.LoginResponse`. -/
structure LoginResponse where
  UserID : Nat := 0
  Email : String := ""
  Role : String := ""
deriving DecidableEq, Repr

/-- The `Data` of `controller.UserServiceResponse`. -/
structure UserServiceData where
  UserID : Nat := 0
  Email : String := ""
  Role : List String := []
deriving DecidableEq, Repr

/-- The user service's answer to the forwarded login as `forwardLoginRequest`
sees it: the status code, the error of `io.ReadAll` (if any), and the outcome
of `json.Unmarshal` on the body read. -/
structure UserServiceReply where
  StatusCode : Nat
  readErr : Option String := none
  Body : Except String UserServiceData

/-- The environment of `forwardLoginRequest`: the error of `http.NewRequest`
for the configured URL (if any) and the outcome of `client.Do`. -/
structure LoginUpstream where
  newRequestErr : Option String := none
  Do : LoginRequest → Except String UserServiceReply

/-- The roles joined with commas, as lines 137-143 build `rolesStr`. -/
def rolesStrOf : List String → String
  | [] => ""
  | first :: rest => rest.foldl (fun rolesStr role => rolesStr ++ ("," ++ role)) first

/-- `AuthController.forwardLoginRequest`: the returned pointer (`none` is nil)
and error (`none` is nil).  `json.Marshal` of two strings does not fail. -/
def forwardLoginRequest (upstream : LoginUpstream) (loginReq : LoginRequest) :
    Option LoginResponse × Option String :=
  match upstream.newRequestErr with
  | some err => (none, some err)
  | none =>
    match upstream.Do loginReq with
    | .error err => (none, some err)
    | .ok resp =>
      match resp.readErr with
      | some err => (none, some err)
      | none =>
        let err : Option String := none
        if resp.StatusCode ≠ 200 then (none, err)
        else
          match resp.Body with
          | .error err => (none, some err)
          | .ok userServiceResp =>
            let rolesStr := rolesStrOf userServiceResp.Role
            (some { UserID := userServiceResp.UserID
                    Email := userServiceResp.Email
                    Role := rolesStr }, none)

/-- `AuthController.Login`.  `body` is the outcome of `c.BodyParser`;
`loginResp.UserID` reads through the pointer `forwardLoginRequest` returned. -/
def Login (upstream : LoginUpstream)
    (signedString : Middleware.JWTClaims → Int → Int → String → String → Except String String)
    (jwtConfig : Middleware.JWTConfig) (now : Int) (body : Except String LoginRequest) :
    HandlerResult :=
  match body with
  | .error err => .respond 400 err
  | .ok loginRequest =>
    if loginRequest.Email = "" ∨ loginRequest.Password = "" then
      .respond 400 "Email and password are required"
    else
      match forwardLoginRequest upstream loginRequest with
      | (_, some err) => .respond 500 err
      | (none, none) => .panic nilDereference
      | (some loginResp, none) =>
        match Middleware.GenerateJWT signedString now loginResp.UserID loginResp.Email
            loginResp.Role jwtConfig with
        | .error err => .respond 500 err
        | .ok _ => .respond 200 "Login successful"

end ApiGateway.Controller

/-! ## user-service: login -/

/-- `model.Role`. -/
structure Role where
  ID : Nat := 0
  Name : String := ""
deriving DecidableEq, Repr

/-- `model.User`; `Password` is the stored hash. -/
structure User where
  ID : Nat := 0
  Name : String := ""
  Email : String := ""
  Password : String := ""
  Photo : String := ""
  Phone : String := ""
  Roles : List Role := []
deriving DecidableEq, Repr

/-- Which statements of `GetUserByEmail` the store refuses. -/
structure GetUserFaults where
  ctxDone : Bool := false
  firstErr : Bool := false
deriving DecidableEq, Repr

namespace UserService.Repository

/-- `userRepository.GetUserByEmail`: the returned pointer and error. -/
def GetUserByEmail (users : List User) (faults : GetUserFaults) (email : String) :
    Option User × Option String :=
  if faults.ctxDone then (none, some "context canceled")
  else if faults.firstErr then (none, some "select: statement failed")
  else
    match firstByKey User.ID (fun row => row.Email == email) users with
    | none => (none, some "record not found")
    | some modelUsers => (some modelUsers, none)

end UserService.Repository

namespace UserService.Usecase

/-- `userUsecase.GetUserByEmail`. -/
def GetUserByEmail (users : List User) (faults : GetUserFaults) (email : String) :
    Option User × Option String :=
  Repository.GetUserByEmail users faults email

end UserService.Usecase

namespace UserService.Controller

/-- Modelled from the spec: the login body, an email and a password (the
controller reads `loginRequest.Email` and `loginRequest.Password`); the
declaration of `request.LoginRequest` is not among the sources. -/
structure LoginRequest where
  Email : String := ""
  Password : String := ""
deriving DecidableEq, Repr

/-- The collaborators of `AuthController.Login`: `validator.Validate` and
`conv.CheckPasswordHash` (packages of the user service that are not among the
sources; the second compares a password with a stored hash), the users table
and the store's behaviour. -/
structure LoginEnv where
  Validate : LoginRequest → Option String
  CheckPasswordHash : String → String → Bool
  users : List User
  faults : GetUserFaults := {}

/-- `AuthController.Login`.  The arguments of `log.Errorf` are evaluated
before the call, so `err.Error()` on lines 49 and 57 runs with the `err` that
line 41 has found nil. -/
def Login (env : LoginEnv) (body : Option LoginRequest) : HandlerResult :=
  match body with
  | none => .respond 400 "Invalid request body"
  | some loginRequest =>
    match env.Validate loginRequest with
    | some _ => .respond 400 "Invalid request body"
    | none =>
      match Usecase.GetUserByEmail env.users env.faults loginRequest.Email with
      | (_, some _) => .respond 500 "Internal server error"
      | (none, none) =>
        let err : Option String := none
        match errorText err with
        | none => .panic nilDereference
        | some _ => .respond 404 "User not found"
      | (some user, none) =>
        let err : Option String := none
        let isSame := env.CheckPasswordHash loginRequest.Password user.Password
        if !isSame then
          match errorText err with
          | none => .panic nilDereference
          | some _ => .respond 401 "Invalid email or password"
        else .respond 200 "Login successful"

end UserService.Controller

/-! ## The quantities the properties speak about -/

/-- The stock check of one line item does not pass: the lookup fails, or it
returns a stock smaller than the line's quantity. -/
def lineFails (getStock : Nat → Nat → Except String MerchantProductResponse)
    (merchantID : Nat) (product : TransactionProduct) : Bool :=
  match getStock merchantID product.ProductID with
  | .error _ => true
  | .ok merchantProduct => decide (merchantProduct.Stock < product.Quantity)

/-- A stored line-item row carries the data of an input line and the id of
its transaction. -/
def lineStoredAs (transactionID : Nat) (line row : TransactionProduct) : Prop :=
  row.ProductID = line.ProductID ∧ row.Quantity = line.Quantity ∧ row.Price = line.Price ∧
    row.SubTotal = line.SubTotal ∧ row.TransactionID = transactionID

/-- The sum over the request's lines of price times quantity, in the integers. -/
def linesTotal (products : List CreateTransactionProductRequest) : Int :=
  (products.map (fun product => product.Price * product.Quantity)).sum

/-- The facts about the Go standard library that the round trip of the token
issued for `config` at `now` rests on: base64url text contains no dot (three
segments), decoding inverts encoding on the payload, and `json.Unmarshal`
inverts `json.Marshal` on the issued claims. -/
def libraryRoundTrips (lib : MerchantService.Jwt.Library) (config : MerchantService.Jwt.Config)
    (now : Int) : Prop :=
  let payload := lib.marshalClaims (MerchantService.Jwt.internalClaims config now)
  let signatureInput :=
    lib.base64Encode MerchantService.Jwt.headerJSON ++ "." ++ lib.base64Encode payload
  '.' ∉ (lib.base64Encode MerchantService.Jwt.headerJSON).data ∧
  '.' ∉ (lib.base64Encode payload).data ∧
  '.' ∉ (lib.base64Encode (lib.hmacSHA256 config.JwtSecretKey signatureInput)).data ∧
  lib.base64Decode (lib.base64Encode payload) = .ok payload ∧
  lib.unmarshalClaims payload = .ok (MerchantService.Jwt.internalClaims config now)

instance (lib : MerchantService.Jwt.Library) (config : MerchantService.Jwt.Config) (now : Int) :
    Decidable (libraryRoundTrips lib config now) := by
  unfold libraryRoundTrips; infer_instance

/-- Requests of one client passing through `RedisRateLimiter` one after the
other, at the given instants, with Redis answering every command: the
outcomes in order and the store afterwards. -/
def serveAll (config : ApiGateway.Middleware.RedisRateLimiterConfig) (req : Request) :
    List Int → RedisStore → List Outcome × RedisStore
  | [], store => ([], store)
  | now :: later, store =>
    let first := ApiGateway.Middleware.RedisRateLimiter config {} req now store
    let rest := serveAll config req later first.2
    (first.1 :: rest.1, rest.2)

/-- The answer of the limiter to a request over the ceiling. -/
def tooManyRequests : Outcome :=
  .respond 429 "Rate limit exceeded. Please try again later."

/-- The field rules the `validate` tags of `CreateTransactionWithProductsRequest`
declare, as go-playground/validator reads them: `required` is a value other
than the zero value, `min=1` on a number is `>= 1` and on the products list a
length `>= 1`, `dive` applies the line rules to every line, `oneof=IDR` under
`omitempty` allows the empty currency.  The format half of `required,email` is
left out. -/
def fieldRulesHold (req : CreateTransactionWithProductsRequest) : Bool :=
  req.Name != "" && req.Phone != "" && req.Email != "" && req.Address != "" &&
  req.MerchantID != 0 && (req.Currency == "" || req.Currency == "IDR") &&
  decide (1 ≤ req.Products.length) &&
  req.Products.all (fun product =>
    product.ProductID != 0 && decide (1 ≤ product.Quantity) && decide (1 ≤ product.Price))

/-- The number a decimal numeral denotes: the digits read from the left. -/
def numeralValue (digits : List Char) : Nat :=
  digits.foldl (fun value c => 10 * value + (c.toNat - 48)) 0

/-- The total quantity an order requests of one product, over all its lines. -/
def requestedOf (productID : Nat) (lines : List TransactionProduct) : Int :=
  ((lines.filter (fun line => line.ProductID == productID)).map (fun line => line.Quantity)).sum

/-! ## Scenarios -/

/-- The order of the scenarios: merchant 7, product 1 (qty 3 at 1000) and
product 2 (qty 1 at 5000). -/
def scenarioRequest : CreateTransactionWithProductsRequest :=
  { Name := "Budi", Phone := "0812", Email := "budi@example.com", Address := "Jl. Merdeka 1"
    MerchantID := 7
    Products := [{ ProductID := 1, Quantity := 3, Price := 1000 },
                 { ProductID := 2, Quantity := 1, Price := 5000 }] }

/-- A single line of one unit priced 2000000000000009. -/
def largeRequest : CreateTransactionWithProductsRequest :=
  { Name := "Budi", Phone := "0812", Email := "budi@example.com", Address := "Jl. Merdeka 1"
    MerchantID := 7
    Products := [{ ProductID := 1, Quantity := 1, Price := 2000000000000009 }] }

/-- The transaction the controller builds for `scenarioRequest` at time 1700000000. -/
def scenarioOrder : Transaction :=
  TransactionService.Controller.buildTransaction 1700000000 scenarioRequest

/-- A merchant service holding the given stock of products 1 and 2 for merchant 7. -/
def scenarioClient (stock1 stock2 : Int) : MerchantClient :=
  { token := .ok "token"
    get := fun merchantID productID =>
      .ok { StatusCode := 200
            Body := some (([
              { ID := 1, MerchantID := 7, ProductID := 1, ProductName := "productA", Stock := stock1 },
              { ID := 2, MerchantID := 7, ProductID := 2, ProductName := "productB", Stock := stock2 }
              ] : List MerchantProductResponse).filter (fun row =>
                row.MerchantID == merchantID && row.ProductID == productID)) } }

/-- The merchant ledger of the scenarios: merchant 7 holds 5 of product 1 and
2 of product 2; merchant 8 holds 4 of product 1. -/
def scenarioLedger : List MerchantProduct :=
  [ { ID := 1, MerchantID := 7, ProductID := 1, WarehouseID := 3, Stock := 5 },
    { ID := 2, MerchantID := 7, ProductID := 2, WarehouseID := 3, Stock := 2 },
    { ID := 3, MerchantID := 8, ProductID := 1, WarehouseID := 3, Stock := 4 } ]

/-- A merchant ledger whose single row holds the largest `int` stock. -/
def fullLedger : List MerchantProduct :=
  [ { ID := 1, MerchantID := 7, ProductID := 1, WarehouseID := 3, Stock := 9223372036854775807 } ]

/-- The warehouse ledger of the scenarios: warehouse 3 holds 10 of product 1
and 6 of product 2. -/
def scenarioWarehouseLedger : List WarehouseProduct :=
  [ { ID := 1, WarehouseID := 3, ProductID := 1, Stock := 10 },
    { ID := 2, WarehouseID := 3, ProductID := 2, Stock := 6 } ]

/-- The stock-reduced event published for `scenarioOrder`, with a first
product the merchant does not stock enough of. -/
def scenarioEvent : StockReducedEvent :=
  { MerchantID := 7
    Products := [{ ProductID := 2, Quantity := 3 }, { ProductID := 1, Quantity := 3 }]
    OrderID := "ORDER_1700000000_7"
    Timestamp := 1700000000 }

/-- A decoder of merchant-side deliveries that knows one well-formed body. -/
def scenarioUnmarshal (body : String) : Option StockReducedEvent :=
  if body = "scenarioEvent" then some scenarioEvent else none

/-- A decoder of warehouse-side deliveries that knows one well-formed body:
4 units of product 1 leave warehouse 3. -/
def scenarioWarehouseUnmarshal (body : String) : Option StockReductionEvent :=
  if body = "scenarioEvent" then
    some { WarehouseID := 3, ProductID := 1, Stock := 4, MerchantID := 7, Timestamp := 1700000000 }
  else none

/-- A store of the transaction service holding one earlier, paid order. -/
def scenarioDB : TransactionDB :=
  { transactions :=
      [ { ID := 1, Name := "Ani", Phone := "0813", SubTotal := 1000, TaxTotal := 110,
          GrandTotal := 1110, MerchantID := 7, PaymentStatus := "success",
          PaymentMethod := "qris", OrderID := "ORDER_1600000000_7", Currency := "IDR" } ]
    transactionProducts :=
      [ { ID := 1, ProductID := 1, Quantity := 1, Price := 1000, SubTotal := 1000,
          TransactionID := 1 } ]
    transactionsSeq := 1
    transactionProductsSeq := 1 }

/-- The store after `scenarioOrder` has been created in `scenarioDB`. -/
def scenarioPendingDB : TransactionDB :=
  (TransactionService.Repository.CreateTransaction scenarioDB {} scenarioOrder).2

/-- Stock 5 of product 1 and 2 of product 2: enough for `scenarioOrder`. -/
def scenarioEnv : UsecaseEnv :=
  { GetMerchantProductStock :=
      TransactionService.Httpclient.GetMerchantProductStock (scenarioClient 5 2)
    now := 1700000000 }

/-- Stock 5 of product 1 and none of product 2: too little for `scenarioOrder`. -/
def scenarioEnvShort : UsecaseEnv :=
  { GetMerchantProductStock :=
      TransactionService.Httpclient.GetMerchantProductStock (scenarioClient 5 0)
    now := 1700000000 }

/-- A token parser of the gateway that knows one end-user token, valid under
the secret `gateway-secret`. -/
def scenarioParse (tokenString secretKey : String) :
    Except String ApiGateway.Middleware.ParsedToken :=
  if tokenString = "user-token" ∧ secretKey = "gateway-secret" then
    .ok { Claims := { UserID := 42, Email := "ani@example.com", Roles := "Keeper" }, Valid := true }
  else .error "token signature is invalid"

/-- The gateway's JWT configuration of the scenarios. -/
def scenarioJWTConfig : ApiGateway.Middleware.JWTConfig :=
  { SecretKey := "gateway-secret", Issuer := "warehouse-api-gateway", Duration := 3600000000000 }

/-- A request of a service to the gateway: the sentinel header pair and an
Authorization header that is no bearer token. -/
def scenarioInternalRequest : Request :=
  { Path := "/api/v1/merchant-products"
    Headers := [("X-Internal-Request", "true"), ("X-Gateway", "warehouse-api-gateway"),
                ("Authorization", "garbage")] }

/-- A request of an end user holding the known token. -/
def scenarioUserRequest : Request :=
  { Path := "/api/v1/transactions"
    Headers := [("Authorization", "Bearer user-token")] }

/-- A request to a path that extends the login path, without any credential. -/
def scenarioLoginLikeRequest : Request :=
  { Path := "/api/v1/auth/login-attempts", Headers := [] }

/-- A stand-in for the Go standard library, small enough to evaluate examples
with: the MAC is the key joined to the message, the encoding swaps the dot
for a tilde, and claims are written field by field and read back from the
list `known`. -/
def scenarioLibrary (known : List MerchantService.Jwt.JWTClaims) : MerchantService.Jwt.Library :=
  let marshal := fun (c : MerchantService.Jwt.JWTClaims) =>
    "user_id=" ++ toString c.UserID ++ ";email=" ++ c.Email ++ ";roles=" ++ c.Roles ++
      ";exp=" ++ toString c.ExpiresAt ++ ";iat=" ++ toString c.IssuedAt ++
      ";iss=" ++ c.Issuer ++ ";sub=" ++ c.Subject
  { hmacSHA256 := fun key message => key ++ "/" ++ message
    base64Encode := fun s => String.mk (s.data.map (fun c => if c = '.' then '~' else c))
    base64Decode := fun s => .ok (String.mk (s.data.map (fun c => if c = '~' then '.' else c)))
    marshalClaims := marshal
    unmarshalClaims := fun s =>
      match known.find? (fun c => marshal c == s) with
      | some c => .ok c
      | none => .error "invalid character" }

/-- The trust-token configuration of the scenarios: a lifetime of one hour. -/
def scenarioTrustConfig : MerchantService.Jwt.Config :=
  { JwtSecretKey := "shared-secret", JwtIssuer := "warehouse", JwtDuration := 1 }

/-- A trust-token configuration whose lifetime is 2562048 hours. -/
def longLivedTrustConfig : MerchantService.Jwt.Config :=
  { JwtSecretKey := "shared-secret", JwtIssuer := "warehouse", JwtDuration := 2562048 }

/-- The issue instant of the scenarios: Unix second 1700000000, in nanoseconds. -/
def scenarioIssueTime : Int := 1700000000000000000

/-- The stand-in library that can read back the claims issued in the scenarios. -/
def scenarioTrustLibrary : MerchantService.Jwt.Library :=
  scenarioLibrary
    [ MerchantService.Jwt.internalClaims scenarioTrustConfig scenarioIssueTime,
      MerchantService.Jwt.internalClaims longLivedTrustConfig scenarioIssueTime ]

/-- The token issued under `config` at the scenario instant. -/
def scenarioToken (config : MerchantService.Jwt.Config) : String :=
  match MerchantService.Jwt.GenerateInternalToken scenarioTrustLibrary config scenarioIssueTime with
  | .ok token => token
  | .error _ => ""

/-- The warehouse service as the merchant service reaches it: warehouse 3
exists and its stock is that of `scenarioWarehouseLedger`. -/
def scenarioWarehouseClient : WarehouseClient :=
  { GetWarehouseByID := fun warehouseID =>
      if warehouseID = 3 then
        .ok { ID := 3, Name := "Gudang Utama", Address := "Jl. Industri 5", Phone := "021" }
      else .error "failed to get warehouse by id"
    GetWarehouseProductStock := fun warehouseID productID =>
      match scenarioWarehouseLedger.find? (fun row =>
          row.WarehouseID == warehouseID && row.ProductID == productID) with
      | some row =>
        .ok { ID := row.ID, ProductID := row.ProductID, Stock := row.Stock,
              WarehouseID := row.WarehouseID }
      | none => .error "failed to get warehouse product stock" }

/-- A Redis without entries. -/
def emptyCache : Cache := fun _ => none

/-- A Redis holding, under the key of warehouse 3, a stock of 50 of product 1
read earlier. -/
def staleCache : Cache := fun key =>
  if key = "warehouse:single:3" then
    some (.warehouseProductStock { ID := 1, ProductID := 1, Stock := 50, WarehouseID := 3 })
  else none

/-- A Redis without counters. -/
def emptyStore : RedisStore := fun _ => none

/-- The limiter of the scenario: at most 100 requests per 60 seconds. -/
def scenarioLimiterConfig : ApiGateway.Middleware.RedisRateLimiterConfig :=
  ApiGateway.Middleware.DefaultRateLimiterConfig

/-- A client of the gateway. -/
def scenarioClientRequest : Request :=
  { Path := "/api/v1/transactions", IP := "203.0.113.9" }

/-- The User service of the scenarios: user 1 is a manager, user 42 a keeper. -/
def scenarioUsers (userID : Nat) : Except String UserResponse :=
  if userID = 1 then .ok { ID := 1, Name := "Sari", Email := "sari@example.com", RoleName := "Manager" }
  else if userID = 42 then
    .ok { ID := 42, Name := "Ani", Email := "ani@example.com", RoleName := "Keeper" }
  else .error "failed to get user by id"

/-- A merchant service that knows merchant 7, kept by user 42. -/
def scenarioMerchantClient : MerchantClient :=
  { token := .ok "token"
    get := fun _ _ => .ok { StatusCode := 200, Body := some [] }
    getMerchant := fun merchantID =>
      if merchantID = 7 then
        .ok { StatusCode := 200
              Body := some { ID := 7, Name := "Toko Maju", Address := "Jl. Merdeka 1",
                             Phone := "0812", KeeperID := 42 } }
      else .ok { StatusCode := 404, Body := none } }

/-- The collaborators of the dashboards in the scenarios. -/
def scenarioDashboardEnv : DashboardEnv :=
  { GetUserByID := scenarioUsers
    GetMerchantByID := TransactionService.Httpclient.GetMerchantByID scenarioMerchantClient }

/-- A request body that leaves every field out. -/
def emptyOrderRequest : CreateTransactionWithProductsRequest := {}

/-- The order of the scenarios with its lines replaced by a single line of
quantity 0 and price 0. -/
def zeroLineRequest : CreateTransactionWithProductsRequest :=
  { scenarioRequest with Products := [{ ProductID := 1, Quantity := 0, Price := 0 }] }

/-- The create-transaction endpoint of the scenarios: enough stock, a payment
gateway that answers every order, and the clock at 1700000000. -/
def scenarioControllerEnv : CreateTransactionEnv :=
  { usecase := scenarioEnv
    snap := fun orderID _ _ _ => .ok ("snap-" ++ orderID)
    now := 1700000000 }

/-- An order of merchant 7 that names product 1 on two lines, 3 units each. -/
def splitLinesRequest : CreateTransactionWithProductsRequest :=
  { scenarioRequest with
    Products := [{ ProductID := 1, Quantity := 3, Price := 1000 },
                 { ProductID := 1, Quantity := 3, Price := 1000 }] }

/-- The transaction the controller builds for `splitLinesRequest` at time 1700000000. -/
def splitLinesOrder : Transaction :=
  TransactionService.Controller.buildTransaction 1700000000 splitLinesRequest

/-- The collaborators of `scenarioEnv` with a broker that refuses the publish. -/
def scenarioEnvNoBroker : UsecaseEnv :=
  { scenarioEnv with publishErr := true }

/-- A ledger row the merchant service has just created: merchant 7 takes 4
units of product 1 from warehouse 3. -/
def scenarioNewMerchantProduct : MerchantProduct :=
  { ID := 4, MerchantID := 7, ProductID := 1, WarehouseID := 3, Stock := 4 }

/-- A user service that answers the forwarded login of `ani@example.com` with
password `rahasia` by 200 and every other login by 401. -/
def scenarioLoginUpstream : ApiGateway.Controller.LoginUpstream :=
  { Do := fun loginReq =>
      if loginReq.Email = "ani@example.com" ∧ loginReq.Password = "rahasia" then
        .ok { StatusCode := 200
              Body := .ok { UserID := 42, Email := "ani@example.com", Role := ["Keeper"] } }
      else .ok { StatusCode := 401, Body := .error "unexpected end of JSON input" } }

/-- A signer that answers every set of claims. -/
def scenarioSignedString (claims : ApiGateway.Middleware.JWTClaims) (_expiresAt _issuedAt : Int)
    (_issuer _key : String) : Except String String :=
  .ok ("token-of-" ++ claims.Email)

/-- The users table of the scenarios: Ani, a keeper, whose stored hash is that
of the password `rahasia`. -/
def scenarioUsersTable : List User :=
  [ { ID := 42, Name := "Ani", Email := "ani@example.com", Password := "hash(rahasia)",
      Roles := [{ ID := 2, Name := "Keeper" }] } ]

/-- The login endpoint of the user service in the scenarios: both fields
required, and a hash check that knows the scenario's hash function. -/
def scenarioLoginEnv : UserService.Controller.LoginEnv :=
  { Validate := fun loginRequest =>
      if loginRequest.Email = "" ∨ loginRequest.Password = "" then some "Validasi gagal"
      else none
    CheckPasswordHash := fun password hash => hash == "hash(" ++ password ++ ")"
    users := scenarioUsersTable }

end MicroWarehouse

/-! # Theorems -/

set_option maxRecDepth 20000

namespace MicroWarehouse

theorem wrapInt64_of_isInt64 {x : Int} (h : isInt64 x) : wrapInt64 x = x := by
  unfold isInt64 at h
  unfold wrapInt64
  norm_num at h ⊢
  omega

theorem firstByKey_foldl_some {α : Type} (key : α → Nat) (l : List α) (b : α) :
    ∃ r, l.foldl (fun best row =>
      match best with
      | none => some row
      | some b => if key row < key b then some row else some b) (some b) = some r ∧
      (r = b ∨ r ∈ l) ∧ key r ≤ key b ∧ ∀ x ∈ l, key r ≤ key x := by
  induction l generalizing b with
  | nil => exact ⟨b, rfl, Or.inl rfl, le_rfl, by simp⟩
  | cons a l ih =>
    simp only [List.foldl_cons]
    by_cases h : key a < key b
    · simp only [h, if_true]
      obtain ⟨r, hr, hm, hle, hall⟩ := ih a
      refine ⟨r, hr, ?_, by omega, ?_⟩
      · rcases hm with rfl | hm
        · exact Or.inr (List.mem_cons_self _ _)
        · exact Or.inr (List.mem_cons_of_mem _ hm)
      · intro x hx
        rcases List.mem_cons.mp hx with rfl | hx
        · exact hle
        · exact hall x hx
    · simp only [h, if_false]
      obtain ⟨r, hr, hm, hle, hall⟩ := ih b
      refine ⟨r, hr, ?_, hle, ?_⟩
      · rcases hm with rfl | hm
        · exact Or.inl rfl
        · exact Or.inr (List.mem_cons_of_mem _ hm)
      · intro x hx
        rcases List.mem_cons.mp hx with rfl | hx
        · omega
        · exact hall x hx

theorem firstByKey_some {α : Type} {key : α → Nat} {cond : α → Bool} {rows : List α} {r : α}
    (h : firstByKey key cond rows = some r) :
    r ∈ rows ∧ cond r = true ∧ ∀ x ∈ rows, cond x = true → key r ≤ key x := by
  unfold firstByKey at h
  cases hf : rows.filter cond with
  | nil => rw [hf] at h; simp at h
  | cons a l =>
    rw [hf] at h
    simp only [List.foldl_cons] at h
    obtain ⟨r', hr', hm, hle, hall⟩ := firstByKey_foldl_some key l a
    rw [hr'] at h
    obtain rfl : r' = r := by simpa using h
    have hmem : r' ∈ rows.filter cond := by
      rw [hf]
      rcases hm with rfl | hm
      · exact List.mem_cons_self _ _
      · exact List.mem_cons_of_mem _ hm
    refine ⟨(List.mem_filter.mp hmem).1, (List.mem_filter.mp hmem).2, ?_⟩
    intro x hx hc
    have hxf : x ∈ rows.filter cond := List.mem_filter.mpr ⟨hx, hc⟩
    rw [hf] at hxf
    rcases List.mem_cons.mp hxf with rfl | hxl
    · exact hle
    · exact hall x hxl

theorem firstByKey_none {α : Type} {key : α → Nat} {cond : α → Bool} {rows : List α} :
    firstByKey key cond rows = none ↔ ∀ r ∈ rows, cond r = false := by
  unfold firstByKey
  constructor
  · intro h r hr
    cases hf : rows.filter cond with
    | nil =>
      by_contra hc
      have : r ∈ rows.filter cond := List.mem_filter.mpr ⟨hr, by simpa using hc⟩
      rw [hf] at this
      simp at this
    | cons a l =>
      rw [hf] at h
      simp only [List.foldl_cons] at h
      obtain ⟨r', hr', _, _, _⟩ := firstByKey_foldl_some key l a
      rw [hr'] at h
      cases h
  · intro h
    have : rows.filter cond = [] := by
      rw [List.filter_eq_nil_iff]
      intro a ha
      simp [h a ha]
    rw [this]
    rfl

/-- C8. `ConvertMidtransStatusToInternal` maps capture and settlement to
success, pending to pending, deny to failed, cancel to cancel, expire to
expired, and every other string (the empty string and differently-cased
spellings included) to failed. -/
theorem ConvertMidtransStatusToInternal_table :
    ConvertMidtransStatusToInternal "capture" = "success" ∧
    ConvertMidtransStatusToInternal "settlement" = "success" ∧
    ConvertMidtransStatusToInternal "pending" = "pending" ∧
    ConvertMidtransStatusToInternal "deny" = "failed" ∧
    ConvertMidtransStatusToInternal "cancel" = "cancel" ∧
    ConvertMidtransStatusToInternal "expire" = "expired" ∧
    ConvertMidtransStatusToInternal "" = "failed" ∧
    ConvertMidtransStatusToInternal "Settlement" = "failed" ∧
    ConvertMidtransStatusToInternal "CAPTURE" = "failed" ∧
    ∀ s : String, s ∉ ["capture", "settlement", "pending", "deny", "cancel", "expire"] →
      ConvertMidtransStatusToInternal s = "failed" := by
  refine ⟨by decide, by decide, by decide, by decide, by decide, by decide, by decide,
    by decide, by decide, ?_⟩
  intro s hs
  simp only [List.mem_cons, List.mem_singleton, List.not_mem_nil, or_false, not_or] at hs
  obtain ⟨h1, h2, h3, h4, h5, h6⟩ := hs
  have e1 : (s == "capture") = false := by simpa using h1
  have e2 : (s == "settlement") = false := by simpa using h2
  have e3 : (s == "pending") = false := by simpa using h3
  have e4 : (s == "deny") = false := by simpa using h4
  have e5 : (s == "cancel") = false := by simpa using h5
  have e6 : (s == "expire") = false := by simpa using h6
  simp only [ConvertMidtransStatusToInternal, statusMap, List.lookup, e1, e2, e3, e4, e5, e6]
  rfl

/-- Witness of C8: the provider status `refund` is none of the six and maps to `failed`. -/
theorem ConvertMidtransStatusToInternal_table_witness :
    "refund" ∉ ["capture", "settlement", "pending", "deny", "cancel", "expire"] ∧
    ConvertMidtransStatusToInternal "refund" = "failed" :=
  ⟨by decide, ConvertMidtransStatusToInternal_table.2.2.2.2.2.2.2.2.2 "refund" (by decide)⟩

/-! ## Stock validation before an order is created -/

section StockValidation
open TransactionService

theorem validateLines_error_of_line_fails
    (getStock : Nat → Nat → Except String MerchantProductResponse) (merchantID : Nat)
    (lines : List TransactionProduct)
    (h : ∃ product ∈ lines, lineFails getStock merchantID product = true) :
    isErr (Usecase.validateLines getStock merchantID lines) = true := by
  induction lines with
  | nil => simp at h
  | cons a l ih =>
    unfold Usecase.validateLines
    cases hg : getStock merchantID a.ProductID with
    | error e => rfl
    | ok mp =>
      by_cases hlt : mp.Stock < a.Quantity
      · simp [hlt, isErr]
      · simp only [hlt, if_false]
        apply ih
        obtain ⟨product, hmem, hf⟩ := h
        rcases List.mem_cons.mp hmem with rfl | hmem
        · simp [lineFails, hg, hlt] at hf
        · exact ⟨product, hmem, hf⟩

/-- C1. If for some line item the merchant stock lookup fails or returns a
stock smaller than the line's quantity, the use case `CreateTransaction`
returns an error, makes no call at all (the repository's `CreateTransaction`
is not invoked and no stock-reduced event is published), and leaves the store
as it was. -/
theorem usecase_CreateTransaction_aborts_on_stock_failure
    (env : UsecaseEnv) (db : TransactionDB) (transaction : Transaction)
    (h : ∃ product ∈ transaction.TransactionProducts,
      lineFails env.GetMerchantProductStock transaction.MerchantID product = true) :
    isErr (Usecase.CreateTransaction env db transaction).result = true ∧
    (Usecase.CreateTransaction env db transaction).calls = [] ∧
    (Usecase.CreateTransaction env db transaction).published = [] ∧
    (Usecase.CreateTransaction env db transaction).db = db := by
  have hv := validateLines_error_of_line_fails env.GetMerchantProductStock
    transaction.MerchantID transaction.TransactionProducts h
  unfold Usecase.CreateTransaction Usecase.validateProductStocks
  cases hr : Usecase.validateLines env.GetMerchantProductStock transaction.MerchantID
      transaction.TransactionProducts with
  | error e => simp [isErr]
  | ok u => rw [hr] at hv; simp [isErr] at hv

/-- Witness of C1: the scenario order against a merchant out of product 2. -/
theorem usecase_CreateTransaction_aborts_on_stock_failure_witness :
    (∃ product ∈ scenarioOrder.TransactionProducts,
      lineFails scenarioEnvShort.GetMerchantProductStock scenarioOrder.MerchantID product = true) ∧
    isErr (Usecase.CreateTransaction scenarioEnvShort {} scenarioOrder).result = true ∧
    (Usecase.CreateTransaction scenarioEnvShort {} scenarioOrder).calls = [] ∧
    (Usecase.CreateTransaction scenarioEnvShort {} scenarioOrder).published = [] ∧
    (Usecase.CreateTransaction scenarioEnvShort {} scenarioOrder).db = {} :=
  have h : ∃ product ∈ scenarioOrder.TransactionProducts,
      lineFails scenarioEnvShort.GetMerchantProductStock scenarioOrder.MerchantID product = true :=
    ⟨{ ProductID := 2, Quantity := 1, Price := 5000, SubTotal := 5000 }, by decide, by decide⟩
  ⟨h, usecase_CreateTransaction_aborts_on_stock_failure scenarioEnvShort {} scenarioOrder h⟩

end StockValidation

/-! ## Rounding to a double -/

section BinaryRounding
open TransactionService

theorem bitLengthAux_le (fuel : Nat) : ∀ (n k : Nat), n < 2 ^ k → bitLengthAux fuel n ≤ k := by
  induction fuel with
  | zero => intro n k _; simp [bitLengthAux]
  | succ fuel ih =>
    intro n k h
    unfold bitLengthAux
    by_cases hn : n = 0
    · simp [hn]
    · simp only [hn, if_false]
      cases k with
      | zero => simp at h; omega
      | succ k =>
        have : n / 2 < 2 ^ k := by
          rw [pow_succ] at h
          omega
        have := ih (n / 2) k this
        omega

theorem lt_two_pow_bitLengthAux (fuel : Nat) :
    ∀ n : Nat, n ≤ fuel → n < 2 ^ bitLengthAux fuel n := by
  induction fuel with
  | zero => intro n h; simp [bitLengthAux]; omega
  | succ fuel ih =>
    intro n h
    unfold bitLengthAux
    by_cases hn : n = 0
    · simp [hn]
    · simp only [hn, if_false]
      have h2 : n / 2 ≤ fuel := by omega
      have := ih (n / 2) h2
      rw [pow_succ]
      omega

theorem roundSig53_of_lt {n : Nat} (h : n < 2 ^ 53) : roundSig53 n = n := by
  unfold roundSig53
  have : bitLength n ≤ 53 := bitLengthAux_le n n 53 h
  simp [this]

/-- Rounding the exact product `s * 0.11` (as a multiple of `2^-56`) lands in
the unit interval starting at `floor (11 s / 100)`, for `s` up to `10^15`. -/
theorem roundSig53_tax (s : Nat) (hs : s ≤ 10 ^ 15) :
    roundSig53 (s * taxRateNum) / 2 ^ 56 = 11 * s / 100 := by
  have hk0 : 100 * (11 * s / 100) ≤ 11 * s := Nat.mul_div_le _ _
  have hk1 : 11 * s < 100 * (11 * s / 100) + 100 := by
    have := Nat.lt_div_mul_add (a := 11 * s) (b := 100) (by norm_num)
    omega
  generalize hk : 11 * s / 100 = k at hk0 hk1 ⊢
  apply Nat.div_eq_of_lt_le
  all_goals
    unfold roundSig53 taxRateNum
    simp only []
    split
    · norm_num at hs ⊢
      omega
    · rename_i hlen
      have hlen : 53 < bitLength (s * 7926335344172073) := by omega
      have hnlt : s * 7926335344172073 < 2 ^ 103 := by norm_num at hs ⊢; omega
      have hL : bitLength (s * 7926335344172073) ≤ 103 := bitLengthAux_le _ _ 103 hnlt
      generalize hshift : bitLength (s * 7926335344172073) - 53 = shift
      have hsh1 : 1 ≤ shift := by omega
      have hsh2 : shift ≤ 50 := by omega
      obtain ⟨j, rfl⟩ : ∃ j, shift = j + 1 := ⟨shift - 1, by omega⟩
      have hP : 2 ^ (j + 1) = 2 * 2 ^ j := by rw [pow_succ]; ring
      have hhalf : 2 ^ j ≤ 2 ^ 49 := Nat.pow_le_pow_right (by norm_num) (by omega)
      have h56 : 2 ^ 56 = 2 ^ (j + 1) * 2 ^ (55 - j) := by
        rw [← pow_add]; congr 1; omega
      have hdm := Nat.div_add_mod (s * 7926335344172073) (2 ^ (j + 1))
      have hmod := Nat.mod_lt (s * 7926335344172073) (show 0 < 2 ^ (j + 1) by positivity)
      have hq : k * 2 ^ (55 - j) ≤ s * 7926335344172073 / 2 ^ (j + 1) := by
        rw [Nat.le_div_iff_mul_le (by positivity)]
        have : k * 2 ^ (55 - j) * 2 ^ (j + 1) = k * 2 ^ 56 := by rw [h56]; ring
        rw [this]
        norm_num at hs ⊢
        omega
      have hqP : k * 2 ^ 56 ≤ s * 7926335344172073 / 2 ^ (j + 1) * 2 ^ (j + 1) := by
        calc k * 2 ^ 56 = k * 2 ^ (55 - j) * 2 ^ (j + 1) := by rw [h56]; ring
          _ ≤ _ := Nat.mul_le_mul_right _ hq
      simp only [Nat.add_sub_cancel]
      generalize s * 7926335344172073 / 2 ^ (j + 1) = q at *
      generalize s * 7926335344172073 % 2 ^ (j + 1) = r at *
      have hmul : 2 ^ (j + 1) * q = q * 2 ^ (j + 1) := Nat.mul_comm _ _
      generalize hX : q * 2 ^ (j + 1) = X at *
      rw [Nat.add_mul, hX, one_mul]
      rw [hP] at hmod ⊢
      generalize 2 ^ j = half at *
      norm_num at hs hhalf hqP ⊢
      split <;> omega

end BinaryRounding

/-! ## Totals of the order the controller builds -/

section OrderTotals
open TransactionService

theorem taxtotalOf_eq {s : Int} (h0 : 0 ≤ s) (h1 : s ≤ 10 ^ 15) :
    Controller.taxtotalOf s = 11 * s / 100 := by
  obtain ⟨n, rfl⟩ := Int.eq_ofNat_of_zero_le h0
  have hn : n ≤ 10 ^ 15 := by exact_mod_cast h1
  have hlt : n < 2 ^ 53 := by norm_num at hn ⊢; omega
  unfold Controller.taxtotalOf float64OfInt64 float64MulTaxRate int64OfFloat64
  simp only [Int.natAbs_ofNat, roundSig53_of_lt hlt]
  rcases Nat.eq_zero_or_pos n with rfl | hpos
  · decide
  · have hsign : (n : Int).sign = 1 := Int.sign_eq_one_of_pos (by exact_mod_cast hpos)
    simp only [hsign, one_mul, Int.natAbs_ofNat]
    have := roundSig53_tax n hn
    have h2 : ((2 : Int) ^ 56) = ((2 ^ 56 : Nat) : Int) := by norm_num
    rw [h2, ← Int.ofNat_tdiv, this]
    norm_cast

theorem subtotal_foldl_eq (products : List CreateTransactionProductRequest) :
    ∀ acc : Int, 0 ≤ acc →
      (∀ p ∈ products, 0 ≤ p.Price ∧ 0 ≤ p.Quantity) →
      acc + linesTotal products ≤ 10 ^ 15 →
      products.foldl (fun subtotal product =>
        wrapInt64 (subtotal + wrapInt64 (product.Price * product.Quantity))) acc
        = acc + linesTotal products := by
  induction products with
  | nil => intro acc _ _ _; simp [linesTotal]
  | cons a l ih =>
    intro acc hacc hnn hb
    have ha := hnn a (List.mem_cons_self _ _)
    have hl : ∀ p ∈ l, 0 ≤ p.Price ∧ 0 ≤ p.Quantity :=
      fun p hp => hnn p (List.mem_cons_of_mem _ hp)
    have hprod : 0 ≤ a.Price * a.Quantity := mul_nonneg ha.1 ha.2
    have hrest : 0 ≤ linesTotal l := by
      unfold linesTotal
      apply List.sum_nonneg
      intro x hx
      obtain ⟨p, hp, rfl⟩ := List.mem_map.mp hx
      exact mul_nonneg (hl p hp).1 (hl p hp).2
    have hsplit : linesTotal (a :: l) = a.Price * a.Quantity + linesTotal l := by
      simp [linesTotal]
    rw [hsplit] at hb ⊢
    have w1 : wrapInt64 (a.Price * a.Quantity) = a.Price * a.Quantity :=
      wrapInt64_of_isInt64 (by unfold isInt64; norm_num at hb ⊢; omega)
    have w2 : wrapInt64 (acc + a.Price * a.Quantity) = acc + a.Price * a.Quantity :=
      wrapInt64_of_isInt64 (by unfold isInt64; norm_num at hb ⊢; omega)
    simp only [List.foldl_cons, w1, w2]
    rw [ih (acc + a.Price * a.Quantity) (by omega) hl (by omega)]
    ring

/-- C2 (amended). For a create-order request whose prices and quantities are
non-negative and whose lines total at most `10^15`, the transaction built by
the controller has `SubTotal` equal to the sum over the lines of price times
quantity, `TaxTotal = floor (11 * SubTotal / 100)` and
`GrandTotal = SubTotal + TaxTotal`. -/
theorem buildTransaction_totals (now : Int) (req : CreateTransactionWithProductsRequest)
    (hnn : ∀ p ∈ req.Products, 0 ≤ p.Price ∧ 0 ≤ p.Quantity)
    (hb : linesTotal req.Products ≤ 10 ^ 15) :
    (Controller.buildTransaction now req).SubTotal = linesTotal req.Products ∧
    (Controller.buildTransaction now req).TaxTotal =
      11 * (Controller.buildTransaction now req).SubTotal / 100 ∧
    (Controller.buildTransaction now req).GrandTotal =
      (Controller.buildTransaction now req).SubTotal +
        (Controller.buildTransaction now req).TaxTotal := by
  have hsub : Controller.subtotalOf req.Products = linesTotal req.Products := by
    have := subtotal_foldl_eq req.Products 0 le_rfl hnn (by simpa using hb)
    simpa [Controller.subtotalOf] using this
  have h0 : 0 ≤ linesTotal req.Products := by
    unfold linesTotal
    apply List.sum_nonneg
    intro x hx
    obtain ⟨p, hp, rfl⟩ := List.mem_map.mp hx
    exact mul_nonneg (hnn p hp).1 (hnn p hp).2
  have htax := taxtotalOf_eq h0 hb
  simp only [Controller.buildTransaction, hsub, htax]
  refine ⟨trivial, trivial, ?_⟩
  apply wrapInt64_of_isInt64
  unfold isInt64
  norm_num at hb ⊢
  omega

/-- Witness of C2: the scenario order totals 8000, with tax 880 and grand total 8880. -/
theorem buildTransaction_totals_witness :
    (∀ p ∈ scenarioRequest.Products, 0 ≤ p.Price ∧ 0 ≤ p.Quantity) ∧
    linesTotal scenarioRequest.Products ≤ 10 ^ 15 ∧
    (Controller.buildTransaction 1700000000 scenarioRequest).SubTotal = 8000 ∧
    (Controller.buildTransaction 1700000000 scenarioRequest).TaxTotal = 880 ∧
    (Controller.buildTransaction 1700000000 scenarioRequest).GrandTotal = 8880 ∧
    (Controller.buildTransaction 1700000000 scenarioRequest).SubTotal =
      linesTotal scenarioRequest.Products ∧
    (Controller.buildTransaction 1700000000 scenarioRequest).TaxTotal =
      11 * (Controller.buildTransaction 1700000000 scenarioRequest).SubTotal / 100 ∧
    (Controller.buildTransaction 1700000000 scenarioRequest).GrandTotal =
      (Controller.buildTransaction 1700000000 scenarioRequest).SubTotal +
        (Controller.buildTransaction 1700000000 scenarioRequest).TaxTotal :=
  ⟨by decide, by decide, by decide, by decide, by decide,
    buildTransaction_totals 1700000000 scenarioRequest (by decide) (by decide)⟩

/-- C2, as stated, fails: for one unit priced 2000000000000009 the controller
stores `TaxTotal = 220000000000001`, while `floor (11 * SubTotal / 100)` is
`220000000000000` (the double product rounds up across the integer). -/
theorem buildTransaction_tax_not_floor :
    (Controller.buildTransaction 1700000000 largeRequest).SubTotal = 2000000000000009 ∧
    (Controller.buildTransaction 1700000000 largeRequest).TaxTotal = 220000000000001 ∧
    11 * (Controller.buildTransaction 1700000000 largeRequest).SubTotal / 100 = 220000000000000 ∧
    (Controller.buildTransaction 1700000000 largeRequest).TaxTotal ≠
      11 * (Controller.buildTransaction 1700000000 largeRequest).SubTotal / 100 := by
  decide

end OrderTotals

/-! ## Lookup and update by primary key -/

section KeyedUpdate
theorem firstByKey_isSome_of_mem {α : Type} (key : α → Nat) (cond : α → Bool) {rows : List α}
    {x : α} (hx : x ∈ rows) (hc : cond x = true) : ∃ r, firstByKey key cond rows = some r := by
  cases h : firstByKey key cond rows with
  | some r => exact ⟨r, rfl⟩
  | none =>
    have := firstByKey_none.mp h x hx
    rw [hc] at this
    cases this

/-- Updating by primary key touches exactly the row holding that key. -/
theorem map_update_by_key {α : Type} (key : α → Nat) (f : α → α) (l1 l2 : List α) (row : α)
    (h : ((l1 ++ row :: l2).map key).Nodup) :
    (l1 ++ row :: l2).map (fun r => if key r == key row then f r else r) = l1 ++ f row :: l2 := by
  rw [List.map_append, List.map_cons] at h
  have hd := List.nodup_append.mp h
  have h1 : ∀ r ∈ l1, key r ≠ key row := by
    intro r hr heq
    exact hd.2.2 (List.mem_map_of_mem key hr) (heq ▸ List.mem_cons_self _ _)
  have h2 : ∀ r ∈ l2, key r ≠ key row := by
    intro r hr heq
    have := (List.nodup_cons.mp hd.2.1).1
    exact this (heq ▸ List.mem_map_of_mem key hr)
  rw [List.map_append, List.map_cons]
  congr 1
  · conv_rhs => rw [← List.map_id l1]
    apply List.map_congr_left
    intro r hr
    simp [h1 r hr]
  · congr 1
    · simp
    · conv_rhs => rw [← List.map_id l2]
      apply List.map_congr_left
      intro r hr
      simp [h2 r hr]

end KeyedUpdate

/-! ## The merchant ledger decrement -/

section MerchantLedger
open MerchantService

theorem ReduceStock_error_unchanged (ledger : List MerchantProduct) (faults : ReduceStockFaults)
    (merchantID productID : Nat) (quantity : Int)
    (h : isErr (Repository.ReduceStock ledger faults merchantID productID quantity).1 = true) :
    (Repository.ReduceStock ledger faults merchantID productID quantity).2 = ledger := by
  unfold Repository.ReduceStock at h ⊢
  by_cases h1 : faults.ctxDone = true
  · simp [h1]
  by_cases h2 : faults.firstErr = true
  · simp [h1, h2]
  cases h3 : firstByKey MerchantProduct.ID
      (fun row => row.MerchantID == merchantID && row.ProductID == productID) ledger with
  | none => simp [h1, h2]
  | some row =>
    by_cases h4 : row.Stock < quantity
    · simp [h1, h2, h4]
    by_cases h5 : faults.updateErr = true
    · simp [h1, h2, h4, h5]
    · simp [h1, h2, h3, h4, h5, isErr] at h

/-- C3. Merchant ledger `ReduceStock(merchant, product, qty)`, on a ledger
with unique primary keys.  If no row exists for (merchant, product) it
returns an error and the ledger is unchanged.  If a row exists, let `row` be
the one the lookup selects (the matching row of least id).  If
`row.Stock < qty` the call returns an error, which is `stock not enough` when
the store answers the lookup, and the ledger is unchanged.  Otherwise, when
the store performs the statements, the call succeeds and the ledger differs
from the old one exactly in that `row.Stock` is now `row.Stock - qty`
(computed in Go `int`, which is the integer difference whenever that fits 64
bits); every other row is unchanged.  Whenever the call returns an error the
ledger is unchanged. -/
theorem ReduceStock_cases (ledger : List MerchantProduct) (faults : ReduceStockFaults)
    (merchantID productID : Nat) (quantity : Int)
    (hpk : (ledger.map MerchantProduct.ID).Nodup) :
    ((∀ row ∈ ledger, row.MerchantID = merchantID → row.ProductID ≠ productID) →
      isErr (Repository.ReduceStock ledger faults merchantID productID quantity).1 = true ∧
      (Repository.ReduceStock ledger faults merchantID productID quantity).2 = ledger) ∧
    ((∃ row ∈ ledger, row.MerchantID = merchantID ∧ row.ProductID = productID) →
      ∃ l1 row l2, ledger = l1 ++ row :: l2 ∧
        row.MerchantID = merchantID ∧ row.ProductID = productID ∧
        (∀ r ∈ ledger, r.MerchantID = merchantID → r.ProductID = productID → row.ID ≤ r.ID) ∧
        (row.Stock < quantity →
          isErr (Repository.ReduceStock ledger faults merchantID productID quantity).1 = true ∧
          (Repository.ReduceStock ledger faults merchantID productID quantity).2 = ledger ∧
          (faults.ctxDone = false → faults.firstErr = false →
            (Repository.ReduceStock ledger faults merchantID productID quantity).1 =
              .error "stock not enough")) ∧
        (quantity ≤ row.Stock →
          faults.ctxDone = false → faults.firstErr = false → faults.updateErr = false →
          (Repository.ReduceStock ledger faults merchantID productID quantity).1 = .ok () ∧
          (Repository.ReduceStock ledger faults merchantID productID quantity).2 =
            l1 ++ { row with Stock := wrapInt64 (row.Stock - quantity) } :: l2 ∧
          (isInt64 (row.Stock - quantity) →
            wrapInt64 (row.Stock - quantity) = row.Stock - quantity))) ∧
    (isErr (Repository.ReduceStock ledger faults merchantID productID quantity).1 = true →
      (Repository.ReduceStock ledger faults merchantID productID quantity).2 = ledger) := by
  refine ⟨?_, ?_, ReduceStock_error_unchanged ledger faults merchantID productID quantity⟩
  · intro hno
    have hnone : firstByKey MerchantProduct.ID
        (fun row => row.MerchantID == merchantID && row.ProductID == productID) ledger = none := by
      rw [firstByKey_none]
      intro r hr
      by_cases hm : r.MerchantID = merchantID
      · simp [hm, hno r hr hm]
      · simp [hm]
    have herr : isErr (Repository.ReduceStock ledger faults merchantID productID quantity).1
        = true := by
      unfold Repository.ReduceStock
      rw [hnone]
      split
      · rfl
      · split <;> rfl
    exact ⟨herr, ReduceStock_error_unchanged _ _ _ _ _ herr⟩
  · rintro ⟨x, hx, hxm, hxp⟩
    obtain ⟨row, hrow⟩ := firstByKey_isSome_of_mem MerchantProduct.ID
      (fun row => row.MerchantID == merchantID && row.ProductID == productID)
      hx (by simp [hxm, hxp])
    obtain ⟨hmem, hcond, hmin⟩ := firstByKey_some hrow
    simp only [Bool.and_eq_true, beq_iff_eq] at hcond
    obtain ⟨l1, l2, hsplit⟩ := List.append_of_mem hmem
    refine ⟨l1, row, l2, hsplit, hcond.1, hcond.2, ?_, ?_, ?_⟩
    · intro r hr hrm hrp
      exact hmin r hr (by simp [hrm, hrp])
    · intro hlt
      have herr : isErr (Repository.ReduceStock ledger faults merchantID productID quantity).1
          = true := by
        unfold Repository.ReduceStock
        rw [hrow]
        split
        · rfl
        · split
          · rfl
          · simp [hlt, isErr]
      refine ⟨herr, ReduceStock_error_unchanged _ _ _ _ _ herr, ?_⟩
      intro h1 h2
      unfold Repository.ReduceStock
      rw [hrow]
      simp [h1, h2, hlt]
    · intro hge h1 h2 h3
      have hnlt : ¬ row.Stock < quantity := by omega
      refine ⟨?_, ?_, wrapInt64_of_isInt64⟩
      · unfold Repository.ReduceStock
        rw [hrow]
        simp [h1, h2, h3, hnlt]
      · unfold Repository.ReduceStock
        rw [hrow]
        simp only [h1, h2, h3, hnlt, if_false, Bool.false_eq_true]
        rw [hsplit] at hpk ⊢
        exact map_update_by_key MerchantProduct.ID
          (fun r => { r with Stock := wrapInt64 (row.Stock - quantity) }) l1 l2 row hpk

/-- Witness of C3: on the scenario ledger, taking 3 of product 1 from merchant 7 leaves 2; taking 3 of product 2 is refused; merchant 9 has no row. -/
theorem ReduceStock_cases_witness :
    (scenarioLedger.map MerchantProduct.ID).Nodup ∧
    (∃ row ∈ scenarioLedger, row.MerchantID = 7 ∧ row.ProductID = 1) ∧
    (Repository.ReduceStock scenarioLedger {} 7 1 3).1 = .ok () ∧
    (Repository.ReduceStock scenarioLedger {} 7 1 3).2 =
      [ { ID := 1, MerchantID := 7, ProductID := 1, WarehouseID := 3, Stock := 2 },
        { ID := 2, MerchantID := 7, ProductID := 2, WarehouseID := 3, Stock := 2 },
        { ID := 3, MerchantID := 8, ProductID := 1, WarehouseID := 3, Stock := 4 } ] ∧
    (Repository.ReduceStock scenarioLedger {} 7 2 3).1 = .error "stock not enough" ∧
    (Repository.ReduceStock scenarioLedger {} 7 2 3).2 = scenarioLedger ∧
    (Repository.ReduceStock scenarioLedger {} 9 1 1).1 = .error "record not found" ∧
    (Repository.ReduceStock scenarioLedger {} 9 1 1).2 = scenarioLedger ∧
    (∃ l1 row l2, scenarioLedger = l1 ++ row :: l2 ∧
        row.MerchantID = 7 ∧ row.ProductID = 1 ∧
        (∀ r ∈ scenarioLedger, r.MerchantID = 7 → r.ProductID = 1 → row.ID ≤ r.ID) ∧
        (row.Stock < 3 →
          isErr (Repository.ReduceStock scenarioLedger {} 7 1 3).1 = true ∧
          (Repository.ReduceStock scenarioLedger {} 7 1 3).2 = scenarioLedger ∧
          (({} : ReduceStockFaults).ctxDone = false → ({} : ReduceStockFaults).firstErr = false →
            (Repository.ReduceStock scenarioLedger {} 7 1 3).1 = .error "stock not enough")) ∧
        (3 ≤ row.Stock →
          ({} : ReduceStockFaults).ctxDone = false → ({} : ReduceStockFaults).firstErr = false →
          ({} : ReduceStockFaults).updateErr = false →
          (Repository.ReduceStock scenarioLedger {} 7 1 3).1 = .ok () ∧
          (Repository.ReduceStock scenarioLedger {} 7 1 3).2 =
            l1 ++ { row with Stock := wrapInt64 (row.Stock - 3) } :: l2 ∧
          (isInt64 (row.Stock - 3) → wrapInt64 (row.Stock - 3) = row.Stock - 3))) :=
  ⟨by decide, by decide, by decide, by decide, by decide, by decide, by decide, by decide,
    (ReduceStock_cases scenarioLedger {} 7 1 3 (by decide)).2.1 (by decide)⟩

end MerchantLedger

/-! ## Non-negative stock -/

section StockInvariant
theorem merchant_ReduceStock_nonneg (ledger : List MerchantProduct) (faults : ReduceStockFaults)
    (merchantID productID : Nat) (quantity : Int)
    (hm : ∀ row ∈ ledger, 0 ≤ row.Stock)
    (hq : ∀ row ∈ ledger, row.MerchantID = merchantID → row.ProductID = productID →
      row.Stock - quantity < 2 ^ 63) :
    ∀ row ∈ (MerchantService.Repository.ReduceStock ledger faults merchantID productID quantity).2,
      0 ≤ row.Stock := by
  unfold MerchantService.Repository.ReduceStock
  by_cases h1 : faults.ctxDone = true
  · simpa [h1] using hm
  by_cases h2 : faults.firstErr = true
  · simpa [h1, h2] using hm
  cases h3 : firstByKey MerchantProduct.ID
      (fun row => row.MerchantID == merchantID && row.ProductID == productID) ledger with
  | none => simpa [h1, h2] using hm
  | some found =>
    by_cases h4 : found.Stock < quantity
    · simpa [h1, h2, h4] using hm
    by_cases h5 : faults.updateErr = true
    · simpa [h1, h2, h4, h5] using hm
    · simp only [h1, h2, h4, h5, if_false, Bool.false_eq_true]
      intro row hrow
      obtain ⟨r, hr, rfl⟩ := List.mem_map.mp hrow
      have hfm := (firstByKey_some h3).1
      have hfc := (firstByKey_some h3).2.1
      simp only [Bool.and_eq_true, beq_iff_eq] at hfc
      have hw : wrapInt64 (found.Stock - quantity) = found.Stock - quantity :=
        wrapInt64_of_isInt64 (by
          have := hq found hfm hfc.1 hfc.2
          unfold isInt64
          norm_num at this ⊢
          omega)
      by_cases hid : r.ID = found.ID
      · simp only [hid, beq_self_eq_true, if_true, hw]
        omega
      · simp only [beq_iff_eq, hid, if_false]
        exact hm r hr

theorem warehouse_processStockReduction_nonneg (ledger : List WarehouseProduct)
    (faults : StockReductionFaults) (event : StockReductionEvent)
    (hw : ∀ row ∈ ledger, 0 ≤ row.Stock) :
    ∀ row ∈ (WarehouseService.Rabbitmq.processStockReduction ledger faults event).2,
      0 ≤ row.Stock := by
  unfold WarehouseService.Rabbitmq.processStockReduction
  cases hget : WarehouseService.Repository.GetWarehouseProductByWarehouseIDAndProductID ledger
      faults event.WarehouseID event.ProductID with
  | error e => simpa using hw
  | ok found =>
    simp only []
    by_cases hneg : wrapInt64 (found.Stock - event.Stock) < 0
    · simpa [hneg] using hw
    · simp only [hneg, if_false]
      have hupd : ∀ row ∈ (WarehouseService.Repository.UpdateWarehouseProduct ledger faults
          { found with Stock := wrapInt64 (found.Stock - event.Stock) }).2, 0 ≤ row.Stock := by
        unfold WarehouseService.Repository.UpdateWarehouseProduct
        by_cases h1 : faults.updateCtxDone = true
        · simpa [h1] using hw
        by_cases h2 : faults.updateFirstErr = true
        · simpa [h1, h2] using hw
        cases h3 : firstByKey WarehouseProduct.ID (fun row => row.ID == found.ID) ledger with
        | none => simpa [h1, h2] using hw
        | some existing =>
          by_cases h5 : faults.saveErr = true
          · simpa [h1, h2, h5] using hw
          · simp only [h1, h2, h5, if_false, Bool.false_eq_true]
            intro row hrow
            obtain ⟨r, hr, rfl⟩ := List.mem_map.mp hrow
            by_cases hid : r.ID = existing.ID
            · simp only [hid, beq_self_eq_true, if_true]
              omega
            · simp only [beq_iff_eq, hid, if_false]
              exact hw r hr
      generalize WarehouseService.Repository.UpdateWarehouseProduct ledger faults
        { found with Stock := wrapInt64 (found.Stock - event.Stock) } = res at hupd ⊢
      rcases res with ⟨_ | _, ledger1⟩ <;> exact hupd

theorem merchant_ReduceStock_rejects (ledger : List MerchantProduct) (faults : ReduceStockFaults)
    (merchantID productID : Nat) (quantity : Int)
    (h : ∀ row ∈ ledger, row.MerchantID = merchantID → row.ProductID = productID →
      row.Stock < quantity) :
    isErr (MerchantService.Repository.ReduceStock ledger faults merchantID productID quantity).1
      = true ∧
    (MerchantService.Repository.ReduceStock ledger faults merchantID productID quantity).2
      = ledger := by
  have herr : isErr (MerchantService.Repository.ReduceStock ledger faults merchantID productID
      quantity).1 = true := by
    unfold MerchantService.Repository.ReduceStock
    by_cases h1 : faults.ctxDone = true
    · simp [h1, isErr]
    by_cases h2 : faults.firstErr = true
    · simp [h1, h2, isErr]
    cases h3 : firstByKey MerchantProduct.ID
        (fun row => row.MerchantID == merchantID && row.ProductID == productID) ledger with
    | none => simp [h1, h2, isErr]
    | some found =>
      obtain ⟨hmem, hcond, _⟩ := firstByKey_some h3
      simp only [Bool.and_eq_true, beq_iff_eq] at hcond
      simp [h1, h2, h found hmem hcond.1 hcond.2, isErr]
  exact ⟨herr, ReduceStock_error_unchanged _ _ _ _ _ herr⟩

theorem warehouse_processStockReduction_rejects (ledger : List WarehouseProduct)
    (faults : StockReductionFaults) (event : StockReductionEvent)
    (hq : isInt64 event.Stock)
    (h : ∀ row ∈ ledger, row.WarehouseID = event.WarehouseID → row.ProductID = event.ProductID →
      0 ≤ row.Stock ∧ row.Stock < event.Stock) :
    isErr (WarehouseService.Rabbitmq.processStockReduction ledger faults event).1 = true ∧
    (WarehouseService.Rabbitmq.processStockReduction ledger faults event).2 = ledger := by
  unfold WarehouseService.Rabbitmq.processStockReduction
  cases hget : WarehouseService.Repository.GetWarehouseProductByWarehouseIDAndProductID ledger
      faults event.WarehouseID event.ProductID with
  | error e => simp [isErr]
  | ok found =>
    have hf : firstByKey WarehouseProduct.ID (fun row =>
        row.WarehouseID == event.WarehouseID && row.ProductID == event.ProductID) ledger
        = some found := by
      unfold WarehouseService.Repository.GetWarehouseProductByWarehouseIDAndProductID at hget
      split at hget
      · cases hget
      · split at hget
        · cases hget
        · split at hget
          · cases hget
          · rename_i heq
            rw [heq]
            injection hget with hget
            rw [hget]
    obtain ⟨hmem, hcond, _⟩ := firstByKey_some hf
    simp only [Bool.and_eq_true, beq_iff_eq] at hcond
    have hb := h found hmem hcond.1 hcond.2
    have hneg : wrapInt64 (found.Stock - event.Stock) < 0 := by
      rw [wrapInt64_of_isInt64]
      · omega
      · unfold isInt64 at hq ⊢
        norm_num at hq ⊢
        omega
    simp [hneg, isErr]

/-- C4 (amended). If every ledger row has stock >= 0, then after merchant
`ReduceStock` with a quantity for which `stock - quantity` of the matching
rows stays below `2^63` (always so for a non-negative quantity), and after
warehouse `processStockReduction` with any event quantity, every row still
has stock >= 0, whether the call succeeds or fails.  A decrement larger than
the current stock of the matching rows is rejected: the call returns an error
and the ledger is unchanged, not clamped to zero. -/
theorem stock_stays_nonneg
    (mLedger : List MerchantProduct) (mFaults : ReduceStockFaults)
    (merchantID productID : Nat) (quantity : Int)
    (wLedger : List WarehouseProduct) (wFaults : StockReductionFaults)
    (event : StockReductionEvent)
    (hm : ∀ row ∈ mLedger, 0 ≤ row.Stock)
    (hw : ∀ row ∈ wLedger, 0 ≤ row.Stock)
    (hq : ∀ row ∈ mLedger, row.MerchantID = merchantID → row.ProductID = productID →
      row.Stock - quantity < 2 ^ 63)
    (he : isInt64 event.Stock) :
    (∀ row ∈ (MerchantService.Repository.ReduceStock mLedger mFaults merchantID productID
        quantity).2, 0 ≤ row.Stock) ∧
    (∀ row ∈ (WarehouseService.Rabbitmq.processStockReduction wLedger wFaults event).2,
      0 ≤ row.Stock) ∧
    ((∀ row ∈ mLedger, row.MerchantID = merchantID → row.ProductID = productID →
        row.Stock < quantity) →
      isErr (MerchantService.Repository.ReduceStock mLedger mFaults merchantID productID
        quantity).1 = true ∧
      (MerchantService.Repository.ReduceStock mLedger mFaults merchantID productID quantity).2
        = mLedger) ∧
    ((∀ row ∈ wLedger, row.WarehouseID = event.WarehouseID → row.ProductID = event.ProductID →
        row.Stock < event.Stock) →
      isErr (WarehouseService.Rabbitmq.processStockReduction wLedger wFaults event).1 = true ∧
      (WarehouseService.Rabbitmq.processStockReduction wLedger wFaults event).2 = wLedger) :=
  ⟨merchant_ReduceStock_nonneg mLedger mFaults merchantID productID quantity hm hq,
   warehouse_processStockReduction_nonneg wLedger wFaults event hw,
   merchant_ReduceStock_rejects mLedger mFaults merchantID productID quantity,
   fun h => warehouse_processStockReduction_rejects wLedger wFaults event he
     (fun row hrow h1 h2 => ⟨hw row hrow, h row hrow h1 h2⟩)⟩

/-- Witness of C4: decrements larger than the stock, on the scenario ledgers. -/
theorem stock_stays_nonneg_witness :
    (∀ row ∈ scenarioLedger, 0 ≤ row.Stock) ∧
    (∀ row ∈ scenarioWarehouseLedger, 0 ≤ row.Stock) ∧
    (∀ row ∈ scenarioLedger, row.MerchantID = 7 → row.ProductID = 2 →
      row.Stock - 3 < 2 ^ 63) ∧
    isInt64 (7 : Int) ∧
    (∀ row ∈ scenarioLedger, row.MerchantID = 7 → row.ProductID = 2 → row.Stock < 3) ∧
    (∀ row ∈ scenarioWarehouseLedger, row.WarehouseID = 3 → row.ProductID = 2 →
      row.Stock < 7) ∧
    (∀ row ∈ (MerchantService.Repository.ReduceStock scenarioLedger {} 7 2 3).2,
      0 ≤ row.Stock) ∧
    (∀ row ∈ (WarehouseService.Rabbitmq.processStockReduction scenarioWarehouseLedger {}
        { WarehouseID := 3, ProductID := 2, Stock := 7 }).2, 0 ≤ row.Stock) ∧
    isErr (MerchantService.Repository.ReduceStock scenarioLedger {} 7 2 3).1 = true ∧
    (MerchantService.Repository.ReduceStock scenarioLedger {} 7 2 3).2 = scenarioLedger ∧
    isErr (WarehouseService.Rabbitmq.processStockReduction scenarioWarehouseLedger {}
        { WarehouseID := 3, ProductID := 2, Stock := 7 }).1 = true ∧
    (WarehouseService.Rabbitmq.processStockReduction scenarioWarehouseLedger {}
        { WarehouseID := 3, ProductID := 2, Stock := 7 }).2 = scenarioWarehouseLedger :=
  have h := stock_stays_nonneg scenarioLedger {} 7 2 3 scenarioWarehouseLedger {}
    { WarehouseID := 3, ProductID := 2, Stock := 7 } (by decide) (by decide) (by decide)
    (by decide)
  ⟨by decide, by decide, by decide, by decide, by decide, by decide, h.1, h.2.1,
    (h.2.2.1 (by decide)).1, (h.2.2.1 (by decide)).2,
    (h.2.2.2 (by decide)).1, (h.2.2.2 (by decide)).2⟩

/-- C4, as stated, fails for the merchant ledger: a row holding the largest
`int` stock and an event quantity of -1 pass the check `Stock < quantity`,
the subtraction wraps, and the row is stored with a negative stock. -/
theorem merchant_ReduceStock_wraps_negative :
    (∀ row ∈ fullLedger, 0 ≤ row.Stock) ∧
    (MerchantService.Repository.ReduceStock fullLedger {} 7 1 (-1)).1 = .ok () ∧
    (MerchantService.Repository.ReduceStock fullLedger {} 7 1 (-1)).2 =
      [ { ID := 1, MerchantID := 7, ProductID := 1, WarehouseID := 3,
          Stock := -9223372036854775808 } ] ∧
    ¬ (∀ row ∈ (MerchantService.Repository.ReduceStock fullLedger {} 7 1 (-1)).2,
      0 ≤ row.Stock) := by
  decide

end StockInvariant

/-! ## Acknowledgement by the two consumers -/

section Consumers
/-- C5 (amended). The merchant-service consumer `handleStockReductionEvent`
acknowledges every delivery it handles (the `msg.Ack` is deferred and runs on
every return, and the queue is consumed without auto-ack): when the body does
not decode it returns the decoding error, leaves the ledger unchanged and
still acknowledges; when the body decodes it returns no error and
acknowledges whether or not the products' `ReduceStock` calls succeed, a
failed product being skipped while the others are applied. -/
theorem handleStockReductionEvent_always_acks
    (unmarshal : String → Option StockReducedEvent) (faults : Nat → ReduceStockFaults)
    (ledger : List MerchantProduct) (msg : Delivery) :
    (MerchantService.Rabbitmq.handleStockReductionEvent unmarshal faults ledger msg).acked = true ∧
    MerchantService.Rabbitmq.consumeAutoAck = false ∧
    (unmarshal msg.Body = none →
      (MerchantService.Rabbitmq.handleStockReductionEvent unmarshal faults ledger msg).err ≠ none ∧
      (MerchantService.Rabbitmq.handleStockReductionEvent unmarshal faults ledger msg).ledger
        = ledger) ∧
    (∀ event, unmarshal msg.Body = some event →
      (MerchantService.Rabbitmq.handleStockReductionEvent unmarshal faults ledger msg).err = none ∧
      (MerchantService.Rabbitmq.handleStockReductionEvent unmarshal faults ledger msg).ledger
        = MerchantService.Rabbitmq.reduceProducts faults event.MerchantID 0 event.Products
            ledger) := by
  unfold MerchantService.Rabbitmq.handleStockReductionEvent
  refine ⟨?_, rfl, ?_, ?_⟩
  · cases unmarshal msg.Body <;> rfl
  · intro h
    rw [h]
    simp
  · intro event h
    rw [h]
    simp

/-- Witness of C5: the scenario event, whose first product cannot be decremented, is acknowledged and its second product is applied. -/
theorem handleStockReductionEvent_always_acks_witness :
    scenarioUnmarshal (Delivery.mk "scenarioEvent").Body = some scenarioEvent ∧
    (MerchantService.Rabbitmq.handleStockReductionEvent scenarioUnmarshal (fun _ => {})
      scenarioLedger ⟨"scenarioEvent"⟩).acked = true ∧
    (MerchantService.Rabbitmq.handleStockReductionEvent scenarioUnmarshal (fun _ => {})
      scenarioLedger ⟨"scenarioEvent"⟩).err = none ∧
    (MerchantService.Rabbitmq.handleStockReductionEvent scenarioUnmarshal (fun _ => {})
      scenarioLedger ⟨"scenarioEvent"⟩).ledger =
      MerchantService.Rabbitmq.reduceProducts (fun _ => {}) scenarioEvent.MerchantID 0
        scenarioEvent.Products scenarioLedger ∧
    MerchantService.Rabbitmq.reduceProducts (fun _ => {}) scenarioEvent.MerchantID 0
        scenarioEvent.Products scenarioLedger =
      [ { ID := 1, MerchantID := 7, ProductID := 1, WarehouseID := 3, Stock := 2 },
        { ID := 2, MerchantID := 7, ProductID := 2, WarehouseID := 3, Stock := 2 },
        { ID := 3, MerchantID := 8, ProductID := 1, WarehouseID := 3, Stock := 4 } ] :=
  have h := handleStockReductionEvent_always_acks scenarioUnmarshal (fun _ => {})
    scenarioLedger ⟨"scenarioEvent"⟩
  ⟨by decide, h.1, (h.2.2.2 scenarioEvent (by decide)).1, (h.2.2.2 scenarioEvent (by decide)).2,
    by decide⟩

/-- C5, as stated, fails: a delivery whose body does not decode is
acknowledged, and so is a delivery one of whose products (product 2, quantity
3 against a stock of 2) cannot be decremented. -/
theorem handleStockReductionEvent_acks_failures :
    scenarioUnmarshal "not json" = none ∧
    (MerchantService.Rabbitmq.handleStockReductionEvent scenarioUnmarshal (fun _ => {})
      scenarioLedger ⟨"not json"⟩).acked = true ∧
    scenarioUnmarshal "scenarioEvent" = some scenarioEvent ∧
    isErr (MerchantService.Rabbitmq.reduceStock scenarioLedger {} scenarioEvent.MerchantID 2 3).1
      = true ∧
    (MerchantService.Rabbitmq.handleStockReductionEvent scenarioUnmarshal (fun _ => {})
      scenarioLedger ⟨"scenarioEvent"⟩).acked = true := by
  decide

/-- C6: the code at the failing input.  Warehouse 3 holds 10 of product 1, the
event takes 4, and the store refuses the `Save` of `UpdateWarehouseProduct`:
`processStockReduction` returns no error, `handleMessage` calls `msg.Ack`,
and the ledger still holds 10.  The queue is moreover consumed with
`autoAck = true`. -/
theorem handleMessage_acks_unsaved_update :
    (WarehouseService.Repository.UpdateWarehouseProduct scenarioWarehouseLedger
      { saveErr := true } { ID := 1, WarehouseID := 3, ProductID := 1, Stock := 6 }).1
      = .error "save: statement failed" ∧
    (WarehouseService.Rabbitmq.processStockReduction scenarioWarehouseLedger { saveErr := true }
      { WarehouseID := 3, ProductID := 1, Stock := 4, MerchantID := 7, Timestamp := 1700000000 }).1
      = .ok () ∧
    (WarehouseService.Rabbitmq.handleMessage scenarioWarehouseUnmarshal { saveErr := true }
      scenarioWarehouseLedger ⟨"scenarioEvent"⟩).acked = true ∧
    (WarehouseService.Rabbitmq.handleMessage scenarioWarehouseUnmarshal { saveErr := true }
      scenarioWarehouseLedger ⟨"scenarioEvent"⟩).ledger = scenarioWarehouseLedger ∧
    WarehouseService.Rabbitmq.consumeAutoAck = true := by
  decide

end Consumers

/-! ## Single inserts -/

section Inserts
open TransactionService

theorem insertTransactionProduct_ok {tx tx1 : TransactionDB} {refused : Bool}
    {product row : TransactionProduct}
    (h : Repository.insertTransactionProduct tx refused product = (.ok row, tx1)) :
    tx1.transactions = tx.transactions ∧
    tx1.transactionProducts = tx.transactionProducts ++ [row] ∧
    row.ProductID = product.ProductID ∧ row.Quantity = product.Quantity ∧
    row.Price = product.Price ∧ row.SubTotal = product.SubTotal ∧
    row.TransactionID = product.TransactionID := by
  unfold Repository.insertTransactionProduct at h
  dsimp only at h
  split_ifs at h <;>
    simp only [Prod.mk.injEq, Except.ok.injEq, reduceCtorEq, false_and] at h <;>
    obtain ⟨rfl, rfl⟩ := h <;> simp

theorem insertTransactionProduct_error {tx tx1 : TransactionDB} {refused : Bool}
    {product : TransactionProduct} {err : String}
    (h : Repository.insertTransactionProduct tx refused product = (.error err, tx1)) :
    tx1.transactions = tx.transactions ∧ tx1.transactionProducts = tx.transactionProducts := by
  unfold Repository.insertTransactionProduct at h
  dsimp only at h
  split_ifs at h <;>
    simp only [Prod.mk.injEq, reduceCtorEq, false_and] at h <;>
    obtain ⟨_, rfl⟩ := h <;> simp

theorem insertTransaction_ok {tx tx1 : TransactionDB} {refused : Bool}
    {transaction row : Transaction}
    (h : Repository.insertTransaction tx refused transaction = (.ok row, tx1)) :
    tx1.transactions = tx.transactions ++ [row] ∧
    tx1.transactionProducts = tx.transactionProducts ∧
    row = { transaction with ID := row.ID } ∧ row.ID < 2 ^ 63 ∧
    (∀ old ∈ tx.transactions, old.ID ≠ row.ID ∧ old.OrderID ≠ transaction.OrderID) := by
  unfold Repository.insertTransaction at h
  dsimp only at h
  split_ifs at h <;>
    simp only [Prod.mk.injEq, Except.ok.injEq, reduceCtorEq, false_and] at h <;>
    obtain ⟨rfl, rfl⟩ := h <;> (simp_all; try omega)

theorem insertTransaction_error {tx tx1 : TransactionDB} {refused : Bool}
    {transaction : Transaction} {err : String}
    (h : Repository.insertTransaction tx refused transaction = (.error err, tx1)) :
    tx1.transactions = tx.transactions ∧ tx1.transactionProducts = tx.transactionProducts := by
  unfold Repository.insertTransaction at h
  dsimp only at h
  split_ifs at h <;>
    simp only [Prod.mk.injEq, reduceCtorEq, false_and] at h <;>
    obtain ⟨_, rfl⟩ := h <;> simp

end Inserts

/-! ## Atomic creation of an order -/

section CreateTransactionStore
open TransactionService

theorem createProducts_ok (faults : CreateTransactionFaults) (transactionID : Nat) :
    ∀ (lines : List TransactionProduct) (i : Nat) (tx tx2 : TransactionDB),
      Repository.createProducts faults transactionID i lines tx = (.ok (), tx2) →
      tx2.transactions = tx.transactions ∧
      ∃ newRows, tx2.transactionProducts = tx.transactionProducts ++ newRows ∧
        List.Forall₂ (lineStoredAs transactionID) lines newRows := by
  intro lines
  induction lines with
  | nil =>
    intro i tx tx2 h
    simp only [Repository.createProducts, Prod.mk.injEq, true_and] at h
    subst h
    exact ⟨rfl, [], by simp, List.Forall₂.nil⟩
  | cons line rest ih =>
    intro i tx tx2 h
    unfold Repository.createProducts at h
    dsimp only at h
    rcases hins : Repository.insertTransactionProduct tx (faults.createProductErr i)
        { ProductID := line.ProductID, Quantity := line.Quantity, Price := line.Price,
          SubTotal := line.SubTotal, TransactionID := transactionID } with ⟨res, tx1⟩
    rw [hins] at h
    cases res with
    | error e => simp at h
    | ok row =>
      simp only [] at h
      obtain ⟨h1, h2, h3, h4, h5, h6, h7⟩ := insertTransactionProduct_ok hins
      obtain ⟨g1, newRows, g2, g3⟩ := ih (i + 1) tx1 tx2 h
      refine ⟨by rw [g1, h1], row :: newRows, ?_, ?_⟩
      · rw [g2, h2]; simp
      · exact List.Forall₂.cons ⟨h3, h4, h5, h6, h7⟩ g3

theorem createProducts_refused (faults : CreateTransactionFaults) (transactionID : Nat) :
    ∀ (lines : List TransactionProduct) (i : Nat) (tx : TransactionDB),
      (∃ j, j < lines.length ∧ faults.createProductErr (i + j) = true) →
      isErr (Repository.createProducts faults transactionID i lines tx).1 = true := by
  intro lines
  induction lines with
  | nil => intro i tx h; obtain ⟨j, hj, _⟩ := h; simp at hj
  | cons line rest ih =>
    intro i tx h
    unfold Repository.createProducts
    dsimp only
    rcases hins : Repository.insertTransactionProduct tx (faults.createProductErr i)
        { ProductID := line.ProductID, Quantity := line.Quantity, Price := line.Price,
          SubTotal := line.SubTotal, TransactionID := transactionID } with ⟨res, tx1⟩
    cases res with
    | error e => rfl
    | ok row =>
      simp only []
      apply ih
      obtain ⟨j, hj, hf⟩ := h
      cases j with
      | zero =>
        exfalso
        simp only [Nat.add_zero] at hf
        unfold Repository.insertTransactionProduct at hins
        simp [hf] at hins
      | succ j =>
        refine ⟨j, by simpa using hj, ?_⟩
        rw [← hf]
        congr 1
        omega

/-- C7. Repository `CreateTransaction` is all-or-nothing.  Whenever it returns
an error, both tables hold exactly the rows they held before.  It returns an
error whenever the context is done, `Begin` fails, the insert of the
transaction row is refused or collides with a stored order code, the insert
of any line-item row is refused, or the commit fails.  Whenever it returns an
id, the transactions table has gained exactly one row, which is the input
transaction under a fresh id and is the row whose id is returned, and the
line-item table has gained exactly one row per input line, in order, each
with the line's product, quantity, price and subtotal and with the new
transaction's id. -/
theorem repository_CreateTransaction_all_or_nothing (db : TransactionDB)
    (faults : CreateTransactionFaults) (transaction : Transaction) :
    (isErr (Repository.CreateTransaction db faults transaction).1 = true →
      (Repository.CreateTransaction db faults transaction).2.transactions = db.transactions ∧
      (Repository.CreateTransaction db faults transaction).2.transactionProducts
        = db.transactionProducts) ∧
    ((faults.ctxDone = true ∨ faults.beginErr = true ∨ faults.createTransactionErr = true ∨
        (∃ j, j < transaction.TransactionProducts.length ∧ faults.createProductErr j = true) ∨
        faults.commitErr = true ∨
        (∃ old ∈ db.transactions, old.OrderID = transaction.OrderID)) →
      isErr (Repository.CreateTransaction db faults transaction).1 = true) ∧
    (∀ id : Int, (Repository.CreateTransaction db faults transaction).1 = .ok id →
      ∃ row newRows,
        (Repository.CreateTransaction db faults transaction).2.transactions
          = db.transactions ++ [row] ∧
        row = { transaction with ID := row.ID, TransactionProducts := [] } ∧
        id = row.ID ∧
        (∀ old ∈ db.transactions, old.ID ≠ row.ID) ∧
        (Repository.CreateTransaction db faults transaction).2.transactionProducts
          = db.transactionProducts ++ newRows ∧
        List.Forall₂ (lineStoredAs row.ID) transaction.TransactionProducts newRows) := by
  unfold Repository.CreateTransaction
  by_cases h1 : faults.ctxDone = true
  · simp [h1, isErr]
  by_cases h2 : faults.beginErr = true
  · simp [h1, h2, isErr]
  simp only [h1, h2, if_false, Bool.false_eq_true, false_or]
  rcases hins : Repository.insertTransaction db faults.createTransactionErr
      { transaction with TransactionProducts := [] } with ⟨res, tx1⟩
  cases res with
  | error e => simp [isErr, Repository.rollback]
  | ok row =>
    obtain ⟨a1, a2, a3, a4, a5⟩ := insertTransaction_ok hins
    have hnotref : faults.createTransactionErr = false := by
      cases hc : faults.createTransactionErr with
      | false => rfl
      | true =>
        unfold Repository.insertTransaction at hins
        simp [hc] at hins
    simp only []
    rcases hcp : Repository.createProducts faults row.ID 0 transaction.TransactionProducts tx1
      with ⟨res2, tx2⟩
    cases res2 with
    | error e => simp [isErr, Repository.rollback]
    | ok u =>
      obtain ⟨b1, newRows, b2, b3⟩ := createProducts_ok faults row.ID _ 0 tx1 tx2 hcp
      have hnoline : ¬ ∃ j, j < transaction.TransactionProducts.length ∧
          faults.createProductErr j = true := by
        intro hex
        have := createProducts_refused faults row.ID transaction.TransactionProducts 0 tx1
          (by simpa using hex)
        rw [hcp] at this
        simp [isErr] at this
      have hfresh : ¬ ∃ old ∈ db.transactions, old.OrderID = transaction.OrderID := by
        rintro ⟨old, hold, heq⟩
        exact (a5 old hold).2 heq
      simp only []
      by_cases h5 : faults.commitErr = true
      · simp [h5, isErr, Repository.rollback]
      · simp only [h5, if_false, Bool.false_eq_true, hnotref, hnoline, hfresh, false_or,
          isErr, false_implies, true_and, Except.ok.injEq]
        intro id hid
        refine ⟨row, newRows, by rw [b1, a1], a3, ?_, fun old hold => (a5 old hold).1,
          by rw [b2, a2], b3⟩
        rw [← hid]
        apply wrapInt64_of_isInt64
        unfold isInt64
        have : (row.ID : Int) < 2 ^ 63 := by exact_mod_cast a4
        constructor
        · have : (0 : Int) ≤ row.ID := Int.natCast_nonneg _
          norm_num
          omega
        · exact this

/-- Witness of C7: creating the scenario order succeeds with id 2 and three stored rows; with the second line-item insert refused nothing is retained. -/
theorem repository_CreateTransaction_all_or_nothing_witness :
    (Repository.CreateTransaction scenarioDB {} scenarioOrder).1 = .ok 2 ∧
    (Repository.CreateTransaction scenarioDB {} scenarioOrder).2.transactions.map
      (fun row => (row.ID, row.OrderID, row.GrandTotal)) =
      [(1, "ORDER_1600000000_7", 1110), (2, "ORDER_1700000000_7", 8880)] ∧
    (Repository.CreateTransaction scenarioDB {} scenarioOrder).2.transactionProducts =
      [ { ID := 1, ProductID := 1, Quantity := 1, Price := 1000, SubTotal := 1000,
          TransactionID := 1 },
        { ID := 2, ProductID := 1, Quantity := 3, Price := 1000, SubTotal := 3000,
          TransactionID := 2 },
        { ID := 3, ProductID := 2, Quantity := 1, Price := 5000, SubTotal := 5000,
          TransactionID := 2 } ] ∧
    (∃ row newRows,
        (Repository.CreateTransaction scenarioDB {} scenarioOrder).2.transactions
          = scenarioDB.transactions ++ [row] ∧
        row = { scenarioOrder with ID := row.ID, TransactionProducts := [] } ∧
        (2 : Int) = row.ID ∧
        (∀ old ∈ scenarioDB.transactions, old.ID ≠ row.ID) ∧
        (Repository.CreateTransaction scenarioDB {} scenarioOrder).2.transactionProducts
          = scenarioDB.transactionProducts ++ newRows ∧
        List.Forall₂ (lineStoredAs row.ID) scenarioOrder.TransactionProducts newRows) ∧
    isErr (Repository.CreateTransaction scenarioDB { createProductErr := fun j => j == 1 }
      scenarioOrder).1 = true ∧
    (Repository.CreateTransaction scenarioDB { createProductErr := fun j => j == 1 }
      scenarioOrder).2.transactions = scenarioDB.transactions ∧
    (Repository.CreateTransaction scenarioDB { createProductErr := fun j => j == 1 }
      scenarioOrder).2.transactionProducts = scenarioDB.transactionProducts :=
  have hfail := (repository_CreateTransaction_all_or_nothing scenarioDB
    { createProductErr := fun j => j == 1 } scenarioOrder).1 (by decide)
  ⟨by decide, by decide, by decide,
    (repository_CreateTransaction_all_or_nothing scenarioDB {} scenarioOrder).2.2 2 (by decide),
    by decide, hfail.1, hfail.2⟩

end CreateTransactionStore

/-! ## The payment status update -/

section PaymentStatusStore
open TransactionService

theorem forall₂_map_of_forall {α : Type} (R : α → α → Prop) (f : α → α) (l : List α)
    (h : ∀ x ∈ l, R x (f x)) : List.Forall₂ R l (l.map f) := by
  induction l with
  | nil => exact List.Forall₂.nil
  | cons a l ih =>
    exact List.Forall₂.cons (h a (List.mem_cons_self _ _))
      (ih (fun x hx => h x (List.mem_cons_of_mem _ hx)))

theorem forall₂_self_of_forall {α : Type} (R : α → α → Prop) (l : List α)
    (h : ∀ x ∈ l, R x x) : List.Forall₂ R l l := by
  have := forall₂_map_of_forall R id l h
  simpa using this

theorem applyUpdates_fields (paymentStatus paymentMethod transactionID fraudStatus : String)
    (row : Transaction) :
    (Repository.applyUpdates paymentStatus paymentMethod transactionID fraudStatus row).PaymentStatus
      = paymentStatus ∧
    (Repository.applyUpdates paymentStatus paymentMethod transactionID fraudStatus row).ID
      = row.ID ∧
    (Repository.applyUpdates paymentStatus paymentMethod transactionID fraudStatus row).OrderID
      = row.OrderID ∧
    (Repository.applyUpdates paymentStatus paymentMethod transactionID fraudStatus row).GrandTotal
      = row.GrandTotal := by
  unfold Repository.applyUpdates
  dsimp only
  split_ifs <;> exact ⟨rfl, rfl, rfl, rfl⟩

theorem UpdatePaymentStatus_ok_of_match (db : TransactionDB) (faults : UpdatePaymentStatusFaults)
    (orderID paymentStatus paymentMethod transactionID fraudStatus : String)
    (hmatch : ∃ row ∈ db.transactions, row.OrderID = orderID)
    (h1 : faults.ctxDone = false) (h2 : faults.firstErr = false)
    (h3 : faults.updatesErr = false) :
    Repository.UpdatePaymentStatus db faults orderID paymentStatus paymentMethod transactionID
      fraudStatus =
    (.ok (), { db with transactions := db.transactions.map (fun row =>
      if row.OrderID == orderID then
        Repository.applyUpdates paymentStatus paymentMethod transactionID fraudStatus row
      else row) }) := by
  obtain ⟨x, hx, hxo⟩ := hmatch
  obtain ⟨r, hr⟩ := firstByKey_isSome_of_mem Transaction.ID
    (fun row => row.OrderID == orderID) hx (by simp [hxo])
  unfold Repository.UpdatePaymentStatus
  rw [hr]
  simp [h1, h2, h3]

theorem UpdatePaymentStatus_error_of_no_match (db : TransactionDB)
    (faults : UpdatePaymentStatusFaults)
    (orderID paymentStatus paymentMethod transactionID fraudStatus : String)
    (hno : ∀ row ∈ db.transactions, row.OrderID ≠ orderID) :
    isErr (Repository.UpdatePaymentStatus db faults orderID paymentStatus paymentMethod
      transactionID fraudStatus).1 = true ∧
    (Repository.UpdatePaymentStatus db faults orderID paymentStatus paymentMethod
      transactionID fraudStatus).2 = db ∧
    (faults.ctxDone = false → faults.firstErr = false →
      (Repository.UpdatePaymentStatus db faults orderID paymentStatus paymentMethod
        transactionID fraudStatus).1 = .error "record not found") := by
  have hnone : firstByKey Transaction.ID (fun row => row.OrderID == orderID) db.transactions
      = none := by
    rw [firstByKey_none]
    intro r hr
    simp [hno r hr]
  unfold Repository.UpdatePaymentStatus
  rw [hnone]
  refine ⟨?_, ?_, ?_⟩
  · split_ifs <;> rfl
  · split_ifs <;> rfl
  · intro h1 h2
    simp [h1, h2]

theorem UpdatePaymentStatus_error_unchanged (db : TransactionDB)
    (faults : UpdatePaymentStatusFaults)
    (orderID paymentStatus paymentMethod transactionID fraudStatus : String)
    (h : isErr (Repository.UpdatePaymentStatus db faults orderID paymentStatus paymentMethod
      transactionID fraudStatus).1 = true) :
    (Repository.UpdatePaymentStatus db faults orderID paymentStatus paymentMethod
      transactionID fraudStatus).2 = db := by
  unfold Repository.UpdatePaymentStatus at h ⊢
  by_cases h1 : faults.ctxDone = true
  · simp [h1]
  by_cases h2 : faults.firstErr = true
  · simp [h1, h2]
  cases h3 : firstByKey Transaction.ID (fun row => row.OrderID == orderID) db.transactions with
  | none => simp [h1, h2]
  | some row =>
    by_cases h4 : faults.updatesErr = true
    · simp [h1, h2, h4]
    · simp [h1, h2, h3, h4, isErr] at h

end PaymentStatusStore

/-! ## The payment callback -/

section PaymentCallback
open TransactionService

/-- C9. Applying a payment callback.  For an order code that matches a stored
transaction, when the store performs the statements, `MidtransCallback`
answers 200 and the transactions table afterwards is the old one row by row,
where each row with that order code has `payment_status` equal to
`ConvertMidtransStatusToInternal` of the provider status (`success` for
`settlement`) and keeps its id and order code, and every other row is
unchanged; the line-item table is unchanged.  For an order code that matches
no transaction, `MidtransCallback` answers 500, `UpdatePaymentStatus` returns
an error (`record not found` when the store answers the lookup), and the
store is unchanged. -/
theorem MidtransCallback_applies_status (db : TransactionDB)
    (faults : UpdatePaymentStatusFaults) (req : MidtransCallbackRequest) :
    ((∃ row ∈ db.transactions, row.OrderID = req.OrderID) →
      faults.ctxDone = false → faults.firstErr = false → faults.updatesErr = false →
      (Controller.MidtransCallback db faults (some req)).1 = 200 ∧
      List.Forall₂ (fun old new =>
          (old.OrderID = req.OrderID →
            new.PaymentStatus = ConvertMidtransStatusToInternal req.TransactionStatus ∧
            (req.TransactionStatus = "settlement" → new.PaymentStatus = "success") ∧
            new.ID = old.ID ∧ new.OrderID = old.OrderID) ∧
          (old.OrderID ≠ req.OrderID → new = old))
        db.transactions (Controller.MidtransCallback db faults (some req)).2.transactions ∧
      (Controller.MidtransCallback db faults (some req)).2.transactionProducts
        = db.transactionProducts) ∧
    ((∀ row ∈ db.transactions, row.OrderID ≠ req.OrderID) →
      (Controller.MidtransCallback db faults (some req)).1 = 500 ∧
      (Controller.MidtransCallback db faults (some req)).2 = db ∧
      isErr (Usecase.UpdatePaymentStatus db faults req.OrderID
        (ConvertMidtransStatusToInternal req.TransactionStatus) req.PaymentType
        req.TransactionID req.FraudStatus).1 = true ∧
      (faults.ctxDone = false → faults.firstErr = false →
        (Usecase.UpdatePaymentStatus db faults req.OrderID
          (ConvertMidtransStatusToInternal req.TransactionStatus) req.PaymentType
          req.TransactionID req.FraudStatus).1 = .error "record not found")) := by
  constructor
  · intro hmatch h1 h2 h3
    have hupd := UpdatePaymentStatus_ok_of_match db faults req.OrderID
      (ConvertMidtransStatusToInternal req.TransactionStatus) req.PaymentType
      req.TransactionID req.FraudStatus hmatch h1 h2 h3
    unfold Controller.MidtransCallback Usecase.UpdatePaymentStatus
    simp only [hupd]
    refine ⟨trivial, ?_, trivial⟩
    apply forall₂_map_of_forall
    intro old _
    constructor
    · intro heq
      have hf := applyUpdates_fields (ConvertMidtransStatusToInternal req.TransactionStatus)
        req.PaymentType req.TransactionID req.FraudStatus old
      simp only [heq, beq_self_eq_true, if_true]
      refine ⟨hf.1, ?_, hf.2.1, by rw [hf.2.2.1, heq]⟩
      intro hs
      rw [hf.1, hs]
      decide
    · intro hne
      simp [hne]
  · intro hno
    have herr := UpdatePaymentStatus_error_of_no_match db faults req.OrderID
      (ConvertMidtransStatusToInternal req.TransactionStatus) req.PaymentType
      req.TransactionID req.FraudStatus hno
    unfold Controller.MidtransCallback Usecase.UpdatePaymentStatus
    rcases hres : Repository.UpdatePaymentStatus db faults req.OrderID
      (ConvertMidtransStatusToInternal req.TransactionStatus) req.PaymentType
      req.TransactionID req.FraudStatus with ⟨res, db1⟩
    rw [hres] at herr
    simp only [hres]
    cases res with
    | error e => exact ⟨rfl, herr.2.1, rfl, herr.2.2⟩
    | ok u => simp [isErr] at herr

/-- Witness of C9: a `settlement` callback for the pending scenario order, and one for an unknown order code. -/
theorem MidtransCallback_applies_status_witness :
    (∃ row ∈ scenarioPendingDB.transactions, row.OrderID = "ORDER_1700000000_7") ∧
    (Controller.MidtransCallback scenarioPendingDB {}
      (some { OrderID := "ORDER_1700000000_7", TransactionStatus := "settlement",
              PaymentType := "qris", FraudStatus := "accept", TransactionID := "mid-1" })).1
      = 200 ∧
    (Controller.MidtransCallback scenarioPendingDB {}
      (some { OrderID := "ORDER_1700000000_7", TransactionStatus := "settlement",
              PaymentType := "qris", FraudStatus := "accept", TransactionID := "mid-1" })
      ).2.transactions.map (fun row => (row.OrderID, row.PaymentStatus)) =
      [("ORDER_1600000000_7", "success"), ("ORDER_1700000000_7", "success")] ∧
    scenarioPendingDB.transactions.map (fun row => (row.OrderID, row.PaymentStatus)) =
      [("ORDER_1600000000_7", "success"), ("ORDER_1700000000_7", "pending")] ∧
    (Controller.MidtransCallback scenarioPendingDB {}
      (some { OrderID := "ORDER_1700000000_7", TransactionStatus := "settlement",
              PaymentType := "qris", FraudStatus := "accept", TransactionID := "mid-1" })
      ).2.transactionProducts = scenarioPendingDB.transactionProducts ∧
    (∀ row ∈ scenarioPendingDB.transactions, row.OrderID ≠ "ORDER_1_1") ∧
    (Controller.MidtransCallback scenarioPendingDB {}
      (some { OrderID := "ORDER_1_1", TransactionStatus := "settlement" })).1 = 500 ∧
    (Controller.MidtransCallback scenarioPendingDB {}
      (some { OrderID := "ORDER_1_1", TransactionStatus := "settlement" })).2
      = scenarioPendingDB :=
  have hhit := (MidtransCallback_applies_status scenarioPendingDB {}
    { OrderID := "ORDER_1700000000_7", TransactionStatus := "settlement",
      PaymentType := "qris", FraudStatus := "accept", TransactionID := "mid-1" }).1
    (by decide) rfl rfl rfl
  have hmiss := (MidtransCallback_applies_status scenarioPendingDB {}
    { OrderID := "ORDER_1_1", TransactionStatus := "settlement" }).2 (by decide)
  ⟨by decide, hhit.1, by decide, by decide, hhit.2.2, by decide, hmiss.1, hmiss.2.1⟩

/-- C10 (amended). `UpdatePaymentStatus` does not look at the current status.
A callback, with any arguments, leaves every stored transaction with another
order code unchanged, and leaves every transaction unchanged when it returns
an error; when it succeeds, each transaction with the named order code has
its `payment_status` overwritten with the status passed in, whatever its
status was (terminal statuses included). -/
theorem UpdatePaymentStatus_overwrites (db : TransactionDB)
    (faults : UpdatePaymentStatusFaults)
    (orderID paymentStatus paymentMethod transactionID fraudStatus : String) :
    List.Forall₂ (fun old new =>
        (old.OrderID ≠ orderID → new = old) ∧
        (isErr (Repository.UpdatePaymentStatus db faults orderID paymentStatus paymentMethod
          transactionID fraudStatus).1 = true → new = old) ∧
        (old.OrderID = orderID →
          (Repository.UpdatePaymentStatus db faults orderID paymentStatus paymentMethod
            transactionID fraudStatus).1 = .ok () →
          new.PaymentStatus = paymentStatus ∧ new.ID = old.ID ∧ new.OrderID = old.OrderID))
      db.transactions
      (Repository.UpdatePaymentStatus db faults orderID paymentStatus paymentMethod
        transactionID fraudStatus).2.transactions := by
  by_cases herr : isErr (Repository.UpdatePaymentStatus db faults orderID paymentStatus
      paymentMethod transactionID fraudStatus).1 = true
  · have hsame := UpdatePaymentStatus_error_unchanged db faults orderID paymentStatus
      paymentMethod transactionID fraudStatus herr
    rw [hsame]
    apply forall₂_self_of_forall
    intro old _
    refine ⟨fun _ => rfl, fun _ => rfl, ?_⟩
    intro _ hok
    rw [hok] at herr
    simp [isErr] at herr
  · have hshape : (Repository.UpdatePaymentStatus db faults orderID paymentStatus
        paymentMethod transactionID fraudStatus).2.transactions =
        db.transactions.map (fun row =>
          if row.OrderID == orderID then
            Repository.applyUpdates paymentStatus paymentMethod transactionID fraudStatus row
          else row) := by
      unfold Repository.UpdatePaymentStatus at herr ⊢
      by_cases h1 : faults.ctxDone = true
      · simp [h1, isErr] at herr
      by_cases h2 : faults.firstErr = true
      · simp [h1, h2, isErr] at herr
      cases h3 : firstByKey Transaction.ID (fun row => row.OrderID == orderID)
          db.transactions with
      | none => simp [h1, h2, h3, isErr] at herr
      | some row =>
        by_cases h4 : faults.updatesErr = true
        · simp [h1, h2, h3, h4, isErr] at herr
        · simp [h1, h2, h4]
    rw [hshape]
    apply forall₂_map_of_forall
    intro old _
    refine ⟨?_, fun h => absurd h herr, ?_⟩
    · intro hne
      simp [hne]
    · intro heq _
      have hf := applyUpdates_fields paymentStatus paymentMethod transactionID fraudStatus old
      simp only [heq, beq_self_eq_true, if_true]
      exact ⟨hf.1, hf.2.1, by rw [hf.2.2.1, heq]⟩

/-- Witness of C10: a `failed` update for the order that was `success`. -/
theorem UpdatePaymentStatus_overwrites_witness :
    List.Forall₂ (fun old new =>
        (old.OrderID ≠ "ORDER_1600000000_7" → new = old) ∧
        (isErr (Repository.UpdatePaymentStatus scenarioPendingDB {} "ORDER_1600000000_7"
          "failed" "" "" "").1 = true → new = old) ∧
        (old.OrderID = "ORDER_1600000000_7" →
          (Repository.UpdatePaymentStatus scenarioPendingDB {} "ORDER_1600000000_7"
            "failed" "" "" "").1 = .ok () →
          new.PaymentStatus = "failed" ∧ new.ID = old.ID ∧ new.OrderID = old.OrderID))
      scenarioPendingDB.transactions
      (Repository.UpdatePaymentStatus scenarioPendingDB {} "ORDER_1600000000_7"
        "failed" "" "" "").2.transactions ∧
    (Repository.UpdatePaymentStatus scenarioPendingDB {} "ORDER_1600000000_7"
        "failed" "" "" "").1 = .ok () ∧
    scenarioPendingDB.transactions.map (fun row => (row.OrderID, row.PaymentStatus)) =
      [("ORDER_1600000000_7", "success"), ("ORDER_1700000000_7", "pending")] ∧
    (Repository.UpdatePaymentStatus scenarioPendingDB {} "ORDER_1600000000_7"
        "failed" "" "" "").2.transactions.map (fun row => (row.OrderID, row.PaymentStatus)) =
      [("ORDER_1600000000_7", "failed"), ("ORDER_1700000000_7", "pending")] :=
  ⟨UpdatePaymentStatus_overwrites scenarioPendingDB {} "ORDER_1600000000_7" "failed" "" "" "",
    by decide, by decide, by decide⟩

/-- C10, as stated, fails: the stored transaction `ORDER_1600000000_7` has
`payment_status = success`; a later callback with provider status `expire`
for that order code sets it to `expired`, and one with `pending` sets it back
to `pending`. -/
theorem UpdatePaymentStatus_leaves_terminal_status :
    scenarioDB.transactions.map (fun row => (row.OrderID, row.PaymentStatus)) =
      [("ORDER_1600000000_7", "success")] ∧
    (Controller.MidtransCallback scenarioDB {}
      (some { OrderID := "ORDER_1600000000_7", TransactionStatus := "expire" })).1 = 200 ∧
    (Controller.MidtransCallback scenarioDB {}
      (some { OrderID := "ORDER_1600000000_7", TransactionStatus := "expire" })
      ).2.transactions.map (fun row => (row.OrderID, row.PaymentStatus)) =
      [("ORDER_1600000000_7", "expired")] ∧
    (Repository.UpdatePaymentStatus scenarioDB {} "ORDER_1600000000_7" "pending" "" "" ""
      ).2.transactions.map (fun row => (row.OrderID, row.PaymentStatus)) =
      [("ORDER_1600000000_7", "pending")] := by
  decide

end PaymentCallback

/-! ## Prefixes and splitting -/

section GoStrings

theorem string_eq_of_data {a b : String} (h : a.data = b.data) : a = b := by
  cases a; cases b; simp_all

theorem HasPrefixStr_iff (s pre : String) :
    HasPrefixStr s pre = true ↔ ∃ rest : String, s = pre ++ rest := by
  unfold HasPrefixStr
  rw [List.isPrefixOf_iff_prefix]
  constructor
  · rintro ⟨t, ht⟩
    refine ⟨String.mk t, string_eq_of_data ?_⟩
    simp [String.data_append, ht]
  · rintro ⟨rest, rfl⟩
    exact ⟨rest.data, by simp [String.data_append]⟩

theorem TrimPrefixStr_append (pre rest : String) : TrimPrefixStr (pre ++ rest) pre = rest := by
  have h : HasPrefixStr (pre ++ rest) pre = true := (HasPrefixStr_iff _ _).mpr ⟨rest, rfl⟩
  unfold TrimPrefixStr
  rw [if_pos h]
  apply string_eq_of_data
  simp [String.data_append]

end GoStrings

/-! ## Gateway trust: the sentinel headers and the bearer token -/

section GatewayTrust
open ApiGateway.Middleware

/-- C13. The domain-service `GatewayAuth` middleware calls the next handler
if and only if header `X-Internal-Request` equals `true` and header
`X-Gateway` equals `warehouse-api-gateway`; every other request is answered
403 without the handler being called; and two requests that agree on these
two headers get the same outcome, whatever their other headers
(`Authorization` included) are. -/
theorem GatewayAuth_iff_sentinel (req : Request) :
    ((MerchantService.Middleware.GatewayAuth req).proceeds = true ↔
      req.Get "X-Internal-Request" = "true" ∧ req.Get "X-Gateway" = "warehouse-api-gateway") ∧
    ((MerchantService.Middleware.GatewayAuth req).proceeds = false →
      ∃ message, MerchantService.Middleware.GatewayAuth req = .respond 403 message) ∧
    (∀ other : Request,
      other.Get "X-Internal-Request" = req.Get "X-Internal-Request" →
      other.Get "X-Gateway" = req.Get "X-Gateway" →
      MerchantService.Middleware.GatewayAuth other = MerchantService.Middleware.GatewayAuth req) := by
  refine ⟨?_, ?_, ?_⟩
  · unfold MerchantService.Middleware.GatewayAuth
    by_cases h1 : req.Get "X-Internal-Request" = "true" <;>
      by_cases h2 : req.Get "X-Gateway" = "warehouse-api-gateway" <;>
      simp [h1, h2, Outcome.proceeds]
  · unfold MerchantService.Middleware.GatewayAuth
    by_cases h1 : req.Get "X-Internal-Request" = "true" <;>
      by_cases h2 : req.Get "X-Gateway" = "warehouse-api-gateway" <;>
      simp [h1, h2, Outcome.proceeds]
  · intro other e1 e2
    unfold MerchantService.Middleware.GatewayAuth
    simp only [e1, e2]

/-- Witness of C13: the service request passes with or without its
`Authorization` header; the end-user request, which holds a bearer token but
no sentinel pair, is answered 403. -/
theorem GatewayAuth_iff_sentinel_witness :
    (MerchantService.Middleware.GatewayAuth scenarioInternalRequest).proceeds = true ∧
    (MerchantService.Middleware.GatewayAuth scenarioUserRequest).proceeds = false ∧
    (∃ message, MerchantService.Middleware.GatewayAuth scenarioUserRequest
      = .respond 403 message) ∧
    MerchantService.Middleware.GatewayAuth
      { Path := "/api/v1/merchant-products"
        Headers := [("X-Internal-Request", "true"), ("X-Gateway", "warehouse-api-gateway")] }
      = MerchantService.Middleware.GatewayAuth scenarioInternalRequest :=
  have h := GatewayAuth_iff_sentinel scenarioInternalRequest
  ⟨h.1.mpr (by decide), by decide,
    (GatewayAuth_iff_sentinel scenarioUserRequest).2.1 (by decide),
    h.2.2 _ (by decide) (by decide)⟩

/-- C14. Gateway `JWTAuthMiddleware`: for every non-public path, a request
with `X-Internal-Request = true` and `X-Gateway = warehouse-api-gateway`
proceeds to the next handler with identity context `user_id = 0`,
`user_email = system@warehouse.internal`, `user_roles = system`, whatever its
`Authorization` header is and whatever the token library would say. -/
theorem JWTAuthMiddleware_trusts_sentinel
    (parseWithClaims : String → String → Except String ParsedToken) (config : JWTConfig)
    (req : Request)
    (hpath : isPublicRoute req.Path = false)
    (h1 : req.Get "X-Internal-Request" = "true")
    (h2 : req.Get "X-Gateway" = "warehouse-api-gateway") :
    JWTAuthMiddleware parseWithClaims config req =
      .next { user_id := some 0
              user_email := some "system@warehouse.internal"
              user_roles := some "system" } := by
  unfold JWTAuthMiddleware
  simp [hpath, h1, h2]

/-- Witness of C14: the service request, whose `Authorization` header is no
bearer token, on a protected path. -/
theorem JWTAuthMiddleware_trusts_sentinel_witness :
    isPublicRoute scenarioInternalRequest.Path = false ∧
    scenarioInternalRequest.Get "Authorization" = "garbage" ∧
    JWTAuthMiddleware scenarioParse scenarioJWTConfig scenarioInternalRequest =
      .next { user_id := some 0
              user_email := some "system@warehouse.internal"
              user_roles := some "system" } :=
  ⟨by decide, by decide,
    JWTAuthMiddleware_trusts_sentinel scenarioParse scenarioJWTConfig scenarioInternalRequest
      (by decide) (by decide) (by decide)⟩

/-- C15. Gateway `JWTAuthMiddleware`: for every non-public path and request
without the correct sentinel header pair, the request proceeds if and only if
its `Authorization` header is `Bearer ` followed by a token that `validateJWT`
accepts under the configured secret; then the identity context is the
token's user id, email and roles; in every other case (header absent, wrong
prefix, token rejected) the answer is 401 and the next handler is not
called. -/
theorem JWTAuthMiddleware_requires_bearer
    (parseWithClaims : String → String → Except String ParsedToken) (config : JWTConfig)
    (req : Request)
    (hpath : isPublicRoute req.Path = false)
    (hsent : ¬ (req.Get "X-Internal-Request" = "true" ∧
      req.Get "X-Gateway" = "warehouse-api-gateway")) :
    ((JWTAuthMiddleware parseWithClaims config req).proceeds = true ↔
      ∃ token claims, req.Get "Authorization" = "Bearer " ++ token ∧
        validateJWT parseWithClaims token config.SecretKey = .ok claims) ∧
    (∀ token claims, req.Get "Authorization" = "Bearer " ++ token →
      validateJWT parseWithClaims token config.SecretKey = .ok claims →
      JWTAuthMiddleware parseWithClaims config req =
        .next { user_id := some claims.UserID
                user_email := some claims.Email
                user_roles := some claims.Roles }) ∧
    ((JWTAuthMiddleware parseWithClaims config req).proceeds = false →
      ∃ message, JWTAuthMiddleware parseWithClaims config req = .respond 401 message) := by
  have hgood : ∀ token claims, req.Get "Authorization" = "Bearer " ++ token →
      validateJWT parseWithClaims token config.SecretKey = .ok claims →
      JWTAuthMiddleware parseWithClaims config req =
        .next { user_id := some claims.UserID
                user_email := some claims.Email
                user_roles := some claims.Roles } := by
    intro token claims hauth hval
    have hne : req.Get "Authorization" ≠ "" := by
      rw [hauth]
      intro h
      have hl : ("Bearer " ++ token).length = 0 := by rw [h]; rfl
      rw [String.length_append] at hl
      have h7 : "Bearer ".length = 7 := by decide
      omega
    have hpre : HasPrefixStr (req.Get "Authorization") "Bearer " = true :=
      (HasPrefixStr_iff _ _).mpr ⟨token, hauth⟩
    have htrim : TrimPrefixStr (req.Get "Authorization") "Bearer " = token := by
      rw [hauth]; exact TrimPrefixStr_append _ _
    unfold JWTAuthMiddleware
    simp only [hpath, hsent, hne, hpre, htrim, hval, if_false, Bool.false_eq_true,
      not_true_eq_false]
  refine ⟨?_, hgood, ?_⟩
  · constructor
    · intro hp
      unfold JWTAuthMiddleware at hp
      simp only [hpath, hsent, if_false, Bool.false_eq_true] at hp
      by_cases hne : req.Get "Authorization" = ""
      · simp [hne, Outcome.proceeds] at hp
      · by_cases hpre : HasPrefixStr (req.Get "Authorization") "Bearer " = true
        · obtain ⟨token, hauth⟩ := (HasPrefixStr_iff _ _).mp hpre
          have htrim : TrimPrefixStr (req.Get "Authorization") "Bearer " = token := by
            rw [hauth]; exact TrimPrefixStr_append _ _
          simp only [hne, hpre, htrim, if_false, not_true_eq_false] at hp
          cases hval : validateJWT parseWithClaims token config.SecretKey with
          | error e => rw [hval] at hp; simp [Outcome.proceeds] at hp
          | ok claims => exact ⟨token, claims, hauth, hval⟩
        · simp [hne, hpre, Outcome.proceeds] at hp
    · rintro ⟨token, claims, hauth, hval⟩
      rw [hgood token claims hauth hval]
      rfl
  · intro hp
    unfold JWTAuthMiddleware at hp ⊢
    simp only [hpath, hsent, if_false, Bool.false_eq_true] at hp ⊢
    by_cases hne : req.Get "Authorization" = ""
    · exact ⟨"Authorization header required", by simp [hne]⟩
    · by_cases hpre : HasPrefixStr (req.Get "Authorization") "Bearer " = true
      · simp only [hne, hpre, if_false, not_true_eq_false] at hp ⊢
        cases hval : validateJWT parseWithClaims
            (TrimPrefixStr (req.Get "Authorization") "Bearer ") config.SecretKey with
        | error e => exact ⟨_, rfl⟩
        | ok claims => rw [hval] at hp; simp [Outcome.proceeds] at hp
      · exact ⟨"Invalid token format. Use 'Bearer <token>'", by simp [hne, hpre]⟩

/-- Witness of C15: the end-user request with the known token proceeds as
user 42; the same path with the token under a wrong prefix, and without any
header, is answered 401. -/
theorem JWTAuthMiddleware_requires_bearer_witness :
    isPublicRoute scenarioUserRequest.Path = false ∧
    ¬ (scenarioUserRequest.Get "X-Internal-Request" = "true" ∧
      scenarioUserRequest.Get "X-Gateway" = "warehouse-api-gateway") ∧
    scenarioUserRequest.Get "Authorization" = "Bearer " ++ "user-token" ∧
    validateJWT scenarioParse "user-token" scenarioJWTConfig.SecretKey =
      .ok { UserID := 42, Email := "ani@example.com", Roles := "Keeper" } ∧
    JWTAuthMiddleware scenarioParse scenarioJWTConfig scenarioUserRequest =
      .next { user_id := some 42, user_email := some "ani@example.com",
              user_roles := some "Keeper" } ∧
    JWTAuthMiddleware scenarioParse scenarioJWTConfig
      { Path := "/api/v1/transactions", Headers := [("Authorization", "Token user-token")] }
      = .respond 401 "Invalid token format. Use 'Bearer <token>'" ∧
    JWTAuthMiddleware scenarioParse scenarioJWTConfig
      { Path := "/api/v1/transactions", Headers := [("Authorization", "Bearer other-token")] }
      = .respond 401 "Invalid or expired token" ∧
    JWTAuthMiddleware scenarioParse scenarioJWTConfig
      { Path := "/api/v1/transactions", Headers := [] }
      = .respond 401 "Authorization header required" :=
  ⟨by decide, by decide, by decide, by decide,
    (JWTAuthMiddleware_requires_bearer scenarioParse scenarioJWTConfig scenarioUserRequest
      (by decide) (by decide)).2.1 "user-token"
      { UserID := 42, Email := "ani@example.com", Roles := "Keeper" } (by decide) (by decide),
    by decide, by decide, by decide⟩

end GatewayTrust

/-! ## Public routes of the gateway -/

section PublicRoutes
open ApiGateway.Middleware

theorem proceeds_needs_credentials
    (parseWithClaims : String → String → Except String ParsedToken) (config : JWTConfig)
    (req : Request) (hpath : isPublicRoute req.Path = false)
    (hp : (JWTAuthMiddleware parseWithClaims config req).proceeds = true) :
    (req.Get "X-Internal-Request" = "true" ∧ req.Get "X-Gateway" = "warehouse-api-gateway") ∨
    ∃ token claims, req.Get "Authorization" = "Bearer " ++ token ∧
      validateJWT parseWithClaims token config.SecretKey = .ok claims := by
  by_cases hsent : req.Get "X-Internal-Request" = "true" ∧
      req.Get "X-Gateway" = "warehouse-api-gateway"
  · exact Or.inl hsent
  · right
    unfold JWTAuthMiddleware at hp
    simp only [hpath, hsent, if_false, Bool.false_eq_true] at hp
    by_cases hne : req.Get "Authorization" = ""
    · simp [hne, Outcome.proceeds] at hp
    · by_cases hpre : HasPrefixStr (req.Get "Authorization") "Bearer " = true
      · obtain ⟨token, hauth⟩ := (HasPrefixStr_iff _ _).mp hpre
        have htrim : TrimPrefixStr (req.Get "Authorization") "Bearer " = token := by
          rw [hauth]; exact TrimPrefixStr_append _ _
        simp only [hne, hpre, htrim, if_false, not_true_eq_false] at hp
        cases hval : validateJWT parseWithClaims token config.SecretKey with
        | error e => rw [hval] at hp; simp [Outcome.proceeds] at hp
        | ok claims => exact ⟨token, claims, hauth, hval⟩
      · simp [hne, hpre, Outcome.proceeds] at hp

/-- C16 (amended). The gateway skips authentication for a path if and only if
the path starts with `/health`, `/api/v1/auth/login` or
`/api/v1/midtrans/callback` (the three paths themselves and every path that
extends one of them): such a request proceeds with no identity context and no
credential being looked at.  For every other path `JWTAuthMiddleware` lets
the request proceed only with the sentinel header pair or a bearer token
that `validateJWT` accepts. -/
theorem isPublicRoute_iff_extends
    (parseWithClaims : String → String → Except String ParsedToken) (config : JWTConfig)
    (req : Request) :
    (isPublicRoute req.Path = true ↔
      (∃ rest : String, req.Path = "/health" ++ rest) ∨
      (∃ rest : String, req.Path = "/api/v1/auth/login" ++ rest) ∨
      (∃ rest : String, req.Path = "/api/v1/midtrans/callback" ++ rest)) ∧
    (isPublicRoute req.Path = true →
      JWTAuthMiddleware parseWithClaims config req = .next {}) ∧
    (isPublicRoute req.Path = false →
      (JWTAuthMiddleware parseWithClaims config req).proceeds = true →
      (req.Get "X-Internal-Request" = "true" ∧ req.Get "X-Gateway" = "warehouse-api-gateway") ∨
      ∃ token claims, req.Get "Authorization" = "Bearer " ++ token ∧
        validateJWT parseWithClaims token config.SecretKey = .ok claims) := by
  refine ⟨?_, ?_, proceeds_needs_credentials parseWithClaims config req⟩
  · unfold isPublicRoute
    simp only [List.any_cons, List.any_nil, Bool.or_false, Bool.or_eq_true, HasPrefixStr_iff]
  · intro h
    unfold JWTAuthMiddleware
    simp [h]

/-- Witness of C16: the login path itself is public; the transactions path is
not, and the end-user request proceeds there by its bearer token. -/
theorem isPublicRoute_iff_extends_witness :
    isPublicRoute "/api/v1/auth/login" = true ∧
    JWTAuthMiddleware scenarioParse scenarioJWTConfig { Path := "/api/v1/auth/login" }
      = .next {} ∧
    isPublicRoute scenarioUserRequest.Path = false ∧
    (JWTAuthMiddleware scenarioParse scenarioJWTConfig scenarioUserRequest).proceeds = true ∧
    ((scenarioUserRequest.Get "X-Internal-Request" = "true" ∧
        scenarioUserRequest.Get "X-Gateway" = "warehouse-api-gateway") ∨
      ∃ token claims, scenarioUserRequest.Get "Authorization" = "Bearer " ++ token ∧
        validateJWT scenarioParse token scenarioJWTConfig.SecretKey = .ok claims) :=
  ⟨by decide,
    (isPublicRoute_iff_extends scenarioParse scenarioJWTConfig
      { Path := "/api/v1/auth/login" }).2.1 (by decide),
    by decide, by decide,
    (isPublicRoute_iff_extends scenarioParse scenarioJWTConfig scenarioUserRequest).2.2
      (by decide) (by decide)⟩

/-- C16, as stated, fails: `/api/v1/auth/login-attempts` is none of the three
paths, yet `isPublicRoute` holds for it (it starts with the login path) and a
request to it without any credential is passed on unauthenticated. -/
theorem isPublicRoute_beyond_three_paths :
    scenarioLoginLikeRequest.Path ∉
      ["/health", "/api/v1/auth/login", "/api/v1/midtrans/callback"] ∧
    isPublicRoute scenarioLoginLikeRequest.Path = true ∧
    scenarioLoginLikeRequest.Headers = [] ∧
    JWTAuthMiddleware scenarioParse scenarioJWTConfig scenarioLoginLikeRequest = .next {} := by
  decide

end PublicRoutes

/-! ## The internal trust token -/

section TrustToken
open MerchantService.Jwt

theorem splitChars_ne_nil (sep : Char) (l : List Char) : splitChars sep l ≠ [] := by
  cases l with
  | nil => simp [splitChars]
  | cons c cs =>
    unfold splitChars
    split
    · simp
    · split <;> simp

theorem splitChars_of_not_mem (sep : Char) (l : List Char) (h : sep ∉ l) :
    splitChars sep l = [l] := by
  induction l with
  | nil => rfl
  | cons c cs ih =>
    have hc : c ≠ sep := fun e => h (e ▸ List.mem_cons_self _ _)
    have hcs : sep ∉ cs := fun m => h (List.mem_cons_of_mem _ m)
    simp [splitChars, hc, ih hcs]

theorem splitChars_append_sep (sep : Char) (a rest : List Char) (h : sep ∉ a) :
    splitChars sep (a ++ sep :: rest) = a :: splitChars sep rest := by
  induction a with
  | nil => simp [splitChars]
  | cons c cs ih =>
    have hc : c ≠ sep := fun e => h (e ▸ List.mem_cons_self _ _)
    have hcs : sep ∉ cs := fun m => h (List.mem_cons_of_mem _ m)
    rw [List.cons_append]
    simp [splitChars, hc, ih hcs]

theorem Split_three (a b c : String) (ha : '.' ∉ a.data) (hb : '.' ∉ b.data)
    (hc : '.' ∉ c.data) : Split (a ++ "." ++ b ++ "." ++ c) '.' = [a, b, c] := by
  unfold Split
  have hdata : (a ++ "." ++ b ++ "." ++ c).data = a.data ++ '.' :: (b.data ++ '.' :: c.data) := by
    simp [String.data_append]
  rw [hdata, splitChars_append_sep _ _ _ ha, splitChars_append_sep _ _ _ hb,
    splitChars_of_not_mem _ _ hc]
  rfl

end TrustToken

/-! ## Issuing and validating the trust token -/

section TrustTokenRoundTrip
open MerchantService.Jwt

theorem ValidateToken_of_three (lib : Library) (token : String) (config : Config)
    (nowUnix : Int) (h p s : String) (hsplit : Split token '.' = [h, p, s]) :
    ValidateToken lib token config nowUnix =
      if s ≠ lib.base64Encode (lib.hmacSHA256 config.JwtSecretKey (h ++ "." ++ p)) then
        .error "invalid signature"
      else
        match lib.base64Decode p with
        | .error err => .error ("failed to decode payload: " ++ err)
        | .ok payloadJSON =>
          match lib.unmarshalClaims payloadJSON with
          | .error err => .error ("failed to unmarshal claims: " ++ err)
          | .ok claims =>
            if nowUnix > claims.ExpiresAt then .error "token expired" else .ok claims := by
  unfold ValidateToken
  rw [hsplit]

theorem ValidateToken_of_not_three (lib : Library) (token : String) (config : Config)
    (nowUnix : Int) (hlen : (Split token '.').length ≠ 3) :
    ValidateToken lib token config nowUnix = .error "invalid token format" := by
  unfold ValidateToken
  rcases hsplit : Split token '.' with _ | ⟨a, _ | ⟨b, _ | ⟨c, _ | ⟨d, rest⟩⟩⟩⟩
  · rfl
  · rfl
  · rfl
  · rw [hsplit] at hlen; simp at hlen
  · rfl

/-- C12. `ValidateToken` accepts a token if and only if it splits at the dots
into exactly three segments, the third segment equals
`base64url (HMAC-SHA256 (secret, segment1 + "." + segment2))`, the second
segment decodes to JSON claims, and `now <= exp`; the claims returned are the
decoded ones.  It reports `invalid token format` when the number of segments
is not three, `invalid signature` when the third segment differs from the
signature computed under the configured secret (hence for a token signed
under a secret that yields another signature), and `token expired` when
signature and payload are in order and `now > exp`. -/
theorem ValidateToken_accepts_iff (lib : Library) (token : String) (config : Config)
    (nowUnix : Int) :
    (∀ claims, ValidateToken lib token config nowUnix = .ok claims ↔
      ∃ h p s payloadJSON, Split token '.' = [h, p, s] ∧
        s = lib.base64Encode (lib.hmacSHA256 config.JwtSecretKey (h ++ "." ++ p)) ∧
        lib.base64Decode p = .ok payloadJSON ∧
        lib.unmarshalClaims payloadJSON = .ok claims ∧
        nowUnix ≤ claims.ExpiresAt) ∧
    ((Split token '.').length ≠ 3 →
      ValidateToken lib token config nowUnix = .error "invalid token format") ∧
    (∀ h p s, Split token '.' = [h, p, s] →
      s ≠ lib.base64Encode (lib.hmacSHA256 config.JwtSecretKey (h ++ "." ++ p)) →
      ValidateToken lib token config nowUnix = .error "invalid signature") ∧
    (∀ h p s payloadJSON claims, Split token '.' = [h, p, s] →
      s = lib.base64Encode (lib.hmacSHA256 config.JwtSecretKey (h ++ "." ++ p)) →
      lib.base64Decode p = .ok payloadJSON →
      lib.unmarshalClaims payloadJSON = .ok claims →
      nowUnix > claims.ExpiresAt →
      ValidateToken lib token config nowUnix = .error "token expired") := by
  refine ⟨?_, ValidateToken_of_not_three lib token config nowUnix, ?_, ?_⟩
  · intro claims
    constructor
    · intro hok
      by_cases hlen : (Split token '.').length = 3
      · rcases hsplit : Split token '.' with _ | ⟨h, _ | ⟨p, _ | ⟨s, _ | ⟨d, rest⟩⟩⟩⟩
        · rw [hsplit] at hlen; simp at hlen
        · rw [hsplit] at hlen; simp at hlen
        · rw [hsplit] at hlen; simp at hlen
        · rw [ValidateToken_of_three lib token config nowUnix h p s hsplit] at hok
          by_cases hsig : s = lib.base64Encode
              (lib.hmacSHA256 config.JwtSecretKey (h ++ "." ++ p))
          · simp only [ne_eq, hsig, not_true_eq_false, if_false] at hok
            cases hdec : lib.base64Decode p with
            | error e => rw [hdec] at hok; simp at hok
            | ok payloadJSON =>
              rw [hdec] at hok
              simp only [] at hok
              cases hun : lib.unmarshalClaims payloadJSON with
              | error e => rw [hun] at hok; simp at hok
              | ok c =>
                rw [hun] at hok
                simp only [] at hok
                by_cases hexp : nowUnix > c.ExpiresAt
                · simp [hexp] at hok
                · simp only [hexp, if_false, Except.ok.injEq] at hok
                  subst hok
                  exact ⟨h, p, s, payloadJSON, rfl, hsig, hdec, hun, by omega⟩
          · simp [hsig] at hok
        · rw [hsplit] at hlen; simp at hlen
      · rw [ValidateToken_of_not_three lib token config nowUnix hlen] at hok
        simp at hok
    · rintro ⟨h, p, s, payloadJSON, hsplit, hsig, hdec, hun, hexp⟩
      rw [ValidateToken_of_three lib token config nowUnix h p s hsplit]
      have hnot : ¬ nowUnix > claims.ExpiresAt := by omega
      simp [hsig, hdec, hun, hnot]
  · intro h p s hsplit hsig
    rw [ValidateToken_of_three lib token config nowUnix h p s hsplit]
    simp [hsig]
  · intro h p s payloadJSON claims hsplit hsig hdec hun hexp
    rw [ValidateToken_of_three lib token config nowUnix h p s hsplit]
    simp [hsig, hdec, hun, hexp]

/-- Witness of C12: the scenario token is accepted at its expiry second and
reported expired one second later; under another secret its signature is
invalid; with a fourth segment its format is invalid. -/
theorem ValidateToken_accepts_iff_witness :
    ValidateToken scenarioTrustLibrary (scenarioToken scenarioTrustConfig) scenarioTrustConfig
      1700003600 = .ok (internalClaims scenarioTrustConfig scenarioIssueTime) ∧
    (∃ h p s payloadJSON, Split (scenarioToken scenarioTrustConfig) '.' = [h, p, s] ∧
      s = scenarioTrustLibrary.base64Encode
        (scenarioTrustLibrary.hmacSHA256 scenarioTrustConfig.JwtSecretKey (h ++ "." ++ p)) ∧
      scenarioTrustLibrary.base64Decode p = .ok payloadJSON ∧
      scenarioTrustLibrary.unmarshalClaims payloadJSON
        = .ok (internalClaims scenarioTrustConfig scenarioIssueTime) ∧
      (1700003600 : Int) ≤ (internalClaims scenarioTrustConfig scenarioIssueTime).ExpiresAt) ∧
    ValidateToken scenarioTrustLibrary (scenarioToken scenarioTrustConfig) scenarioTrustConfig
      1700003601 = .error "token expired" ∧
    ValidateToken scenarioTrustLibrary (scenarioToken scenarioTrustConfig)
      { scenarioTrustConfig with JwtSecretKey := "other-secret" } 1700000000
      = .error "invalid signature" ∧
    (Split (scenarioToken scenarioTrustConfig ++ ".x") '.').length ≠ 3 ∧
    ValidateToken scenarioTrustLibrary (scenarioToken scenarioTrustConfig ++ ".x")
      scenarioTrustConfig 1700000000 = .error "invalid token format" :=
  have hok : ValidateToken scenarioTrustLibrary (scenarioToken scenarioTrustConfig)
      scenarioTrustConfig 1700003600
      = .ok (internalClaims scenarioTrustConfig scenarioIssueTime) := by decide
  ⟨hok,
    ((ValidateToken_accepts_iff scenarioTrustLibrary (scenarioToken scenarioTrustConfig)
      scenarioTrustConfig 1700003600).1 _).mp hok,
    by decide, by decide, by decide,
    (ValidateToken_accepts_iff scenarioTrustLibrary (scenarioToken scenarioTrustConfig ++ ".x")
      scenarioTrustConfig 1700000000).2.1 (by decide)⟩

theorem GenerateInternalToken_split (lib : Library) (config : Config) (now : Int)
    (hlib : libraryRoundTrips lib config now) :
    ∃ token, GenerateInternalToken lib config now = .ok token ∧
      Split token '.' =
        [ lib.base64Encode headerJSON,
          lib.base64Encode (lib.marshalClaims (internalClaims config now)),
          lib.base64Encode (lib.hmacSHA256 config.JwtSecretKey
            (lib.base64Encode headerJSON ++ "." ++
              lib.base64Encode (lib.marshalClaims (internalClaims config now)))) ] := by
  obtain ⟨h1, h2, h3, _, _⟩ := hlib
  exact ⟨_, rfl, Split_three _ _ _ h1 h2 h3⟩

theorem internalClaims_ExpiresAt (config : Config) (now : Int)
    (hfit : isInt64 (config.JwtDuration * Hour)) :
    (internalClaims config now).ExpiresAt = Unix now + 3600 * config.JwtDuration := by
  unfold internalClaims
  simp only [wrapInt64_of_isInt64 hfit]
  unfold Unix Hour
  omega

/-- C11 (amended). Trust-token round trip: for every config (secret, issuer,
lifetime of `h` hours) whose `h` hours fit a Go `time.Duration` (that is
`|h| <= 2562047`) and every issue time `t`, the token produced by
`GenerateInternalToken` validates with `ValidateToken` under the same config
at time `t'` if and only if `t' <= t + 3600 * h`; after that it is reported
expired; and on success the returned claims are the issued ones: user id 0,
email `system@warehouse.internal`, roles `system`, the configured issuer,
`iat = t`, `exp = t + 3600 * h`.  The standard library enters through
`libraryRoundTrips`. -/
theorem GenerateInternalToken_round_trip (lib : Library) (config : Config) (now nowUnix : Int)
    (hfit : isInt64 (config.JwtDuration * Hour))
    (hlib : libraryRoundTrips lib config now) :
    ∃ token, GenerateInternalToken lib config now = .ok token ∧
      ((∃ claims, ValidateToken lib token config nowUnix = .ok claims) ↔
        nowUnix ≤ Unix now + 3600 * config.JwtDuration) ∧
      (nowUnix > Unix now + 3600 * config.JwtDuration →
        ValidateToken lib token config nowUnix = .error "token expired") ∧
      (∀ claims, ValidateToken lib token config nowUnix = .ok claims →
        claims =
          { UserID := 0
            Email := "system@warehouse.internal"
            Roles := "system"
            ExpiresAt := Unix now + 3600 * config.JwtDuration
            IssuedAt := Unix now
            Issuer := config.JwtIssuer
            Subject := "internal-service-communication" }) := by
  obtain ⟨token, hgen, hsplit⟩ := GenerateInternalToken_split lib config now hlib
  obtain ⟨_, _, _, hdec, hun⟩ := hlib
  have hexp := internalClaims_ExpiresAt config now hfit
  have hval : ValidateToken lib token config nowUnix =
      if nowUnix > Unix now + 3600 * config.JwtDuration then .error "token expired"
      else .ok (internalClaims config now) := by
    rw [ValidateToken_of_three lib token config nowUnix _ _ _ hsplit]
    simp only [ne_eq, not_true_eq_false, if_false, hdec, hun, hexp]
  have hclaims : internalClaims config now =
      { UserID := 0
        Email := "system@warehouse.internal"
        Roles := "system"
        ExpiresAt := Unix now + 3600 * config.JwtDuration
        IssuedAt := Unix now
        Issuer := config.JwtIssuer
        Subject := "internal-service-communication" } := by
    rw [← hexp]
    rfl
  refine ⟨token, hgen, ?_, ?_, ?_⟩
  · rw [hval]
    by_cases hlate : nowUnix > Unix now + 3600 * config.JwtDuration
    · simp only [hlate, if_true]
      constructor
      · rintro ⟨c, hc⟩; cases hc
      · intro hle; omega
    · simp only [hlate, if_false]
      exact ⟨fun _ => by omega, fun _ => ⟨_, rfl⟩⟩
  · intro hlate
    rw [hval]
    simp [hlate]
  · intro claims hok
    rw [hval] at hok
    by_cases hlate : nowUnix > Unix now + 3600 * config.JwtDuration
    · simp [hlate] at hok
    · simp only [hlate, if_false, Except.ok.injEq] at hok
      rw [← hok, hclaims]

/-- Witness of C11: a lifetime of one hour, issued at Unix second 1700000000. -/
theorem GenerateInternalToken_round_trip_witness :
    isInt64 (scenarioTrustConfig.JwtDuration * Hour) ∧
    libraryRoundTrips scenarioTrustLibrary scenarioTrustConfig scenarioIssueTime ∧
    Unix scenarioIssueTime + 3600 * scenarioTrustConfig.JwtDuration = 1700003600 ∧
    ValidateToken scenarioTrustLibrary (scenarioToken scenarioTrustConfig) scenarioTrustConfig
      1700003600 =
      .ok { UserID := 0, Email := "system@warehouse.internal", Roles := "system",
            ExpiresAt := 1700003600, IssuedAt := 1700000000, Issuer := "warehouse",
            Subject := "internal-service-communication" } ∧
    (∃ token, GenerateInternalToken scenarioTrustLibrary scenarioTrustConfig scenarioIssueTime
        = .ok token ∧
      ((∃ claims, ValidateToken scenarioTrustLibrary token scenarioTrustConfig 1700003601
          = .ok claims) ↔
        (1700003601 : Int) ≤ Unix scenarioIssueTime + 3600 * scenarioTrustConfig.JwtDuration) ∧
      ((1700003601 : Int) > Unix scenarioIssueTime + 3600 * scenarioTrustConfig.JwtDuration →
        ValidateToken scenarioTrustLibrary token scenarioTrustConfig 1700003601
          = .error "token expired") ∧
      (∀ claims, ValidateToken scenarioTrustLibrary token scenarioTrustConfig 1700003601
          = .ok claims →
        claims =
          { UserID := 0
            Email := "system@warehouse.internal"
            Roles := "system"
            ExpiresAt := Unix scenarioIssueTime + 3600 * scenarioTrustConfig.JwtDuration
            IssuedAt := Unix scenarioIssueTime
            Issuer := scenarioTrustConfig.JwtIssuer
            Subject := "internal-service-communication" })) :=
  ⟨by decide, by decide, by decide, by decide,
    GenerateInternalToken_round_trip scenarioTrustLibrary scenarioTrustConfig scenarioIssueTime
      1700003601 (by decide) (by decide)⟩

/-- C11, as stated, fails: with a lifetime of 2562048 hours the product
`time.Duration(2562048) * time.Hour` exceeds `int64` and wraps to a negative
duration, so the token issued at Unix second 1700000000 carries
`exp = -7523371274` and is reported expired in the very second of its issue,
although `t' <= t + 3600 * h`. -/
theorem GenerateInternalToken_long_lifetime_expired :
    GenerateInternalToken scenarioTrustLibrary longLivedTrustConfig scenarioIssueTime
      = .ok (scenarioToken longLivedTrustConfig) ∧
    libraryRoundTrips scenarioTrustLibrary longLivedTrustConfig scenarioIssueTime ∧
    Unix scenarioIssueTime = 1700000000 ∧
    (1700000000 : Int) ≤ Unix scenarioIssueTime + 3600 * longLivedTrustConfig.JwtDuration ∧
    (internalClaims longLivedTrustConfig scenarioIssueTime).ExpiresAt = -7523371274 ∧
    ValidateToken scenarioTrustLibrary (scenarioToken longLivedTrustConfig) longLivedTrustConfig
      1700000000 = .error "token expired" := by
  decide

end TrustTokenRoundTrip

/-! ## The caching warehouse client -/

section CachedWarehouse
open MerchantService.Httpclient

theorem GetWarehouseProductStock_hit (client : WarehouseClient) (faults : RedisFaults)
    (cache : Cache) (warehouseID productID : Nat) (cached : WarehouseProductStockResponse)
    (hget : redisGet faults cache (warehouseProductStockCacheKey warehouseID productID)
      unmarshalWarehouseProductStock = .ok cached) :
    GetWarehouseProductStock client faults cache warehouseID productID =
      { result := .ok cached, cache := cache, clientCalls := [] } := by
  simp only [GetWarehouseProductStock, hget]

theorem GetWarehouseProductStock_miss_error (client : WarehouseClient) (faults : RedisFaults)
    (cache : Cache) (warehouseID productID : Nat) (err : String)
    (hmiss : isErr (redisGet faults cache (warehouseProductStockCacheKey warehouseID productID)
      unmarshalWarehouseProductStock) = true)
    (hcl : client.GetWarehouseProductStock warehouseID productID = .error err) :
    GetWarehouseProductStock client faults cache warehouseID productID =
      { result := .error err, cache := cache
        clientCalls := [.getWarehouseProductStock warehouseID productID] } := by
  cases hget : redisGet faults cache (warehouseProductStockCacheKey warehouseID productID)
      unmarshalWarehouseProductStock with
  | ok cached => rw [hget] at hmiss; simp [isErr] at hmiss
  | error e => simp only [GetWarehouseProductStock, hget, hcl]

theorem GetWarehouseProductStock_miss_stored (client : WarehouseClient) (faults : RedisFaults)
    (cache : Cache) (warehouseID productID : Nat) (stock : WarehouseProductStockResponse)
    (hmiss : isErr (redisGet faults cache (warehouseProductStockCacheKey warehouseID productID)
      unmarshalWarehouseProductStock) = true)
    (hcl : client.GetWarehouseProductStock warehouseID productID = .ok stock)
    (hs : faults.setErr = false) :
    GetWarehouseProductStock client faults cache warehouseID productID =
      { result := .ok stock
        cache := fun k =>
          if k = warehouseProductStockCacheKey warehouseID productID then
            some (.warehouseProductStock stock)
          else cache k
        clientCalls := [.getWarehouseProductStock warehouseID productID] } := by
  cases hget : redisGet faults cache (warehouseProductStockCacheKey warehouseID productID)
      unmarshalWarehouseProductStock with
  | ok cached => rw [hget] at hmiss; simp [isErr] at hmiss
  | error e =>
    simp only [GetWarehouseProductStock, hget, hcl, redisSet, hs, Bool.false_eq_true, if_false]

theorem GetWarehouseProductStock_miss_unstored (client : WarehouseClient) (faults : RedisFaults)
    (cache : Cache) (warehouseID productID : Nat) (stock : WarehouseProductStockResponse)
    (hmiss : isErr (redisGet faults cache (warehouseProductStockCacheKey warehouseID productID)
      unmarshalWarehouseProductStock) = true)
    (hcl : client.GetWarehouseProductStock warehouseID productID = .ok stock)
    (hs : faults.setErr = true) :
    GetWarehouseProductStock client faults cache warehouseID productID =
      { result := .error "redis: connection refused", cache := cache
        clientCalls := [.getWarehouseProductStock warehouseID productID] } := by
  cases hget : redisGet faults cache (warehouseProductStockCacheKey warehouseID productID)
      unmarshalWarehouseProductStock with
  | ok cached => rw [hget] at hmiss; simp [isErr] at hmiss
  | error e =>
    simp only [GetWarehouseProductStock, hget, hcl, redisSet, hs, if_true]

/-- C17 (amended). `CachedWarehouseClient.GetWarehouseProductStock(w, p)` reads
the cache first.  When the read from Redis yields an entry, that entry is
returned, the wrapped client is not called and the cache is unchanged.  When
it yields none (key absent, `GET` refused, or entry not decodable), the
wrapped client is called exactly once, for `(w, p)`: its error is returned as
it is; its answer is returned exactly and stored under the key, unless the
`SET` is refused, in which case an error is returned and the cache is
unchanged. -/
theorem GetWarehouseProductStock_reads_cache_first (client : WarehouseClient)
    (faults : RedisFaults) (cache : Cache) (warehouseID productID : Nat) :
    (∀ cached, redisGet faults cache (warehouseProductStockCacheKey warehouseID productID)
        unmarshalWarehouseProductStock = .ok cached →
      (GetWarehouseProductStock client faults cache warehouseID productID).result = .ok cached ∧
      (GetWarehouseProductStock client faults cache warehouseID productID).clientCalls = [] ∧
      (GetWarehouseProductStock client faults cache warehouseID productID).cache = cache) ∧
    (isErr (redisGet faults cache (warehouseProductStockCacheKey warehouseID productID)
        unmarshalWarehouseProductStock) = true →
      (GetWarehouseProductStock client faults cache warehouseID productID).clientCalls
        = [.getWarehouseProductStock warehouseID productID] ∧
      (∀ err, client.GetWarehouseProductStock warehouseID productID = .error err →
        (GetWarehouseProductStock client faults cache warehouseID productID).result
          = .error err ∧
        (GetWarehouseProductStock client faults cache warehouseID productID).cache = cache) ∧
      (∀ stock, client.GetWarehouseProductStock warehouseID productID = .ok stock →
        (faults.setErr = false →
          (GetWarehouseProductStock client faults cache warehouseID productID).result
            = .ok stock ∧
          (GetWarehouseProductStock client faults cache warehouseID productID).cache
              (warehouseProductStockCacheKey warehouseID productID)
            = some (.warehouseProductStock stock) ∧
          ∀ key, key ≠ warehouseProductStockCacheKey warehouseID productID →
            (GetWarehouseProductStock client faults cache warehouseID productID).cache key
              = cache key) ∧
        (faults.setErr = true →
          isErr (GetWarehouseProductStock client faults cache warehouseID productID).result
            = true ∧
          (GetWarehouseProductStock client faults cache warehouseID productID).cache
            = cache))) := by
  constructor
  · intro cached hget
    rw [GetWarehouseProductStock_hit client faults cache warehouseID productID cached hget]
    exact ⟨rfl, rfl, rfl⟩
  · intro hmiss
    refine ⟨?_, ?_, ?_⟩
    · cases hcl : client.GetWarehouseProductStock warehouseID productID with
      | error err =>
        rw [GetWarehouseProductStock_miss_error client faults cache warehouseID productID err
          hmiss hcl]
      | ok stock =>
        cases hs : faults.setErr with
        | false =>
          rw [GetWarehouseProductStock_miss_stored client faults cache warehouseID productID
            stock hmiss hcl hs]
        | true =>
          rw [GetWarehouseProductStock_miss_unstored client faults cache warehouseID productID
            stock hmiss hcl hs]
    · intro err hcl
      rw [GetWarehouseProductStock_miss_error client faults cache warehouseID productID err
        hmiss hcl]
      exact ⟨rfl, rfl⟩
    · intro stock hcl
      constructor
      · intro hs
        rw [GetWarehouseProductStock_miss_stored client faults cache warehouseID productID
          stock hmiss hcl hs]
        refine ⟨rfl, by simp, ?_⟩
        intro key hkey
        simp [hkey]
      · intro hs
        rw [GetWarehouseProductStock_miss_unstored client faults cache warehouseID productID
          stock hmiss hcl hs]
        exact ⟨rfl, rfl⟩

/-- Witness of C17: with an empty cache the current stock of 10 is fetched and
stored; with the earlier entry in the cache that entry is returned and the
warehouse service is not asked. -/
theorem GetWarehouseProductStock_reads_cache_first_witness :
    isErr (redisGet {} emptyCache (warehouseProductStockCacheKey 3 1)
      unmarshalWarehouseProductStock) = true ∧
    scenarioWarehouseClient.GetWarehouseProductStock 3 1 =
      .ok { ID := 1, ProductID := 1, Stock := 10, WarehouseID := 3 } ∧
    (GetWarehouseProductStock scenarioWarehouseClient {} emptyCache 3 1).clientCalls
      = [.getWarehouseProductStock 3 1] ∧
    (GetWarehouseProductStock scenarioWarehouseClient {} emptyCache 3 1).result
      = .ok { ID := 1, ProductID := 1, Stock := 10, WarehouseID := 3 } ∧
    (GetWarehouseProductStock scenarioWarehouseClient {} emptyCache 3 1).cache
        (warehouseProductStockCacheKey 3 1)
      = some (.warehouseProductStock { ID := 1, ProductID := 1, Stock := 10, WarehouseID := 3 }) ∧
    redisGet {} staleCache (warehouseProductStockCacheKey 3 1) unmarshalWarehouseProductStock
      = .ok { ID := 1, ProductID := 1, Stock := 50, WarehouseID := 3 } ∧
    (GetWarehouseProductStock scenarioWarehouseClient {} staleCache 3 1).result
      = .ok { ID := 1, ProductID := 1, Stock := 50, WarehouseID := 3 } ∧
    (GetWarehouseProductStock scenarioWarehouseClient {} staleCache 3 1).clientCalls = [] ∧
    (GetWarehouseProductStock scenarioWarehouseClient {} staleCache 3 1).cache = staleCache :=
  have hmiss := (GetWarehouseProductStock_reads_cache_first scenarioWarehouseClient {}
    emptyCache 3 1).2 (by decide)
  have hfresh := (hmiss.2.2 { ID := 1, ProductID := 1, Stock := 10, WarehouseID := 3 }
    (by decide)).1 rfl
  have hhit := (GetWarehouseProductStock_reads_cache_first scenarioWarehouseClient {}
    staleCache 3 1).1 { ID := 1, ProductID := 1, Stock := 50, WarehouseID := 3 } (by decide)
  ⟨by decide, by decide, hmiss.1, hfresh.1, hfresh.2.1, by decide, hhit.1, hhit.2.1, hhit.2.2⟩

/-- C17, as stated, fails: the warehouse service currently holds 10 of
product 1 in warehouse 3, the cache holds an earlier 50; the caching client
returns 50 without calling the wrapped client, and `UpdateMerchantProduct`
through it accepts a merchant stock of 30 that the current warehouse stock
does not cover. -/
theorem GetWarehouseProductStock_serves_cached_stock :
    scenarioWarehouseClient.GetWarehouseProductStock 3 1 =
      .ok { ID := 1, ProductID := 1, Stock := 10, WarehouseID := 3 } ∧
    (GetWarehouseProductStock scenarioWarehouseClient {} staleCache 3 1).result
      = .ok { ID := 1, ProductID := 1, Stock := 50, WarehouseID := 3 } ∧
    (GetWarehouseProductStock scenarioWarehouseClient {} staleCache 3 1).clientCalls = [] ∧
    (MerchantService.Usecase.UpdateMerchantProduct
      (fun w p => (GetWarehouseProductStock scenarioWarehouseClient {} staleCache w p).result)
      scenarioLedger {}
      { ID := 1, MerchantID := 7, ProductID := 1, WarehouseID := 3, Stock := 30 }).1 = .ok () ∧
    (MerchantService.Usecase.UpdateMerchantProduct
      scenarioWarehouseClient.GetWarehouseProductStock scenarioLedger {}
      { ID := 1, MerchantID := 7, ProductID := 1, WarehouseID := 3, Stock := 30 }).1
      = .error "stock not enough" := by
  decide

/-- C18: the code at the failing input.  The keys of `GetWarehouseByID(3)`,
`GetWarehouseProductStock(3, 1)` and `GetWarehouseProductStock(3, 2)` are all
`warehouse:single:3`.  After `GetWarehouseByID(3)` has filled an empty cache,
`GetWarehouseProductStock(3, 1)` decodes the stored warehouse as a stock
entry, returns a stock of 0 for it and does not call the wrapped client; and
after `GetWarehouseProductStock(3, 1)` has filled it, the stock of product 2
is reported as that of product 1. -/
theorem cacheKey_shared_between_lookups :
    warehouseCacheKey 3 = "warehouse:single:3" ∧
    warehouseProductStockCacheKey 3 1 = warehouseCacheKey 3 ∧
    warehouseProductStockCacheKey 3 1 = warehouseProductStockCacheKey 3 2 ∧
    (GetWarehouseProductStock scenarioWarehouseClient {}
      (GetWarehouseByID scenarioWarehouseClient {} emptyCache 3).cache 3 1).result
      = .ok { ID := 3, ProductID := 0, Stock := 0, WarehouseID := 0 } ∧
    (GetWarehouseProductStock scenarioWarehouseClient {}
      (GetWarehouseByID scenarioWarehouseClient {} emptyCache 3).cache 3 1).clientCalls = [] ∧
    scenarioWarehouseClient.GetWarehouseProductStock 3 2 =
      .ok { ID := 2, ProductID := 2, Stock := 6, WarehouseID := 3 } ∧
    (GetWarehouseProductStock scenarioWarehouseClient {}
      (GetWarehouseProductStock scenarioWarehouseClient {} emptyCache 3 1).cache 3 2).result
      = .ok { ID := 1, ProductID := 1, Stock := 10, WarehouseID := 3 } := by
  decide

end CachedWarehouse

/-! ## Rate limiting -/

section RateLimit
open ApiGateway.Middleware

theorem live_put_same (store : RedisStore) (key : String) (value : RedisString) (expiry now : Int)
    (h : now < expiry) :
    (store.put key { value := value, expireAt := some expiry }).live now key =
      some { value := value, expireAt := some expiry } := by
  unfold RedisStore.live RedisStore.put
  have hn : ¬ expiry ≤ now := by omega
  simp [hn]

theorem limitByKey_first (config : RedisRateLimiterConfig) (key : String) (now : Int)
    (store : RedisStore) (hnone : store.live now key = none) :
    limitByKey config {} key now store =
      (.next {}, store.put key
        { value := .number 1, expireAt := expiryOf now config.Expiration }) := by
  unfold limitByKey
  simp [hnone]

theorem limitByKey_full (config : RedisRateLimiterConfig) (faults : RateLimiterFaults)
    (key : String) (now : Int) (store : RedisStore) (entry : RedisEntry) (count : Int)
    (hget : faults.getErr = false)
    (hlive : store.live now key = some entry) (hval : entry.value = .number count)
    (hfull : config.Max ≤ count) :
    limitByKey config faults key now store =
      (.respond 429 "Rate limit exceeded. Please try again later.", store) := by
  unfold limitByKey
  simp [hget, hlive, hval, hfull]

theorem limitByKey_counts (config : RedisRateLimiterConfig) (key : String) (now : Int)
    (store : RedisStore) (entry : RedisEntry) (count : Int)
    (hlive : store.live now key = some entry) (hval : entry.value = .number count)
    (hroom : count < config.Max) (hpos : count ≠ 0) :
    limitByKey config {} key now store =
      (.next {}, store.put key { entry with value := .number (count + 1) }) := by
  unfold limitByKey
  have hnot : ¬ count ≥ config.Max := by omega
  simp [hlive, hval, hnot, hpos]

end RateLimit

/-! ## Sequential counting and the installed ceilings -/

section RateLimitSequence
open ApiGateway.Middleware

theorem live_of_entry (store : RedisStore) (key : String) (value : RedisString)
    (expiry now : Int) (hkey : store key = some { value := value, expireAt := some expiry })
    (h : now < expiry) :
    store.live now key = some { value := value, expireAt := some expiry } := by
  unfold RedisStore.live
  have hn : ¬ expiry ≤ now := by omega
  simp [hkey, hn]

theorem serveAll_from_counter (config : RedisRateLimiterConfig) (req : Request) (n : Nat)
    (hmax : config.Max = n) (expiry : Int) :
    ∀ (later : List Int) (c : Nat) (store : RedisStore), 1 ≤ c → c ≤ n →
      store (rateLimitKey config req)
        = some { value := .number (c : Int), expireAt := some expiry } →
      (∀ t ∈ later, t < expiry) →
      (serveAll config req later store).1 =
        List.replicate (min later.length (n - c)) (.next {}) ++
          List.replicate (later.length - (n - c)) tooManyRequests ∧
      (serveAll config req later store).2 (rateLimitKey config req) =
        some { value := .number ((min (c + later.length) n : Nat) : Int),
               expireAt := some expiry } := by
  intro later
  induction later with
  | nil =>
    intro c store _ hc hkey _
    simp only [serveAll, List.length_nil, Nat.zero_min, List.replicate_zero, List.append_nil,
      Nat.zero_sub, Nat.add_zero, true_and]
    rw [hkey, Nat.min_eq_left hc]
  | cons t later ih =>
    intro c store hc1 hcn hkey hwin
    have ht : t < expiry := hwin t (List.mem_cons_self _ _)
    have hlater : ∀ u ∈ later, u < expiry := fun u hu => hwin u (List.mem_cons_of_mem _ hu)
    have hlive := live_of_entry store _ _ expiry t hkey ht
    by_cases hfull : c = n
    · have hstep : RedisRateLimiter config {} req t store = (tooManyRequests, store) := by
        unfold RedisRateLimiter tooManyRequests
        exact limitByKey_full config {} _ t store _ (c : Int) rfl hlive rfl
          (by rw [hmax, hfull])
      obtain ⟨ih1, ih2⟩ := ih c store hc1 hcn hkey hlater
      simp only [serveAll, hstep, ih1, ih2, List.length_cons]
      subst hfull
      simp only [Nat.sub_self, Nat.min_zero, List.replicate_zero, List.nil_append, Nat.sub_zero,
        List.replicate_succ, true_and]
      congr 3
      omega
    · have hlt : c < n := by omega
      have hstep : RedisRateLimiter config {} req t store =
          (.next {}, store.put (rateLimitKey config req)
            { value := .number ((c + 1 : Nat) : Int), expireAt := some expiry }) := by
        unfold RedisRateLimiter
        rw [limitByKey_counts config _ t store _ (c : Int) hlive rfl
          (by rw [hmax]; exact_mod_cast hlt) (by exact_mod_cast (by omega : c ≠ 0))]
        simp
      have hkey1 : (store.put (rateLimitKey config req)
          { value := .number ((c + 1 : Nat) : Int), expireAt := some expiry })
          (rateLimitKey config req)
          = some { value := .number ((c + 1 : Nat) : Int), expireAt := some expiry } := by
        simp [RedisStore.put]
      obtain ⟨ih1, ih2⟩ := ih (c + 1) _ (by omega) (by omega) hkey1 hlater
      simp only [serveAll, hstep, ih1, ih2, List.length_cons]
      have e1 : min (later.length + 1) (n - c) = min later.length (n - (c + 1)) + 1 := by omega
      have e2 : later.length + 1 - (n - c) = later.length - (n - (c + 1)) := by omega
      have e3 : min (c + 1 + later.length) n = min (c + (later.length + 1)) n := by
        congr 1; omega
      rw [e1, e2, e3, List.replicate_succ]
      simp

/-- C19. Sequential rate-limit counting.  Starting from no counter for the
client, with ceiling `Max = n >= 1` and a positive window, for requests at
`t0` and later instants inside the window `[.., t0 + Expiration)`: the first
`n` requests are passed to the next handler and every later one is answered
429 Too Many Requests; the first request creates the counter, with value 1
and an expiry of `t0 + Expiration`; afterwards the counter stands at the
number of requests up to `n` and keeps that expiry; and a request that finds
the counter at or above the ceiling is answered 429 and leaves the store
unchanged. -/
theorem RedisRateLimiter_sequential (config : RedisRateLimiterConfig) (req : Request)
    (store : RedisStore) (t0 : Int) (later : List Int) (n : Nat)
    (hmax : config.Max = n) (hn : 1 ≤ n) (hw : 0 < config.Expiration)
    (hfresh : store.live t0 (rateLimitKey config req) = none)
    (hwin : ∀ t ∈ later, t < t0 + config.Expiration) :
    (serveAll config req (t0 :: later) store).1 =
      List.replicate (min (later.length + 1) n) (.next {}) ++
        List.replicate (later.length + 1 - n) tooManyRequests ∧
    (RedisRateLimiter config {} req t0 store).2 (rateLimitKey config req) =
      some { value := .number 1, expireAt := some (t0 + config.Expiration) } ∧
    (serveAll config req (t0 :: later) store).2 (rateLimitKey config req) =
      some { value := .number ((min (later.length + 1) n : Nat) : Int),
             expireAt := some (t0 + config.Expiration) } ∧
    (∀ (full : RedisStore) (t : Int) (entry : RedisEntry) (count : Int),
      full.live t (rateLimitKey config req) = some entry → entry.value = .number count →
      config.Max ≤ count →
      RedisRateLimiter config {} req t full = (tooManyRequests, full)) := by
  have hfirst : RedisRateLimiter config {} req t0 store =
      (.next {}, store.put (rateLimitKey config req)
        { value := .number ((1 : Nat) : Int), expireAt := some (t0 + config.Expiration) }) := by
    unfold RedisRateLimiter
    rw [limitByKey_first config _ t0 store hfresh]
    simp [expiryOf, hw]
  have hkey1 : (store.put (rateLimitKey config req)
      { value := .number ((1 : Nat) : Int), expireAt := some (t0 + config.Expiration) })
      (rateLimitKey config req)
      = some { value := .number ((1 : Nat) : Int),
               expireAt := some (t0 + config.Expiration) } := by
    simp [RedisStore.put]
  obtain ⟨h1, h2⟩ := serveAll_from_counter config req n hmax (t0 + config.Expiration) later 1 _
    le_rfl hn hkey1 hwin
  refine ⟨?_, ?_, ?_, ?_⟩
  · simp only [serveAll, hfirst, h1]
    have e1 : min (later.length + 1) n = min later.length (n - 1) + 1 := by omega
    have e2 : later.length + 1 - n = later.length - (n - 1) := by omega
    rw [e1, e2, List.replicate_succ]
    simp
  · rw [hfirst]
    simp [RedisStore.put]
  · simp only [serveAll, hfirst, h2]
    have e3 : min (1 + later.length) n = min (later.length + 1) n := by
      congr 1; omega
    rw [e3]
  · intro full t entry count hlive hval hfull
    unfold RedisRateLimiter tooManyRequests
    exact limitByKey_full config {} _ t full entry count rfl hlive hval hfull

end RateLimitSequence

section RateLimitCeilings
open ApiGateway.Middleware

/-- Witness of C19: 100 requests per 60 seconds; the client sends one request
at Unix second 1700000000 and a hundred more one second later.  The first
100 pass and the 101st is answered 429. -/
theorem RedisRateLimiter_sequential_witness :
    scenarioLimiterConfig.Max = (100 : Nat) ∧
    0 < scenarioLimiterConfig.Expiration ∧
    emptyStore.live 1700000000000000000 (rateLimitKey scenarioLimiterConfig scenarioClientRequest)
      = none ∧
    (∀ t ∈ List.replicate 100 (1700000001000000000 : Int),
      t < 1700000000000000000 + scenarioLimiterConfig.Expiration) ∧
    (serveAll scenarioLimiterConfig scenarioClientRequest
      (1700000000000000000 :: List.replicate 100 1700000001000000000) emptyStore).1 =
      List.replicate 100 (.next {}) ++ List.replicate 1 tooManyRequests ∧
    (RedisRateLimiter scenarioLimiterConfig {} scenarioClientRequest 1700000000000000000
      emptyStore).2 (rateLimitKey scenarioLimiterConfig scenarioClientRequest) =
      some { value := .number 1, expireAt := some 1700000060000000000 } ∧
    (serveAll scenarioLimiterConfig scenarioClientRequest
      (1700000000000000000 :: List.replicate 100 1700000001000000000) emptyStore).2
      (rateLimitKey scenarioLimiterConfig scenarioClientRequest) =
      some { value := .number 100, expireAt := some 1700000060000000000 } :=
  have h := RedisRateLimiter_sequential scenarioLimiterConfig scenarioClientRequest emptyStore
    1700000000000000000 (List.replicate 100 1700000001000000000) 100
    (by decide) (by decide) (by decide) (by decide) (by decide)
  ⟨by decide, by decide, by decide, by decide, h.1, h.2.1, h.2.2.1⟩

/-- C20 (amended). The three rate limiters the gateway installs share one
ceiling and one window: the global per-client-IP limiter, the limiter of the
auth endpoints and the limiter of the general API endpoints are all built
from `redisRateConfig`, that is `Max = 100` per 60 seconds; they differ only
in their counter keys (`global:<ip>`, `auth:<ip>`, `api:<ip>[:<user>]`).  Each
of them answers 429 exactly when it finds its counter at 100 or more. -/
theorem installed_limiters_share_ceiling :
    ApiGateway.Main.globalRateLimiter
      = RedisRateLimiter { Max := 100, Expiration := 60000000000, KeyPrefix := "global" } ∧
    ApiGateway.Main.authRateLimiter
      = RedisRateLimiter { Max := 100, Expiration := 60000000000, KeyPrefix := "auth" } ∧
    ApiGateway.Main.apiRateLimiter
      = RedisAPIRateLimiter { Max := 100, Expiration := 60000000000, KeyPrefix := "" } ∧
    (∀ (req : Request) (locals : Locals) (now : Int) (store : RedisStore) (entry : RedisEntry)
        (count : Int),
      entry.value = .number count →
      (store.live now ("global:" ++ req.IP) = some entry →
        ((ApiGateway.Main.globalRateLimiter {} req now store).1 = tooManyRequests ↔
          100 ≤ count)) ∧
      (store.live now ("auth:" ++ req.IP) = some entry →
        ((ApiGateway.Main.authRateLimiter {} req now store).1 = tooManyRequests ↔
          100 ≤ count)) ∧
      (store.live now (apiRateLimitKey req locals.user_id) = some entry →
        ((ApiGateway.Main.apiRateLimiter {} req locals now store).1 = tooManyRequests ↔
          100 ≤ count))) := by
  refine ⟨rfl, rfl, rfl, ?_⟩
  intro req locals now store entry count hval
  have hstep : ∀ (config : RedisRateLimiterConfig) (key : String), config.Max = 100 →
      store.live now key = some entry →
      ((limitByKey config {} key now store).1 = tooManyRequests ↔ 100 ≤ count) := by
    intro config key hmax hlive
    unfold limitByKey tooManyRequests
    by_cases h : count ≥ config.Max
    · simp only [hlive, hval, h, if_true, Bool.false_eq_true, if_false, true_iff]
      omega
    · simp only [hlive, hval, h, if_false, Bool.false_eq_true]
      constructor
      · intro hc
        cases hc
      · intro hc
        omega
  refine ⟨?_, ?_, ?_⟩
  · intro hlive
    exact hstep { Max := 100, Expiration := 60000000000, KeyPrefix := "global" } _ rfl hlive
  · intro hlive
    exact hstep { Max := 100, Expiration := 60000000000, KeyPrefix := "auth" } _ rfl hlive
  · intro hlive
    exact hstep { Max := 100, Expiration := 60000000000, KeyPrefix := "" } _ rfl hlive

/-- Witness of C20: a client whose three counters all stand at 100 is
answered 429 by each of the three limiters. -/
theorem installed_limiters_share_ceiling_witness :
    (ApiGateway.Main.globalRateLimiter {} scenarioClientRequest 1700000001000000000
      (fun _ => some { value := .number 100, expireAt := some 1700000060000000000 })).1
      = tooManyRequests ∧
    (ApiGateway.Main.authRateLimiter {} scenarioClientRequest 1700000001000000000
      (fun _ => some { value := .number 100, expireAt := some 1700000060000000000 })).1
      = tooManyRequests ∧
    (ApiGateway.Main.apiRateLimiter {} scenarioClientRequest {} 1700000001000000000
      (fun _ => some { value := .number 100, expireAt := some 1700000060000000000 })).1
      = tooManyRequests :=
  have h := installed_limiters_share_ceiling.2.2.2 scenarioClientRequest {} 1700000001000000000
    (fun _ => some { value := .number 100, expireAt := some 1700000060000000000 })
    { value := .number 100, expireAt := some 1700000060000000000 } 100 rfl
  ⟨(h.1 (by decide)).mpr (by decide), (h.2.1 (by decide)).mpr (by decide),
    (h.2.2 (by decide)).mpr (by decide)⟩

/-- C20, as stated, fails: the ceiling of the auth limiter is not below that
of the API limiter, and neither is below the global ceiling; all three are
the `Max = 100` of `DefaultRateLimiterConfig`. -/
theorem installed_limiters_not_tiered :
    ApiGateway.Main.redisRateConfig.Max = 100 ∧
    ApiGateway.Main.globalRateLimiter
      = RedisGlobalRateLimiter ApiGateway.Main.redisRateConfig ∧
    ApiGateway.Main.authRateLimiter = RedisAuthRateLimiter ApiGateway.Main.redisRateConfig ∧
    ApiGateway.Main.apiRateLimiter = RedisAPIRateLimiter ApiGateway.Main.redisRateConfig ∧
    ¬ (({ ApiGateway.Main.redisRateConfig with KeyPrefix := "auth" } :
        RedisRateLimiterConfig).Max < ApiGateway.Main.redisRateConfig.Max) ∧
    ¬ (ApiGateway.Main.redisRateConfig.Max <
      ({ ApiGateway.Main.redisRateConfig with KeyPrefix := "global" } :
        RedisRateLimiterConfig).Max) ∧
    (ApiGateway.Main.authRateLimiter {} scenarioClientRequest 1700000001000000000
      (fun _ => some { value := .number 99, expireAt := some 1700000060000000000 })).1
      = .next {} := by
  refine ⟨by decide, rfl, rfl, rfl, by decide, by decide, by decide⟩

end RateLimitCeilings

/-! ## Dashboard authorization -/

section Dashboards
open TransactionService.Usecase

theorem GetDashboardStats_ok (env : DashboardEnv) (db : TransactionDB) (userID : Nat)
    (stats : Int × Int × Int) (h : (GetDashboardStats env db userID).result = .ok stats) :
    ∃ user, env.GetUserByID userID = .ok user ∧ user.RoleName = "Manager" := by
  unfold GetDashboardStats at h
  cases hu : env.GetUserByID userID with
  | error err => simp [hu] at h
  | ok user =>
    by_cases hr : user.RoleName = "Manager"
    · exact ⟨user, rfl, hr⟩
    · simp [hu, hr] at h

theorem GetDashboardStats_denied (env : DashboardEnv) (db : TransactionDB) (userID : Nat)
    (h : ¬ ∃ user, env.GetUserByID userID = .ok user ∧ user.RoleName = "Manager") :
    isErr (GetDashboardStats env db userID).result = true ∧
      (GetDashboardStats env db userID).queries = [] := by
  unfold GetDashboardStats
  cases hu : env.GetUserByID userID with
  | error err => simp [isErr]
  | ok user =>
    by_cases hr : user.RoleName = "Manager"
    · exact absurd ⟨user, hu, hr⟩ h
    · simp [hr, isErr]

theorem GetDashboardStatsByMerchant_ok (env : DashboardEnv) (db : TransactionDB)
    (userID merchantID : Nat) (stats : Int × Int × Int)
    (h : (GetDashboardStatsByMerchant env db userID merchantID).result = .ok stats) :
    ∃ user merchant, env.GetUserByID userID = .ok user ∧ user.RoleName ≠ "Manager" ∧
      env.GetMerchantByID merchantID = .ok merchant ∧ merchant.KeeperID = userID := by
  unfold GetDashboardStatsByMerchant at h
  cases hu : env.GetUserByID userID with
  | error err => simp [hu] at h
  | ok user =>
    by_cases hr : user.RoleName = "Manager"
    · simp [hu, hr] at h
    · cases hm : env.GetMerchantByID merchantID with
      | error err => simp [hu, hr, hm] at h
      | ok merchant =>
        by_cases hk : merchant.KeeperID = userID
        · exact ⟨user, merchant, rfl, hr, rfl, hk⟩
        · simp [hu, hr, hm, hk] at h

theorem GetDashboardStatsByMerchant_denied (env : DashboardEnv) (db : TransactionDB)
    (userID merchantID : Nat)
    (h : ¬ ∃ user merchant, env.GetUserByID userID = .ok user ∧ user.RoleName ≠ "Manager" ∧
      env.GetMerchantByID merchantID = .ok merchant ∧ merchant.KeeperID = userID) :
    isErr (GetDashboardStatsByMerchant env db userID merchantID).result = true ∧
      (GetDashboardStatsByMerchant env db userID merchantID).queries = [] := by
  unfold GetDashboardStatsByMerchant
  cases hu : env.GetUserByID userID with
  | error err => simp [isErr]
  | ok user =>
    by_cases hr : user.RoleName = "Manager"
    · simp [hr, isErr]
    · cases hm : env.GetMerchantByID merchantID with
      | error err => simp [hr, isErr]
      | ok merchant =>
        by_cases hk : merchant.KeeperID = userID
        · exact absurd ⟨user, merchant, hu, hr, hm, hk⟩ h
        · simp [hr, hk, isErr]

/-- C21. `GetDashboardStats` returns statistics only if the User service
reports the caller as a user whose role is Manager.
`GetDashboardStatsByMerchant` returns statistics only if the merchant service
reports a merchant whose keeper id is the caller's user id (and the User
service reports the caller with a role other than Manager).  In every other
case, a failed user or merchant lookup included, the use case returns an
error and sends no query to the transaction repository. -/
theorem dashboard_authorization (env : DashboardEnv) (db : TransactionDB)
    (userID merchantID : Nat) :
    (∀ stats, (GetDashboardStats env db userID).result = .ok stats →
      ∃ user, env.GetUserByID userID = .ok user ∧ user.RoleName = "Manager") ∧
    ((¬ ∃ user, env.GetUserByID userID = .ok user ∧ user.RoleName = "Manager") →
      isErr (GetDashboardStats env db userID).result = true ∧
      (GetDashboardStats env db userID).queries = []) ∧
    (∀ stats, (GetDashboardStatsByMerchant env db userID merchantID).result = .ok stats →
      ∃ user merchant, env.GetUserByID userID = .ok user ∧ user.RoleName ≠ "Manager" ∧
        env.GetMerchantByID merchantID = .ok merchant ∧ merchant.KeeperID = userID) ∧
    ((¬ ∃ user merchant, env.GetUserByID userID = .ok user ∧ user.RoleName ≠ "Manager" ∧
        env.GetMerchantByID merchantID = .ok merchant ∧ merchant.KeeperID = userID) →
      isErr (GetDashboardStatsByMerchant env db userID merchantID).result = true ∧
      (GetDashboardStatsByMerchant env db userID merchantID).queries = []) :=
  ⟨fun stats h => GetDashboardStats_ok env db userID stats h,
   GetDashboardStats_denied env db userID,
   fun stats h => GetDashboardStatsByMerchant_ok env db userID merchantID stats h,
   GetDashboardStatsByMerchant_denied env db userID merchantID⟩

/-- Witness of C21: on the scenario store the manager (user 1) gets the global
statistics and the keeper (user 42) those of merchant 7; the keeper asking for
the global dashboard, and the keeper asking for merchant 8, which the merchant
service does not know, are refused without a query. -/
theorem dashboard_authorization_witness :
    (GetDashboardStats scenarioDashboardEnv scenarioDB 1).result = .ok (1110, 1, 1) ∧
    (GetDashboardStatsByMerchant scenarioDashboardEnv scenarioDB 42 7).result
      = .ok (1110, 1, 1) ∧
    (∃ user, scenarioDashboardEnv.GetUserByID 1 = .ok user ∧ user.RoleName = "Manager") ∧
    (∃ user merchant, scenarioDashboardEnv.GetUserByID 42 = .ok user ∧
      user.RoleName ≠ "Manager" ∧
      scenarioDashboardEnv.GetMerchantByID 7 = .ok merchant ∧ merchant.KeeperID = 42) ∧
    (isErr (GetDashboardStats scenarioDashboardEnv scenarioDB 42).result = true ∧
      (GetDashboardStats scenarioDashboardEnv scenarioDB 42).queries = []) ∧
    (isErr (GetDashboardStatsByMerchant scenarioDashboardEnv scenarioDB 42 8).result = true ∧
      (GetDashboardStatsByMerchant scenarioDashboardEnv scenarioDB 42 8).queries = []) :=
  ⟨by decide, by decide,
   (dashboard_authorization scenarioDashboardEnv scenarioDB 1 7).1 (1110, 1, 1) (by decide),
   (dashboard_authorization scenarioDashboardEnv scenarioDB 42 7).2.2.1 (1110, 1, 1) (by decide),
   (dashboard_authorization scenarioDashboardEnv scenarioDB 42 7).2.1 (by
     rintro ⟨user, hu, hr⟩
     have h2 : scenarioDashboardEnv.GetUserByID 42 = .ok
         { ID := 42, Name := "Ani", Email := "ani@example.com", RoleName := "Keeper" } := by
       decide
     rw [h2] at hu
     injection hu with hu
     subst hu
     exact absurd hr (by decide)),
   (dashboard_authorization scenarioDashboardEnv scenarioDB 42 8).2.2.2 (by
     rintro ⟨user, merchant, _, _, hm, _⟩
     have h2 : scenarioDashboardEnv.GetMerchantByID 8 = .error "failed to get merchant by id" := by
       decide
     rw [h2] at hm
     cases hm)⟩

end Dashboards

/-! ## Printing numbers -/

section Numerals

theorem digitChar_value (k : Nat) (h : k < 10) :
    (Nat.digitChar k).toNat - 48 = k ∧ Nat.digitChar k ≠ '_' ∧ Nat.digitChar k ≠ '-' := by
  interval_cases k <;> decide

theorem toDigitsCore_append (fuel : Nat) : ∀ (n : Nat) (ds : List Char),
    Nat.toDigitsCore 10 fuel n ds = Nat.toDigitsCore 10 fuel n [] ++ ds := by
  induction fuel with
  | zero => intro n ds; simp [Nat.toDigitsCore]
  | succ fuel ih =>
    intro n ds
    simp only [Nat.toDigitsCore]
    by_cases h : n / 10 = 0
    · simp [h]
    · simp only [h, if_false]
      rw [ih (n / 10) (Nat.digitChar (n % 10) :: ds), ih (n / 10) [Nat.digitChar (n % 10)]]
      simp

theorem numeralValue_append (l : List Char) (c : Char) :
    numeralValue (l ++ [c]) = 10 * numeralValue l + (c.toNat - 48) := by
  simp [numeralValue, List.foldl_append]

theorem numeralValue_toDigitsCore (fuel : Nat) : ∀ (n : Nat), n < fuel →
    numeralValue (Nat.toDigitsCore 10 fuel n []) = n := by
  induction fuel with
  | zero => intro n h; omega
  | succ fuel ih =>
    intro n hn
    simp only [Nat.toDigitsCore]
    have hd := (digitChar_value (n % 10) (Nat.mod_lt n (by decide))).1
    by_cases h : n / 10 = 0
    · simp only [h, if_true]
      have : numeralValue [Nat.digitChar (n % 10)] = (Nat.digitChar (n % 10)).toNat - 48 := by
        simp [numeralValue]
      rw [this, hd]
      omega
    · simp only [h, if_false]
      rw [toDigitsCore_append, numeralValue_append, hd, ih (n / 10) (by omega)]
      omega

theorem toDigitsCore_chars (fuel : Nat) : ∀ (n : Nat) (ds : List Char) (c : Char),
    c ∈ Nat.toDigitsCore 10 fuel n ds → (c ≠ '_' ∧ c ≠ '-') ∨ c ∈ ds := by
  induction fuel with
  | zero => intro n ds c h; right; simpa [Nat.toDigitsCore] using h
  | succ fuel ih =>
    intro n ds c hc
    simp only [Nat.toDigitsCore] at hc
    have hd := (digitChar_value (n % 10) (Nat.mod_lt n (by decide))).2
    by_cases h : n / 10 = 0
    · simp only [h, if_true, List.mem_cons] at hc
      rcases hc with rfl | hc
      · exact Or.inl hd
      · exact Or.inr hc
    · simp only [h, if_false] at hc
      rcases ih _ _ _ hc with h1 | h1
      · exact Or.inl h1
      · rcases List.mem_cons.mp h1 with rfl | h2
        · exact Or.inl hd
        · exact Or.inr h2

theorem Nat_repr_chars (n : Nat) (c : Char) (h : c ∈ (Nat.repr n).data) : c ≠ '_' ∧ c ≠ '-' := by
  simp only [Nat.repr, Nat.toDigits, List.asString] at h
  rcases toDigitsCore_chars _ _ _ _ h with h1 | h1
  · exact h1
  · simp at h1

theorem Nat_repr_injective {n m : Nat} (h : Nat.repr n = Nat.repr m) : n = m := by
  have h1 : (Nat.repr n).data = (Nat.repr m).data := by rw [h]
  simp only [Nat.repr, Nat.toDigits, List.asString] at h1
  have hn := numeralValue_toDigitsCore (n + 1) n (by omega)
  have hm := numeralValue_toDigitsCore (m + 1) m (by omega)
  rw [h1] at hn
  omega

theorem Int_toString_chars (x : Int) (c : Char) (h : c ∈ (toString x).data) : c ≠ '_' := by
  cases x with
  | ofNat n =>
    exact (Nat_repr_chars n c h).1
  | negSucc n =>
    have h2 : c ∈ ("-" ++ Nat.repr (n + 1)).data := h
    simp only [String.data_append, List.mem_append] at h2
    rcases h2 with h2 | h2
    · have : c = '-' := by simpa using h2
      subst this
      decide
    · exact (Nat_repr_chars _ c h2).1

theorem Int_toString_injective {x y : Int} (h : toString x = toString y) : x = y := by
  have key : ∀ (n m : Nat), Nat.repr n ≠ "-" ++ Nat.repr (m + 1) := by
    intro n m hnm
    have hmem : '-' ∈ (Nat.repr n).data := by
      rw [hnm]
      simp [String.data_append]
    exact (Nat_repr_chars n '-' hmem).2 rfl
  cases x with
  | ofNat n =>
    cases y with
    | ofNat m =>
      have : Nat.repr n = Nat.repr m := h
      rw [Nat_repr_injective this]
    | negSucc m => exact absurd h (key n m)
  | negSucc n =>
    cases y with
    | ofNat m => exact absurd h.symm (key m n)
    | negSucc m =>
      have h2 : "-" ++ Nat.repr (n + 1) = "-" ++ Nat.repr (m + 1) := h
      have h3 : Nat.repr (n + 1) = Nat.repr (m + 1) := by
        apply string_eq_of_data
        have := congrArg String.data h2
        simpa [String.data_append] using this
      have := Nat_repr_injective h3
      have : n = m := by omega
      rw [this]

theorem append_sep_injective {c : Char} : ∀ {l1 l2 r1 r2 : List Char},
    c ∉ l1 → c ∉ l2 → l1 ++ c :: r1 = l2 ++ c :: r2 → l1 = l2 ∧ r1 = r2 := by
  intro l1
  induction l1 with
  | nil =>
    intro l2 r1 r2 _ h2 h
    cases l2 with
    | nil => simpa using h
    | cons a l2 =>
      simp only [List.nil_append, List.cons_append, List.cons.injEq] at h
      exact absurd (by simp [h.1]) h2
  | cons a l1 ih =>
    intro l2 r1 r2 h1 h2 h
    cases l2 with
    | nil =>
      simp only [List.nil_append, List.cons_append, List.cons.injEq] at h
      exact absurd (by simp [h.1]) h1
    | cons b l2 =>
      simp only [List.cons_append, List.cons.injEq] at h
      have h1' : c ∉ l1 := fun hc => h1 (List.mem_cons_of_mem _ hc)
      have h2' : c ∉ l2 := fun hc => h2 (List.mem_cons_of_mem _ hc)
      obtain ⟨e1, e2⟩ := ih h1' h2' h.2
      exact ⟨by rw [h.1, e1], e2⟩

theorem orderIDOf_injective {now now' : Int} {merchantID merchantID' : Nat}
    (h : TransactionService.Controller.orderIDOf now merchantID =
      TransactionService.Controller.orderIDOf now' merchantID') :
    now = now' ∧ merchantID = merchantID' := by
  unfold TransactionService.Controller.orderIDOf at h
  have hd := congrArg String.data h
  simp only [String.data_append] at hd
  have hd2 : (toString now).data ++ '_' :: (toString merchantID).data =
      (toString now').data ++ '_' :: (toString merchantID').data := by
    have e : ("_" : String).data = ['_'] := rfl
    simp only [e, List.append_assoc, List.append_cancel_left_eq, List.singleton_append] at hd
    exact hd
  obtain ⟨e1, e2⟩ := append_sep_injective
    (fun hc => Int_toString_chars now '_' hc rfl)
    (fun hc => Int_toString_chars now' '_' hc rfl) hd2
  exact ⟨Int_toString_injective (string_eq_of_data e1),
    Nat_repr_injective (string_eq_of_data e2)⟩

end Numerals

/-! ## The create-transaction endpoint -/

section CreateTransactionEndpoint
open TransactionService.Controller

theorem CreateTransaction_bad_request_iff (env : CreateTransactionEnv) (db : TransactionDB)
    (body : Option CreateTransactionWithProductsRequest) :
    (CreateTransaction env db body).status = 400 ↔ body = none := by
  cases body with
  | none => simp [CreateTransaction]
  | some req =>
    simp only [CreateTransaction, reduceCtorEq, iff_false]
    cases (TransactionService.Usecase.CreateTransaction env.usecase db
      (buildTransaction env.now req)).result with
    | error err => simp
    | ok idTransaction =>
      simp only []
      cases TransactionService.Midtrans.CreateTransaction env.snap _ with
      | error err => simp
      | ok res => simp

/-- C22. The endpoint does not enforce the declared field rules: it answers
400 only when the body cannot be parsed, and `CreateTransaction` never calls a
validator.  A body that leaves every field out (no name, phone, email,
address, merchant id, no products) passes the vacuous stock validation, is
persisted as transaction 2 of merchant 0 and answered 200; a request with a
line of quantity 0 and price 0 is persisted with that line and answered 200
as well. -/
theorem CreateTransaction_skips_field_rules :
    (∀ (env : CreateTransactionEnv) (db : TransactionDB)
        (body : Option CreateTransactionWithProductsRequest),
      (CreateTransaction env db body).status = 400 ↔ body = none) ∧
    fieldRulesHold scenarioRequest = true ∧
    fieldRulesHold emptyOrderRequest = false ∧
    (CreateTransaction scenarioControllerEnv scenarioDB (some emptyOrderRequest)).status = 200 ∧
    (CreateTransaction scenarioControllerEnv scenarioDB (some emptyOrderRequest)).data
      = some (2, "snap-ORDER_1700000000_0", "ORDER_1700000000_0") ∧
    (CreateTransaction scenarioControllerEnv scenarioDB (some emptyOrderRequest)).db.transactions.map
      (fun row => (row.ID, row.Name, row.MerchantID, row.OrderID))
      = [(1, "Ani", 7, "ORDER_1600000000_7"), (2, "", 0, "ORDER_1700000000_0")] ∧
    fieldRulesHold zeroLineRequest = false ∧
    (CreateTransaction scenarioControllerEnv scenarioDB (some zeroLineRequest)).status = 200 ∧
    (CreateTransaction scenarioControllerEnv scenarioDB (some zeroLineRequest)).db.transactionProducts
      = [ { ID := 1, ProductID := 1, Quantity := 1, Price := 1000, SubTotal := 1000,
            TransactionID := 1 },
          { ID := 2, ProductID := 1, Quantity := 0, Price := 0, SubTotal := 0,
            TransactionID := 2 } ] :=
  ⟨CreateTransaction_bad_request_iff, by decide, by decide, by decide, by decide, by decide,
    by decide, by decide, by decide⟩

theorem repository_CreateTransaction_duplicate_order (db : TransactionDB)
    (faults : CreateTransactionFaults) (transaction : Transaction)
    (h : ∃ row ∈ db.transactions, row.OrderID = transaction.OrderID) :
    isErr (TransactionService.Repository.CreateTransaction db faults transaction).1 = true ∧
    (TransactionService.Repository.CreateTransaction db faults transaction).2.transactions
      = db.transactions := by
  unfold TransactionService.Repository.CreateTransaction
  by_cases h1 : faults.ctxDone = true
  · simp [h1, isErr]
  by_cases h2 : faults.beginErr = true
  · simp [h1, h2, isErr]
  simp only [h1, h2, if_false, Bool.false_eq_true]
  cases hins : TransactionService.Repository.insertTransaction db faults.createTransactionErr
      { transaction with TransactionProducts := [] } with
  | mk res tx1 =>
    cases res with
    | error err => simp [isErr, TransactionService.Repository.rollback]
    | ok row =>
      obtain ⟨old, hold, hid⟩ := h
      exact absurd hid ((insertTransaction_ok hins).2.2.2.2 old hold).2

theorem usecase_CreateTransaction_duplicate_order (env : UsecaseEnv) (db : TransactionDB)
    (transaction : Transaction)
    (h : ∃ row ∈ db.transactions, row.OrderID = transaction.OrderID) :
    isErr (TransactionService.Usecase.CreateTransaction env db transaction).result = true ∧
    (TransactionService.Usecase.CreateTransaction env db transaction).db.transactions
      = db.transactions := by
  unfold TransactionService.Usecase.CreateTransaction
  cases TransactionService.Usecase.validateProductStocks env transaction with
  | error err => simp [isErr]
  | ok u =>
    have hr := repository_CreateTransaction_duplicate_order db env.repoFaults transaction h
    revert hr
    cases TransactionService.Repository.CreateTransaction db env.repoFaults transaction with
    | mk res db1 =>
      cases res with
      | error err => intro hr; simpa [isErr] using hr.2
      | ok id => intro hr; simp [isErr] at hr

/-- C28 (amended). The order code is `ORDER_<Unix second>_<merchant id>`: two
create-transaction requests are given different order codes exactly when they
differ in the merchant id or in the Unix second at which they are handled.  A
request whose code is already stored (a second request for the same merchant
within the same second) is answered 500 and adds no transaction. -/
theorem order_code_by_second_and_merchant (now now' : Int) (merchantID merchantID' : Nat)
    (env : CreateTransactionEnv) (db : TransactionDB)
    (req : CreateTransactionWithProductsRequest) :
    (orderIDOf now merchantID = orderIDOf now' merchantID' ↔
      now = now' ∧ merchantID = merchantID') ∧
    ((∃ row ∈ db.transactions, row.OrderID = orderIDOf env.now req.MerchantID) →
      (CreateTransaction env db (some req)).status = 500 ∧
      (CreateTransaction env db (some req)).db.transactions = db.transactions) := by
  refine ⟨⟨orderIDOf_injective, fun h => by rw [h.1, h.2]⟩, fun h => ?_⟩
  have hu := usecase_CreateTransaction_duplicate_order env.usecase db
    (buildTransaction env.now req) (by simpa [buildTransaction] using h)
  unfold CreateTransaction
  revert hu
  simp only []
  cases (TransactionService.Usecase.CreateTransaction env.usecase db
    (buildTransaction env.now req)).result with
  | error err => intro hu; exact ⟨rfl, hu.2⟩
  | ok id => intro hu; simp [isErr] at hu

/-- Witness of C28: requests of merchants 7 and 8 in the same second get
different codes, and after the order of the scenarios is stored a request of
merchant 7 in the same second is answered 500. -/
theorem order_code_by_second_and_merchant_witness :
    orderIDOf 1700000000 7 ≠ orderIDOf 1700000000 8 ∧
    (∃ row ∈ scenarioPendingDB.transactions,
      row.OrderID = orderIDOf scenarioControllerEnv.now zeroLineRequest.MerchantID) ∧
    (CreateTransaction scenarioControllerEnv scenarioPendingDB (some zeroLineRequest)).status
      = 500 ∧
    (CreateTransaction scenarioControllerEnv scenarioPendingDB
      (some zeroLineRequest)).db.transactions = scenarioPendingDB.transactions :=
  have h := order_code_by_second_and_merchant 1700000000 1700000000 7 8 scenarioControllerEnv
    scenarioPendingDB zeroLineRequest
  have hex : ∃ row ∈ scenarioPendingDB.transactions,
      row.OrderID = orderIDOf scenarioControllerEnv.now zeroLineRequest.MerchantID := by
    decide
  ⟨fun e => absurd (h.1.mp e).2 (by decide), hex, (h.2 hex).1, (h.2 hex).2⟩

/-- C28, as stated, fails: two requests of merchant 7 handled in the second
1700000000 are both given the code `ORDER_1700000000_7`; the first is stored
and answered 200, the second is refused by the unique index on `order_id` and
answered 500. -/
theorem order_code_repeats_within_second :
    (buildTransaction 1700000000 scenarioRequest).OrderID = "ORDER_1700000000_7" ∧
    (buildTransaction 1700000000 zeroLineRequest).OrderID = "ORDER_1700000000_7" ∧
    (CreateTransaction scenarioControllerEnv scenarioDB (some scenarioRequest)).status = 200 ∧
    (TransactionService.Repository.CreateTransaction
      (CreateTransaction scenarioControllerEnv scenarioDB (some scenarioRequest)).db {}
      (buildTransaction 1700000000 zeroLineRequest)).1
      = .error "duplicate key value violates unique constraint idx_transactions_order_id" ∧
    (CreateTransaction scenarioControllerEnv
      (CreateTransaction scenarioControllerEnv scenarioDB (some scenarioRequest)).db
      (some zeroLineRequest)).status = 500 := by
  decide

end CreateTransactionEndpoint

/-! ## The stock-reduced event and its publication -/

section StockReducedPublication
open TransactionService

/-- C23. When the use case `CreateTransaction` succeeds, the event it hands to
the publisher carries the transaction's merchant id and order code and, line
by line and in the same order, the product id and quantity of each of the
transaction's line items: one pair per line, none added or dropped. -/
theorem stockReducedEvent_carries_lines (env : UsecaseEnv) (db : TransactionDB)
    (transaction : Transaction) (transactionID : Int)
    (h : (Usecase.CreateTransaction env db transaction).result = .ok transactionID) :
    ∃ event,
      (Usecase.CreateTransaction env db transaction).calls =
        [.repoCreateTransaction transaction, .publishStockReducedEvent event] ∧
      event.MerchantID = transaction.MerchantID ∧
      event.OrderID = transaction.OrderID ∧
      event.Products.length = transaction.TransactionProducts.length ∧
      event.Products.map (fun product => (product.ProductID, product.Quantity)) =
        transaction.TransactionProducts.map (fun line => (line.ProductID, line.Quantity)) := by
  refine ⟨Usecase.stockReducedEventOf env.now transaction, ?_, rfl, rfl, ?_, ?_⟩
  · unfold Usecase.CreateTransaction at h ⊢
    cases hv : Usecase.validateProductStocks env transaction with
    | error err => simp [hv] at h
    | ok u =>
      cases hr : Repository.CreateTransaction db env.repoFaults transaction with
      | mk res db1 =>
        cases res with
        | error err => simp [hv, hr] at h
        | ok id => rfl
  · simp [Usecase.stockReducedEventOf]
  · simp [Usecase.stockReducedEventOf, List.map_map, Function.comp]

/-- Witness of C23: the order of the scenarios, created in the scenario store. -/
theorem stockReducedEvent_carries_lines_witness :
    (Usecase.CreateTransaction scenarioEnv scenarioDB scenarioOrder).result = .ok 2 ∧
    ∃ event,
      (Usecase.CreateTransaction scenarioEnv scenarioDB scenarioOrder).calls =
        [.repoCreateTransaction scenarioOrder, .publishStockReducedEvent event] ∧
      event.MerchantID = scenarioOrder.MerchantID ∧
      event.OrderID = scenarioOrder.OrderID ∧
      event.Products.length = scenarioOrder.TransactionProducts.length ∧
      event.Products.map (fun product => (product.ProductID, product.Quantity)) =
        scenarioOrder.TransactionProducts.map (fun line => (line.ProductID, line.Quantity)) :=
  ⟨by decide, stockReducedEvent_carries_lines scenarioEnv scenarioDB scenarioOrder 2 (by decide)⟩

/-- C24. Whenever the stock validation passes and the repository's
`CreateTransaction` succeeds with an id, the use case returns that id with no
error and leaves the store as the repository committed it, whether the broker
accepts the stock-reduced event or refuses it; only the list of events the
broker accepted differs. -/
theorem publish_failure_keeps_order (env : UsecaseEnv) (db db1 : TransactionDB)
    (transaction : Transaction) (transactionID : Int) (publishErr : Bool)
    (hv : Usecase.validateProductStocks env transaction = .ok ())
    (hr : Repository.CreateTransaction db env.repoFaults transaction = (.ok transactionID, db1)) :
    (Usecase.CreateTransaction { env with publishErr := publishErr } db transaction).result
      = .ok transactionID ∧
    (Usecase.CreateTransaction { env with publishErr := publishErr } db transaction).db = db1 ∧
    (Usecase.CreateTransaction { env with publishErr := publishErr } db transaction).published
      = if publishErr then [] else [Usecase.stockReducedEventOf env.now transaction] := by
  have hv2 : Usecase.validateProductStocks { env with publishErr := publishErr } transaction
      = .ok () := hv
  unfold Usecase.CreateTransaction
  simp [hv2, hr]

/-- Witness of C24: the order of the scenarios with a broker that refuses the
publish; the order is stored as with a broker that accepts it. -/
theorem publish_failure_keeps_order_witness :
    Usecase.validateProductStocks scenarioEnv scenarioOrder = .ok () ∧
    Repository.CreateTransaction scenarioDB scenarioEnv.repoFaults scenarioOrder
      = (.ok 2, scenarioPendingDB) ∧
    (Usecase.CreateTransaction scenarioEnvNoBroker scenarioDB scenarioOrder).result = .ok 2 ∧
    (Usecase.CreateTransaction scenarioEnvNoBroker scenarioDB scenarioOrder).db
      = scenarioPendingDB ∧
    (Usecase.CreateTransaction scenarioEnvNoBroker scenarioDB scenarioOrder).published = [] ∧
    scenarioPendingDB.transactions.map (fun row => row.ID) = [1, 2] :=
  have h := publish_failure_keeps_order scenarioEnv scenarioDB scenarioPendingDB scenarioOrder 2
    true (by decide) (by decide)
  ⟨by decide, by decide, h.1, h.2.1, h.2.2, by decide⟩

end StockReducedPublication

/-! ## What the stock validation compares -/

section LineByLineValidation
open TransactionService

theorem validateLines_ok_iff (getStock : Nat → Nat → Except String MerchantProductResponse)
    (merchantID : Nat) (lines : List TransactionProduct) :
    Usecase.validateLines getStock merchantID lines = .ok () ↔
      ∀ line ∈ lines, ∃ merchantProduct,
        getStock merchantID line.ProductID = .ok merchantProduct ∧
        line.Quantity ≤ merchantProduct.Stock := by
  induction lines with
  | nil => simp [Usecase.validateLines]
  | cons a l ih =>
    unfold Usecase.validateLines
    cases hg : getStock merchantID a.ProductID with
    | error err => simp [hg]
    | ok mp =>
      by_cases hlt : mp.Stock < a.Quantity
      · simp only [hlt, if_true, reduceCtorEq, false_iff]
        intro hall
        obtain ⟨mp2, h1, h2⟩ := hall a (List.mem_cons_self _ _)
        rw [hg] at h1
        injection h1 with h1
        subst h1
        omega
      · simp only [hlt, if_false, ih, List.mem_cons, forall_eq_or_imp, hg, Except.ok.injEq,
          exists_eq_left']
        constructor
        · intro h; exact ⟨by omega, h⟩
        · intro h; exact h.2

/-- C26 (amended). The stock validation passes exactly when, for every line of
the order taken by itself, the merchant's stock lookup for the line's product
succeeds and the line's quantity does not exceed the stock it reports.  Lines
naming the same product are each compared with the full stock; their
quantities are not added up. -/
theorem validateProductStocks_checks_each_line (env : UsecaseEnv) (transaction : Transaction) :
    Usecase.validateProductStocks env transaction = .ok () ↔
      ∀ line ∈ transaction.TransactionProducts, ∃ merchantProduct,
        env.GetMerchantProductStock transaction.MerchantID line.ProductID = .ok merchantProduct ∧
        line.Quantity ≤ merchantProduct.Stock :=
  validateLines_ok_iff env.GetMerchantProductStock transaction.MerchantID
    transaction.TransactionProducts

/-- Witness of C26: the order of the scenarios passes, and each of its lines is
within the stock reported for its product. -/
theorem validateProductStocks_checks_each_line_witness :
    Usecase.validateProductStocks scenarioEnv scenarioOrder = .ok () ∧
    ∀ line ∈ scenarioOrder.TransactionProducts, ∃ merchantProduct,
      scenarioEnv.GetMerchantProductStock scenarioOrder.MerchantID line.ProductID
        = .ok merchantProduct ∧
      line.Quantity ≤ merchantProduct.Stock :=
  ⟨by decide, (validateProductStocks_checks_each_line scenarioEnv scenarioOrder).mp (by decide)⟩

/-- C26, as stated, fails: with 5 units of product 1 in stock, an order naming
product 1 on two lines of 3 units each passes the validation and is created,
although it requests 6 units.  The merchant's consumer then takes the first 3
units off the ledger and rejects the second line. -/
theorem validateProductStocks_passes_oversold_product :
    Usecase.validateProductStocks scenarioEnv splitLinesOrder = .ok () ∧
    scenarioEnv.GetMerchantProductStock 7 1
      = .ok { ID := 1, MerchantID := 7, ProductID := 1, ProductName := "productA", Stock := 5 } ∧
    requestedOf 1 splitLinesOrder.TransactionProducts = 6 ∧
    (Usecase.CreateTransaction scenarioEnv scenarioDB splitLinesOrder).result = .ok 2 ∧
    (Usecase.CreateTransaction scenarioEnv scenarioDB splitLinesOrder).published.map
      (fun event => event.Products)
      = [[{ ProductID := 1, Quantity := 3 }, { ProductID := 1, Quantity := 3 }]] ∧
    (MerchantService.Rabbitmq.reduceProducts (fun _ => {}) 7 0
      [{ ProductID := 1, Quantity := 3 }, { ProductID := 1, Quantity := 3 }] scenarioLedger).map
      (fun row => (row.ProductID, row.MerchantID, row.Stock))
      = [(1, 7, 2), (2, 7, 2), (1, 8, 4)] := by
  decide

end LineByLineValidation

/-! ## The direction of a stock reduction -/

section ReductionDirection

theorem merchant_ReduceStock_not_raised (ledger : List MerchantProduct)
    (faults : ReduceStockFaults) (merchantID productID : Nat) (quantity : Int)
    (hq : 0 ≤ quantity)
    (hkey : ∀ a ∈ ledger, ∀ b ∈ ledger, a.ID = b.ID → a = b)
    (hint : ∀ row ∈ ledger, isInt64 row.Stock) :
    List.Forall₂ (fun before after => after.ID = before.ID ∧ after.Stock ≤ before.Stock) ledger
      (MerchantService.Repository.ReduceStock ledger faults merchantID productID quantity).2 := by
  unfold MerchantService.Repository.ReduceStock
  by_cases h1 : faults.ctxDone = true
  · simp [h1]
  by_cases h2 : faults.firstErr = true
  · simp [h1, h2]
  cases h3 : firstByKey MerchantProduct.ID
      (fun row => row.MerchantID == merchantID && row.ProductID == productID) ledger with
  | none => simp [h1, h2]
  | some found =>
    by_cases h4 : found.Stock < quantity
    · simp [h1, h2, h4]
    by_cases h5 : faults.updateErr = true
    · simp [h1, h2, h4, h5]
    · simp only [h1, h2, h4, h5, if_false, Bool.false_eq_true]
      apply forall₂_map_of_forall
      intro r hr
      have hfm := (firstByKey_some h3).1
      have hw : wrapInt64 (found.Stock - quantity) = found.Stock - quantity :=
        wrapInt64_of_isInt64 (by
          have := hint found hfm
          unfold isInt64 at this ⊢
          norm_num at this ⊢
          omega)
      by_cases hid : r.ID = found.ID
      · have hrf : r = found := hkey r hr found hfm hid
        subst hrf
        simp only [beq_self_eq_true, if_true, hw, true_and]
        omega
      · simp [hid]

theorem warehouse_UpdateWarehouseProduct_not_raised (ledger : List WarehouseProduct)
    (faults : StockReductionFaults) (found : WarehouseProduct) (newStock : Int)
    (hfound : found ∈ ledger) (hle : newStock ≤ found.Stock)
    (hkey : ∀ a ∈ ledger, ∀ b ∈ ledger, a.ID = b.ID → a = b) :
    List.Forall₂ (fun before after => after.ID = before.ID ∧ after.Stock ≤ before.Stock) ledger
      (WarehouseService.Repository.UpdateWarehouseProduct ledger faults
        { found with Stock := newStock }).2 := by
  unfold WarehouseService.Repository.UpdateWarehouseProduct
  by_cases h1 : faults.updateCtxDone = true
  · simp [h1]
  by_cases h2 : faults.updateFirstErr = true
  · simp [h1, h2]
  cases h3 : firstByKey WarehouseProduct.ID (fun row => row.ID == found.ID) ledger with
  | none => simp [h1, h2]
  | some existing =>
    by_cases h5 : faults.saveErr = true
    · simp [h1, h2, h5]
    · simp only [h1, h2, h5, if_false, Bool.false_eq_true]
      apply forall₂_map_of_forall
      intro r hr
      obtain ⟨hem, hec, _⟩ := firstByKey_some h3
      simp only [beq_iff_eq] at hec
      have hef : existing = found := hkey existing hem found hfound hec
      subst hef
      by_cases hid : r.ID = existing.ID
      · have hrf : r = existing := hkey r hr existing hem hid
        subst hrf
        simpa using hle
      · simp [hid]

theorem warehouse_processStockReduction_not_raised (ledger : List WarehouseProduct)
    (faults : StockReductionFaults) (event : StockReductionEvent)
    (hq : 0 ≤ event.Stock) (hqi : isInt64 event.Stock)
    (hkey : ∀ a ∈ ledger, ∀ b ∈ ledger, a.ID = b.ID → a = b)
    (hint : ∀ row ∈ ledger, 0 ≤ row.Stock ∧ isInt64 row.Stock) :
    List.Forall₂ (fun before after => after.ID = before.ID ∧ after.Stock ≤ before.Stock) ledger
      (WarehouseService.Rabbitmq.processStockReduction ledger faults event).2 := by
  unfold WarehouseService.Rabbitmq.processStockReduction
  cases hget : WarehouseService.Repository.GetWarehouseProductByWarehouseIDAndProductID ledger
      faults event.WarehouseID event.ProductID with
  | error e => simp
  | ok found =>
    have hfm : found ∈ ledger := by
      unfold WarehouseService.Repository.GetWarehouseProductByWarehouseIDAndProductID at hget
      split at hget
      · cases hget
      · split at hget
        · cases hget
        · split at hget
          · cases hget
          · rename_i heq
            injection hget with hget
            subst hget
            exact (firstByKey_some heq).1
    simp only []
    by_cases hneg : wrapInt64 (found.Stock - event.Stock) < 0
    · simp [hneg]
    · simp only [hneg, if_false]
      have hw : wrapInt64 (found.Stock - event.Stock) = found.Stock - event.Stock :=
        wrapInt64_of_isInt64 (by
          have := hint found hfm
          unfold isInt64 at this hqi ⊢
          norm_num at this hqi ⊢
          omega)
      have hupd := warehouse_UpdateWarehouseProduct_not_raised ledger faults found
        (wrapInt64 (found.Stock - event.Stock)) hfm (by rw [hw]; omega) hkey
      revert hupd
      generalize WarehouseService.Repository.UpdateWarehouseProduct ledger faults
        { found with Stock := wrapInt64 (found.Stock - event.Stock) } = res
      intro hupd
      rcases res with ⟨_ | _, ledger1⟩ <;> exact hupd

/-- C27 (amended). A stock reduction by a quantity that is not negative never
raises stock: on a merchant ledger whose stocks are `int` values and whose
rows have distinct ids, and on a warehouse ledger whose stocks are
non-negative `int` values and whose rows have distinct ids, after merchant
`ReduceStock` with a quantity `>= 0` and after warehouse
`processStockReduction` with an event quantity `>= 0` (an `int` value),
whether the call succeeds or fails, every row keeps its id and its stock is
less than or equal to its prior stock. -/
theorem reduction_never_raises_stock
    (mLedger : List MerchantProduct) (mFaults : ReduceStockFaults)
    (merchantID productID : Nat) (quantity : Int)
    (wLedger : List WarehouseProduct) (wFaults : StockReductionFaults)
    (event : StockReductionEvent)
    (hq : 0 ≤ quantity) (he : 0 ≤ event.Stock) (hei : isInt64 event.Stock)
    (hmkey : ∀ a ∈ mLedger, ∀ b ∈ mLedger, a.ID = b.ID → a = b)
    (hwkey : ∀ a ∈ wLedger, ∀ b ∈ wLedger, a.ID = b.ID → a = b)
    (hm : ∀ row ∈ mLedger, isInt64 row.Stock)
    (hw : ∀ row ∈ wLedger, 0 ≤ row.Stock ∧ isInt64 row.Stock) :
    List.Forall₂ (fun before after => after.ID = before.ID ∧ after.Stock ≤ before.Stock) mLedger
      (MerchantService.Repository.ReduceStock mLedger mFaults merchantID productID quantity).2 ∧
    List.Forall₂ (fun before after => after.ID = before.ID ∧ after.Stock ≤ before.Stock) wLedger
      (WarehouseService.Rabbitmq.processStockReduction wLedger wFaults event).2 :=
  ⟨merchant_ReduceStock_not_raised mLedger mFaults merchantID productID quantity hq hmkey hm,
   warehouse_processStockReduction_not_raised wLedger wFaults event he hei hwkey hw⟩

/-- Witness of C27: 3 units of product 1 leave merchant 7 (5 becomes 2) and 4
units leave warehouse 3 (10 becomes 6). -/
theorem reduction_never_raises_stock_witness :
    (MerchantService.Repository.ReduceStock scenarioLedger {} 7 1 3).1 = .ok () ∧
    (WarehouseService.Rabbitmq.processStockReduction scenarioWarehouseLedger {}
      { WarehouseID := 3, ProductID := 1, Stock := 4 }).1 = .ok () ∧
    List.Forall₂ (fun before after => after.ID = before.ID ∧ after.Stock ≤ before.Stock)
      scenarioLedger (MerchantService.Repository.ReduceStock scenarioLedger {} 7 1 3).2 ∧
    List.Forall₂ (fun before after => after.ID = before.ID ∧ after.Stock ≤ before.Stock)
      scenarioWarehouseLedger
      (WarehouseService.Rabbitmq.processStockReduction scenarioWarehouseLedger {}
        { WarehouseID := 3, ProductID := 1, Stock := 4 }).2 :=
  have h := reduction_never_raises_stock scenarioLedger {} 7 1 3 scenarioWarehouseLedger {}
    { WarehouseID := 3, ProductID := 1, Stock := 4 } (by decide) (by decide) (by decide)
    (by decide) (by decide) (by decide) (by decide)
  ⟨by decide, by decide, h.1, h.2⟩

/-- C27, as stated, fails: on the scenario ledgers a quantity of -5 passes the
check `Stock < quantity` of merchant `ReduceStock` (5 is not below -5) and
raises the stock of merchant 7's product 1 from 5 to 10; an event quantity of
-4 raises the stock of warehouse 3's product 1 from 10 to 14.  The order
validation of the use case, against a stock of 5, lets a line of quantity -5
pass as well. -/
theorem negative_quantity_raises_stock :
    (MerchantService.Repository.ReduceStock scenarioLedger {} 7 1 (-5)).1 = .ok () ∧
    (MerchantService.Repository.ReduceStock scenarioLedger {} 7 1 (-5)).2.map
      (fun row => (row.ID, row.Stock)) = [(1, 10), (2, 2), (3, 4)] ∧
    scenarioLedger.map (fun row => (row.ID, row.Stock)) = [(1, 5), (2, 2), (3, 4)] ∧
    (WarehouseService.Rabbitmq.processStockReduction scenarioWarehouseLedger {}
      { WarehouseID := 3, ProductID := 1, Stock := -4 }).1 = .ok () ∧
    (WarehouseService.Rabbitmq.processStockReduction scenarioWarehouseLedger {}
      { WarehouseID := 3, ProductID := 1, Stock := -4 }).2.map
      (fun row => (row.ID, row.Stock)) = [(1, 14), (2, 6)] ∧
    scenarioWarehouseLedger.map (fun row => (row.ID, row.Stock)) = [(1, 10), (2, 6)] ∧
    TransactionService.Usecase.validateLines scenarioEnv.GetMerchantProductStock 7
      [{ ProductID := 1, Quantity := -5, Price := 1000, SubTotal := -5000 }] = .ok () := by
  decide

end ReductionDirection

/-! ## The stock-reduction event between publisher and consumer -/

section WireFormat
open WarehouseService.Rabbitmq TransactionService.Rabbitmq

theorem unmarshal_marshal_StockReductionEvent (event : TransactionService.Rabbitmq.StockReductionEvent)
    (h : isInt64 event.Stock) :
    unmarshalStockReductionEvent (marshalStockReductionEvent event) =
      some { WarehouseID := 0, ProductID := event.ProductID, Stock := event.Stock,
             MerchantID := event.MerchantID, Timestamp := event.Timestamp } := by
  have e1 : foldCase "warhouse_id" = "warhouse_id" := by decide
  have e2 : foldCase "product_id" = "product_id" := by decide
  have e3 : foldCase "stock" = "stock" := by decide
  have e4 : foldCase "merchant_id" = "merchant_id" := by decide
  have e5 : foldCase "timestamp" = "timestamp" := by decide
  simp [unmarshalStockReductionEvent, marshalStockReductionEvent, setField, e1, e2, e3, e4, e5, h]

/-- C25. The location id does not survive the wire: the publisher's struct
writes it under the key `warhouse_id`, the consumer's struct reads
`warehouse_id`, so `json.Unmarshal` skips the key and every decoded event has
warehouse id 0 (product id, stock and merchant id arrive unchanged).  For the
event of a ledger row created for warehouse 3, `processStockReduction` looks
up warehouse 0, finds no row and changes nothing, where the published
warehouse would have gone from 10 to 6. -/
theorem StockReductionEvent_loses_warehouse_id :
    (∀ event : TransactionService.Rabbitmq.StockReductionEvent, isInt64 event.Stock →
      unmarshalStockReductionEvent (marshalStockReductionEvent event) =
        some { WarehouseID := 0, ProductID := event.ProductID, Stock := event.Stock,
               MerchantID := event.MerchantID, Timestamp := event.Timestamp }) ∧
    marshalStockReductionEvent
        (MerchantService.Usecase.stockReductionEventOf scenarioNewMerchantProduct 1700000000)
      = [ ("warhouse_id", .number 3), ("product_id", .number 1), ("stock", .number 4),
          ("merchant_id", .number 7), ("timestamp", .time 1700000000) ] ∧
    unmarshalStockReductionEvent (marshalStockReductionEvent
        (MerchantService.Usecase.stockReductionEventOf scenarioNewMerchantProduct 1700000000))
      = some { WarehouseID := 0, ProductID := 1, Stock := 4, MerchantID := 7,
               Timestamp := 1700000000 } ∧
    unmarshalStockReductionEvent
        [ ("warehouse_id", .number 3), ("product_id", .number 1), ("stock", .number 4),
          ("merchant_id", .number 7), ("timestamp", .time 1700000000) ]
      = some { WarehouseID := 3, ProductID := 1, Stock := 4, MerchantID := 7,
               Timestamp := 1700000000 } ∧
    processStockReduction scenarioWarehouseLedger {}
        { WarehouseID := 0, ProductID := 1, Stock := 4, MerchantID := 7, Timestamp := 1700000000 }
      = (.error "record not found", scenarioWarehouseLedger) ∧
    (processStockReduction scenarioWarehouseLedger {}
        { WarehouseID := 3, ProductID := 1, Stock := 4, MerchantID := 7,
          Timestamp := 1700000000 }).2.map (fun row => (row.WarehouseID, row.ProductID, row.Stock))
      = [(3, 1, 6), (3, 2, 6)] :=
  ⟨unmarshal_marshal_StockReductionEvent, by decide, by decide, by decide, by decide, by decide⟩

end WireFormat
/-! ## Login at the gateway and at the user service -/

section LoginHandlers

theorem forwardLoginRequest_nil_nil_iff (upstream : ApiGateway.Controller.LoginUpstream)
    (loginReq : ApiGateway.Controller.LoginRequest) :
    ApiGateway.Controller.forwardLoginRequest upstream loginReq = (none, none) ↔
      upstream.newRequestErr = none ∧
      ∃ resp, upstream.Do loginReq = .ok resp ∧ resp.readErr = none ∧ resp.StatusCode ≠ 200 := by
  unfold ApiGateway.Controller.forwardLoginRequest
  cases hn : upstream.newRequestErr with
  | some err => simp
  | none =>
    cases hd : upstream.Do loginReq with
    | error err => simp
    | ok resp =>
      cases hr : resp.readErr with
      | some err => simp [hr]
      | none =>
        by_cases hs : resp.StatusCode = 200
        · cases hb : resp.Body with
          | error err => simp [hs, hr, hb]
          | ok data => simp [hs, hr, hb]
        · simp [hs, hr]

/-- C29. `forwardLoginRequest` does return a nil response together with a nil
error: it does so exactly when the user service answers the forwarded login
with a status other than 200 (line 129 returns the `err` of `io.ReadAll`,
which is nil there).  When the user service answers a wrong password with
401, `Login` finds no error, reads `loginResp.UserID` through the nil pointer
and panics instead of responding with an error status. -/
theorem forwardLoginRequest_returns_nil_nil :
    (∀ (upstream : ApiGateway.Controller.LoginUpstream)
        (loginReq : ApiGateway.Controller.LoginRequest),
      ApiGateway.Controller.forwardLoginRequest upstream loginReq = (none, none) ↔
        upstream.newRequestErr = none ∧
        ∃ resp, upstream.Do loginReq = .ok resp ∧ resp.readErr = none ∧
          resp.StatusCode ≠ 200) ∧
    ApiGateway.Controller.forwardLoginRequest scenarioLoginUpstream
      { Email := "ani@example.com", Password := "salah" } = (none, none) ∧
    ApiGateway.Controller.Login scenarioLoginUpstream scenarioSignedString scenarioJWTConfig
      1700000000000000000 (.ok { Email := "ani@example.com", Password := "salah" })
      = .panic nilDereference ∧
    ApiGateway.Controller.Login scenarioLoginUpstream scenarioSignedString scenarioJWTConfig
      1700000000000000000 (.ok { Email := "ani@example.com", Password := "rahasia" })
      = .respond 200 "Login successful" :=
  ⟨forwardLoginRequest_nil_nil_iff, by decide, by decide, by decide⟩

theorem UserService_Login_never_401 (env : UserService.Controller.LoginEnv)
    (body : Option UserService.Controller.LoginRequest) (message : String) :
    UserService.Controller.Login env body ≠ .respond 401 message := by
  unfold UserService.Controller.Login
  cases body with
  | none => simp
  | some loginRequest =>
    simp only []
    cases env.Validate loginRequest with
    | some e => simp
    | none =>
      simp only []
      rcases UserService.Usecase.GetUserByEmail env.users env.faults loginRequest.Email with
        ⟨user, err⟩
      cases err with
      | some e => simp
      | none =>
        cases user with
        | none => simp [errorText]
        | some user =>
          by_cases hs : env.CheckPasswordHash loginRequest.Password user.Password = true
          · simp [hs]
          · simp [hs, errorText]

theorem UserService_Login_mismatch (env : UserService.Controller.LoginEnv)
    (loginRequest : UserService.Controller.LoginRequest) (user : User)
    (hv : env.Validate loginRequest = none)
    (hu : UserService.Usecase.GetUserByEmail env.users env.faults loginRequest.Email
      = (some user, none))
    (hp : env.CheckPasswordHash loginRequest.Password user.Password = false) :
    UserService.Controller.Login env (some loginRequest) = .panic nilDereference := by
  unfold UserService.Controller.Login
  simp [hv, hu, hp, errorText]

/-- C30. For an existing user and a password that does not match the stored
hash, the user service's `Login` does not respond 401: line 57 calls
`err.Error()` on the `err` that line 41 has found nil, so the handler panics
before the response is written.  No request at all is answered 401 by this
handler. -/
theorem UserService_Login_wrong_password_panics :
    (∀ (env : UserService.Controller.LoginEnv)
        (loginRequest : UserService.Controller.LoginRequest) (user : User),
      env.Validate loginRequest = none →
      UserService.Usecase.GetUserByEmail env.users env.faults loginRequest.Email
        = (some user, none) →
      env.CheckPasswordHash loginRequest.Password user.Password = false →
      UserService.Controller.Login env (some loginRequest) = .panic nilDereference) ∧
    (∀ (env : UserService.Controller.LoginEnv)
        (body : Option UserService.Controller.LoginRequest) (message : String),
      UserService.Controller.Login env body ≠ .respond 401 message) ∧
    UserService.Usecase.GetUserByEmail scenarioUsersTable {} "ani@example.com"
      = (some { ID := 42, Name := "Ani", Email := "ani@example.com", Password := "hash(rahasia)",
                Roles := [{ ID := 2, Name := "Keeper" }] }, none) ∧
    scenarioLoginEnv.CheckPasswordHash "salah" "hash(rahasia)" = false ∧
    UserService.Controller.Login scenarioLoginEnv
      (some { Email := "ani@example.com", Password := "salah" }) = .panic nilDereference ∧
    UserService.Controller.Login scenarioLoginEnv
      (some { Email := "ani@example.com", Password := "rahasia" })
      = .respond 200 "Login successful" :=
  ⟨UserService_Login_mismatch, UserService_Login_never_401, by decide, by decide, by decide,
    by decide⟩

end LoginHandlers

end MicroWarehouse
